import Mathlib

/-!
# SnapScreen: signaling relay and negotiation sessions

A shallow embedding of the signaling server (`internal/server`) and of the
client negotiation sessions (`pkg/client`) of SnapScreen, followed by the
properties proved about them.

Conventions of the embedding.

* A `*Client` is a reference (`ClientRef`) into a heap of `Client` records that
  is part of the server state; `ServeWS` allocates the next unused reference.
* A Go `map` is an association list with unique keys (`AList`); a `range` loop
  over a map visits the entries in the order of that list.
* The buffered channel `Client.Send` is the list of the messages it holds,
  oldest first, together with a flag recording that `close` has run on it.
  The bytes put on the channel are `json.Marshal(msg)`; the model stores the
  message itself.
* A run-time panic (send on a closed channel, close of a closed channel) is
  the result `none`: the handlers run in goroutines without `recover`.
* Every handler body takes the server lock for its whole registry access, so a
  handler invocation is one atomic transition.
-/

namespace SnapScreen

/-! ## pkg/signal/types.go -/

/-- The `type` field of a signaling message (`signal.MessageType`, a string). -/
abbrev MessageType := String

def MsgTypeRegister : MessageType := "register"
def MsgTypeUnregister : MessageType := "unregister"
def MsgTypeListStreams : MessageType := "list_streams"
def MsgTypeSubscribe : MessageType := "subscribe"
def MsgTypeUnsubscribe : MessageType := "unsubscribe"
def MsgTypeOffer : MessageType := "offer"
def MsgTypeAnswer : MessageType := "answer"
def MsgTypeICECandidate : MessageType := "ice_candidate"
def MsgTypeStreamList : MessageType := "stream_list"
def MsgTypeError : MessageType := "error"
def MsgTypeSuccess : MessageType := "success"

/-- The values `Message.Data` (an `interface{}`) takes in the server: absent,
the list of stream ids of a `stream_list`, the `{"message": info}` object of a
`success`, or the uninterpreted JSON value of a message received from a client. -/
inductive Payload where
  | absent
  | streamIDs (ids : List String)
  | info (message : String)
  | raw (json : String)
  deriving DecidableEq, Repr

/-- The record `signal.Message`. -/
structure Message where
  Type_ : MessageType
  StreamID : String := ""
  PeerID : String := ""
  Data : Payload := Payload.absent
  Error : String := ""
  deriving DecidableEq, Repr

/-! ## internal/server/client.go, stream.go, server.go -/

/-- A `*Client`. -/
abbrev ClientRef := Nat

/-- The capacity of `Client.Send` (`make(chan []byte, 256)`). -/
def sendCapacity : Nat := 256

/-- The mutable fields of `Client` that the router reads or writes. `Send` is
the content of the channel, oldest message first; `SendClosed` records
`close(c.Send)`. -/
structure Client where
  Send : List Message := []
  SendClosed : Bool := false
  Role : String := ""
  StreamID : String := ""
  PeerID : String := ""
  deriving DecidableEq, Repr

/-- The constructor `NewClient`; `peerID` is the value `utils.GenID()` returned. -/
def NewClient (peerID : String) : Client :=
  { Send := [], SendClosed := false, Role := "", StreamID := "", PeerID := peerID }

/-- The record `PublisherStream`. `Publisher` may be `nil` as far as the type
goes (the router tests it); a `nil` `Viewers` map behaves as the empty map. -/
structure PublisherStream where
  Publisher : Option ClientRef
  Viewers : AList (fun _ : String => ClientRef)
  deriving DecidableEq

/-- The constructor `NewPublisherStream`. -/
def NewPublisherStream (pub : ClientRef) : PublisherStream :=
  { Publisher := some pub, Viewers := ∅ }

/-- The server state: the two maps of `Server`, and the heap of `Client`
records with its allocation counter. -/
structure Server where
  Clients : Finset ClientRef
  Streams : AList (fun _ : String => PublisherStream)
  heap : ClientRef → Client
  next : ClientRef

/-- The constructor `NewServer`. -/
def NewServer : Server :=
  { Clients := ∅, Streams := ∅, heap := fun _ => NewClient "", next := 0 }

/-- Overwrite the record a `*Client` points to. -/
def Server.setClient (s : Server) (c : ClientRef) (v : Client) : Server :=
  { s with heap := Function.update s.heap c v }

/-- Replace the `Clients` set. -/
def Server.setClients (s : Server) (m : Finset ClientRef) : Server :=
  { s with Clients := m }

/-- Replace the `Streams` map. -/
def Server.setStreams (s : Server) (m : AList (fun _ : String => PublisherStream)) : Server :=
  { s with Streams := m }

/-! ## internal/server/router.go: the `Client` helpers -/

/-- The effect of `select { case c.Send <- b: default: }` on the content of an
open channel: the message is appended when there is room and dropped
otherwise. -/
def trySend (queue : List Message) (msg : Message) : List Message :=
  if queue.length < sendCapacity then queue ++ [msg] else queue

/-- `Client.SendJSON`: the non-blocking send, which panics on a closed
channel. (`json.Marshal` does not fail on the payloads of `Payload`.) -/
def Client.SendJSON (c : Client) (msg : Message) : Option Client :=
  if c.SendClosed then none
  else some { c with Send := trySend c.Send msg }

/-- `Client.SendJSON` on a `*Client`. -/
def Server.SendJSON (s : Server) (c : ClientRef) (msg : Message) : Option Server :=
  ((s.heap c).SendJSON msg).map fun v => s.setClient c v

/-- The message `Client.SendError` builds. -/
def errorMessage (errMsg : String) : Message :=
  { Type_ := MsgTypeError, Error := errMsg }

/-- The message `Client.SendSuccess` builds. -/
def successMessage (info : String) : Message :=
  { Type_ := MsgTypeSuccess, Data := Payload.info info }

/-- `Client.SendError`. -/
def Server.SendError (s : Server) (c : ClientRef) (errMsg : String) : Option Server :=
  s.SendJSON c (errorMessage errMsg)

/-- `Client.SendSuccess`. -/
def Server.SendSuccess (s : Server) (c : ClientRef) (info : String) : Option Server :=
  s.SendJSON c (successMessage info)

/-! ## internal/server/router.go: the handlers -/

/-- `Server.handleRegister`. -/
def handleRegister (s : Server) (c : ClientRef) (msg : Message) : Option Server :=
  if msg.StreamID = "" then s.SendError c "stream_id required"
  else if (s.Streams.lookup msg.StreamID).isSome then
    s.SendError c "stream_id already registered"
  else
    let s1 := s.setClient c { s.heap c with Role := "publisher", StreamID := msg.StreamID }
    let s2 := s1.setStreams (s1.Streams.insert msg.StreamID (NewPublisherStream c))
    s2.SendSuccess c "stream registered"

/-- The loop of `handleUnregister` over `stream.Viewers`: each viewer is sent
the error "stream removed" (and its entry deleted from the stream, which is
itself deleted right after the loop). -/
def notifyViewers (s : Server) (viewers : List (Sigma fun _ : String => ClientRef)) :
    Option Server :=
  viewers.foldlM (fun acc v => acc.SendError v.2 "stream removed") s

/-- `Server.handleUnregister`. -/
def handleUnregister (s : Server) (c : ClientRef) (msg : Message) : Option Server :=
  if msg.StreamID = "" then s.SendError c "stream_id required"
  else
    match s.Streams.lookup msg.StreamID with
    | some stream =>
      if stream.Publisher = some c then
        (notifyViewers s stream.Viewers.entries).bind fun s1 =>
          let s2 := s1.setStreams (s1.Streams.erase msg.StreamID)
          let s3 := s2.setClient c { s2.heap c with StreamID := "" }
          s3.SendSuccess c "stream unregistered"
      else s.SendError c "stream not found or not publisher"
    | none => s.SendError c "stream not found or not publisher"

/-- `Server.handleListStreams`. -/
def handleListStreams (s : Server) (c : ClientRef) : Option Server :=
  s.SendJSON c { Type_ := MsgTypeStreamList, Data := Payload.streamIDs s.Streams.keys }

/-- `Server.handleSubscribe`. -/
def handleSubscribe (s : Server) (c : ClientRef) (msg : Message) : Option Server :=
  if msg.StreamID = "" then s.SendError c "stream_id required"
  else
    match s.Streams.lookup msg.StreamID with
    | none => s.SendError c "stream not found"
    | some stream =>
      let s1 := s.setClient c
        { s.heap c with Role := "viewer", StreamID := msg.StreamID, PeerID := msg.PeerID }
      let stream1 := { stream with Viewers := stream.Viewers.insert msg.PeerID c }
      let s2 := s1.setStreams (s1.Streams.insert msg.StreamID stream1)
      s2.SendSuccess c "subscribed"

/-- `Server.handleUnsubscribe`. -/
def handleUnsubscribe (s : Server) (c : ClientRef) (msg : Message) : Option Server :=
  if msg.StreamID = "" then s.SendError c "stream_id required"
  else
    match s.Streams.lookup msg.StreamID with
    | none => s.SendError c "stream not found"
    | some stream =>
      let stream1 := { stream with Viewers := stream.Viewers.erase (s.heap c).PeerID }
      let s1 := s.setStreams (s.Streams.insert msg.StreamID stream1)
      let s2 := s1.setClient c { s1.heap c with StreamID := "" }
      s2.SendSuccess c "unsubscribed"

/-- The `if stream.Publisher != nil { stream.Publisher.SendJSON(msg) }` of
`forwardSignal`. -/
def sendToPublisher (s : Server) (stream : PublisherStream) (msg : Message) : Option Server :=
  match stream.Publisher with
  | some p => s.SendJSON p msg
  | none => some s

/-- The `if viewer, ok := stream.Viewers[msg.PeerID]; ok { viewer.SendJSON(msg) }`
of `forwardSignal`. -/
def sendToViewer (s : Server) (stream : PublisherStream) (msg : Message) : Option Server :=
  match stream.Viewers.lookup msg.PeerID with
  | some v => s.SendJSON v msg
  | none => some s

/-- `Server.forwardSignal`. -/
def forwardSignal (s : Server) (c : ClientRef) (msg : Message) : Option Server :=
  if msg.Type_ = MsgTypeOffer then
    match s.Streams.lookup msg.StreamID with
    | none => s.SendError c "stream not found"
    | some stream => sendToPublisher s stream msg
  else if msg.Type_ = MsgTypeAnswer then
    match s.Streams.lookup msg.StreamID with
    | none => s.SendError c "stream not found"
    | some stream => sendToViewer s stream msg
  else if msg.Type_ = MsgTypeICECandidate then
    match s.Streams.lookup msg.StreamID with
    | none => s.SendError c "stream not found"
    | some stream =>
      if (s.heap c).Role = "viewer" then sendToPublisher s stream msg
      else if (s.heap c).Role = "publisher" then sendToViewer s stream msg
      else some s
  else some s

/-- `Server.RouteMessage`. -/
def RouteMessage (s : Server) (c : ClientRef) (msg : Message) : Option Server :=
  if msg.Type_ = MsgTypeRegister then handleRegister s c msg
  else if msg.Type_ = MsgTypeUnregister then handleUnregister s c msg
  else if msg.Type_ = MsgTypeListStreams then handleListStreams s c
  else if msg.Type_ = MsgTypeSubscribe then handleSubscribe s c msg
  else if msg.Type_ = MsgTypeUnsubscribe then handleUnsubscribe s c msg
  else if msg.Type_ = MsgTypeOffer ∨ msg.Type_ = MsgTypeAnswer
      ∨ msg.Type_ = MsgTypeICECandidate then forwardSignal s c msg
  else s.SendError c "unknown message type"

/-! ## internal/server/server.go and client.go: connection lifecycle -/

/-- `Server.ServeWS` after a successful upgrade: `NewClient` allocates a
client, `registerClient` adds it to `Clients`. -/
def ServeWS (s : Server) (peerID : String) : Server :=
  { Clients := insert s.next s.Clients
    Streams := s.Streams
    heap := Function.update s.heap s.next (NewClient peerID)
    next := s.next + 1 }

/-- The first loop of `unregisterClient`: each viewer of the closing
publisher's stream is sent "stream removed" and has its `StreamID` cleared. -/
def evictViewers (s : Server) (viewers : List (Sigma fun _ : String => ClientRef)) :
    Option Server :=
  viewers.foldlM
    (fun acc v => (acc.SendError v.2 "stream removed").map fun s1 =>
      s1.setClient v.2 { s1.heap v.2 with StreamID := "" }) s

/-- The publisher branch of `unregisterClient`. `c.StreamID` is read again for
the `delete`, after the loop. -/
def unregisterPublisher (s : Server) (c : ClientRef) : Option Server :=
  if (s.heap c).Role = "publisher" ∧ (s.heap c).StreamID ≠ "" then
    (match s.Streams.lookup (s.heap c).StreamID with
      | some stream => evictViewers s stream.Viewers.entries
      | none => some s).map fun (s1 : Server) =>
        s1.setStreams (s1.Streams.erase (s1.heap c).StreamID)
  else some s

/-- The viewer branch of `unregisterClient`. -/
def unregisterViewer (s : Server) (c : ClientRef) : Server :=
  if (s.heap c).Role = "viewer" ∧ (s.heap c).StreamID ≠ "" then
    match s.Streams.lookup (s.heap c).StreamID with
    | some stream =>
      let stream1 := { stream with Viewers := stream.Viewers.erase (s.heap c).PeerID }
      s.setStreams (s.Streams.insert (s.heap c).StreamID stream1)
    | none => s
  else s

/-- The statement `close(c.Send)`: panics when the channel is closed already. -/
def closeSend (s : Server) (c : ClientRef) : Option Server :=
  if (s.heap c).SendClosed then none
  else some (s.setClient c { s.heap c with SendClosed := true })

/-- `Server.unregisterClient`, run once by the deferred call of `readPump`. -/
def unregisterClient (s : Server) (c : ClientRef) : Option Server :=
  (unregisterPublisher (s.setClients (s.Clients.erase c)) c).bind fun s1 =>
    closeSend (unregisterViewer s1 c) c

/-- One receive `<-c.Send` of `writePump`: the oldest queued message leaves
the channel. -/
def writePumpRecv (s : Server) (c : ClientRef) : Server :=
  s.setClient c { s.heap c with Send := (s.heap c).Send.tail }

/-- One transition of the server: a connection is accepted, a live
connection's read loop routes a parsed message or rejects an unparsable
frame, a live connection closes, or a write loop takes a message off a
queue. A transition that panics has no successor state. -/
inductive Step : Server → Server → Prop
  | accept (s : Server) (peerID : String) : Step s (ServeWS s peerID)
  | route (s : Server) (c : ClientRef) (msg : Message) (t : Server) :
      c ∈ s.Clients → RouteMessage s c msg = some t → Step s t
  | invalid (s : Server) (c : ClientRef) (t : Server) :
      c ∈ s.Clients → s.SendError c "invalid message format" = some t → Step s t
  | close (s : Server) (c : ClientRef) (t : Server) :
      c ∈ s.Clients → unregisterClient s c = some t → Step s t
  | write (s : Server) (c : ClientRef) : Step s (writePumpRecv s c)

/-- The states the server can be in: those reached from `NewServer`. -/
inductive Reachable : Server → Prop
  | init : Reachable NewServer
  | step (s t : Server) : Reachable s → Step s t → Reachable t

/-- The events that drive the server. -/
inductive Event where
  | accept (peerID : String)
  | route (c : ClientRef) (msg : Message)
  | invalid (c : ClientRef)
  | close (c : ClientRef)
  | write (c : ClientRef)

/-- The transition an event causes; `none` when the event cannot happen (the
connection is not live) or the server panics. -/
def applyEvent (s : Server) : Event → Option Server
  | Event.accept peerID => some (ServeWS s peerID)
  | Event.route c msg => if c ∈ s.Clients then RouteMessage s c msg else none
  | Event.invalid c => if c ∈ s.Clients then s.SendError c "invalid message format" else none
  | Event.close c => if c ∈ s.Clients then unregisterClient s c else none
  | Event.write c => some (writePumpRecv s c)

/-- Run a sequence of events. -/
def run (s : Server) (events : List Event) : Option Server :=
  events.foldlM applyEvent s

/-! ## pkg/client/common.go, viewer.go: the viewer session -/

/-- The record `signalMessage` of the client side; `Data` is the raw JSON. -/
structure signalMessage where
  Type_ : String
  StreamID : String := ""
  PeerID : String := ""
  Data : String := ""
  Error : String := ""
  deriving DecidableEq, Repr

/-- A live resource of the client (a `*websocket.Conn`, a
`*webrtc.PeerConnection`, a `*webrtc.DataChannel`); `none` is `nil`. -/
abbrev Handle := Nat

/-- A decoded `webrtc.ICECandidateInit`. -/
abbrev ICECandidateInit := String

/-- A decoded `webrtc.SessionDescription`. -/
abbrev SessionDescription := String

/-- The calls the session makes on its peer connection, with the outcome of
`SetRemoteDescription`. -/
inductive TransportCall where
  | SetRemoteDescription (sdp : SessionDescription) (ok : Bool)
  | AddICECandidate (cand : ICECandidateInit)
  deriving DecidableEq, Repr

/-- What the session cannot decide itself: whether `json.Unmarshal` accepts a
payload (and what it decodes to), and whether `pc.SetRemoteDescription`
succeeds after the calls made so far. -/
structure Collaborators where
  decodeSDP : String → Option SessionDescription
  decodeCandidate : String → Option ICECandidateInit
  setRemoteOk : List TransportCall → SessionDescription → Bool

/-- The fields of `viewerSession` that `handleAnswer`, `handleICE` and `stop`
use, and the calls made so far on the peer connection (oldest first).
`cancelled` records that `s.cancel()` has run. -/
structure viewerSession where
  cancelled : Bool := false
  ws : Option Handle := none
  pc : Option Handle := none
  dc : Option Handle := none
  remoteSet : Bool := false
  pendingICEs : List ICECandidateInit := []
  calls : List TransportCall := []
  deriving DecidableEq, Repr

/-- `viewerSession.handleAnswer`: the session afterwards and whether an error
was returned. -/
def viewerSession.handleAnswer (k : Collaborators) (s : viewerSession) (msg : signalMessage) :
    viewerSession × Bool :=
  match s.pc with
  | none => (s, true)
  | some _ =>
    match k.decodeSDP msg.Data with
    | none => (s, true)
    | some ans =>
      if k.setRemoteOk s.calls ans then
        ({ s with
            remoteSet := true
            calls := s.calls ++ [TransportCall.SetRemoteDescription ans true]
              ++ s.pendingICEs.map TransportCall.AddICECandidate
            pendingICEs := [] }, false)
      else
        ({ s with calls := s.calls ++ [TransportCall.SetRemoteDescription ans false] }, true)

/-- `viewerSession.handleICE`. An error of `pc.AddICECandidate` is logged and
not returned. -/
def viewerSession.handleICE (k : Collaborators) (s : viewerSession) (msg : signalMessage) :
    viewerSession × Bool :=
  match s.pc with
  | none => (s, false)
  | some _ =>
    match k.decodeCandidate msg.Data with
    | none => (s, true)
    | some cand =>
      if ¬ s.remoteSet then ({ s with pendingICEs := s.pendingICEs ++ [cand] }, false)
      else ({ s with calls := s.calls ++ [TransportCall.AddICECandidate cand] }, false)

/-- The `switch msg.Type` of `viewerSession.readLoop` for one parsed message;
returned errors are logged. -/
def viewerSession.dispatch (k : Collaborators) (s : viewerSession) (msg : signalMessage) :
    viewerSession :=
  if msg.Type_ = "answer" then (s.handleAnswer k msg).1
  else if msg.Type_ = "ice_candidate" then (s.handleICE k msg).1
  else s

/-- The read loop over a sequence of parsed messages. -/
def viewerSession.process (k : Collaborators) (s : viewerSession) (msgs : List signalMessage) :
    viewerSession :=
  msgs.foldl (viewerSession.dispatch k) s

/-- The candidates of the `ice_candidate` messages of a sequence that decode,
in arrival order. -/
def arrivedCandidates (k : Collaborators) (msgs : List signalMessage) : List ICECandidateInit :=
  msgs.filterMap fun msg =>
    if msg.Type_ = "ice_candidate" then k.decodeCandidate msg.Data else none

/-- A viewer session after `createPeerConnection`: peer connection present,
remote description not set, nothing buffered, no call made. -/
def freshViewer (ws pc : Handle) (dc : Option Handle) : viewerSession :=
  { ws := some ws, pc := some pc, dc := dc }

/-- No candidate was applied before a remote description was set
successfully: every `AddICECandidate` in the list has a successful
`SetRemoteDescription` somewhere before it. -/
def NoEarlyCandidate (calls : List TransportCall) : Prop :=
  ∀ before cand after, calls = before ++ TransportCall.AddICECandidate cand :: after →
    ∃ sdp, TransportCall.SetRemoteDescription sdp true ∈ before

/-- Collaborators that decode every payload to itself and accept every
description. -/
def plainCollaborators : Collaborators :=
  { decodeSDP := fun d => some d, decodeCandidate := fun d => some d,
    setRemoteOk := fun _ _ => true }

/-- The invariant of the viewer read loop after the messages `history`. -/
structure ViewerInv (k : Collaborators) (s : viewerSession) (history : List signalMessage) :
    Prop where
  hasPC : s.pc.isSome = true
  noEarly : NoEarlyCandidate s.calls
  unset : s.remoteSet = false →
    s.pendingICEs = arrivedCandidates k history
      ∧ ∀ cand, TransportCall.AddICECandidate cand ∉ s.calls
  set : s.remoteSet = true →
    s.pendingICEs = [] ∧ ∃ sdp, TransportCall.SetRemoteDescription sdp true ∈ s.calls

/-- Two candidates, the answer, then a third candidate. -/
def demoSignals : List signalMessage :=
  [{ Type_ := "ice_candidate", Data := "c1" }, { Type_ := "ice_candidate", Data := "c2" },
   { Type_ := "answer", Data := "sdp" }, { Type_ := "ice_candidate", Data := "c3" }]

/-! ## pkg/client/viewer.go, publisher.go: stopping a session -/

/-- The outward actions of `stop`: cancelling the context, closing a resource,
writing a message on the relay connection, reporting a status. -/
inductive Effect where
  | cancel
  | closeDataChannel (dc : Handle)
  | closePeerConnection (pc : Handle)
  | closeSocket (ws : Handle)
  | writeJSON (ws : Handle) (msg : signalMessage)
  | status (st : String) (text : String)
  deriving DecidableEq, Repr

/-- Whether an action closes a resource. -/
def Effect.isClose : Effect → Bool
  | Effect.closeDataChannel _ => true
  | Effect.closePeerConnection _ => true
  | Effect.closeSocket _ => true
  | _ => false

/-- The close calls among a list of actions, in order. -/
def closeCalls (effects : List Effect) : List Effect :=
  effects.filter Effect.isClose

/-- `viewerSession.stop`: the session afterwards and the actions performed. -/
def viewerSession.stop (s : viewerSession) : viewerSession × List Effect :=
  let e1 := match s.dc with
    | some h => [Effect.closeDataChannel h]
    | none => []
  let e2 := match s.pc with
    | some h => [Effect.closePeerConnection h]
    | none => []
  let e3 := match s.ws with
    | some h => [Effect.closeSocket h]
    | none => []
  ({ s with cancelled := true, dc := none, pc := none, ws := none },
    Effect.cancel :: (e1 ++ e2 ++ e3))

/-- The resources a viewer session holds, as the close call each needs. -/
def viewerSession.owned (s : viewerSession) : List Effect :=
  s.dc.toList.map Effect.closeDataChannel ++ s.pc.toList.map Effect.closePeerConnection
    ++ s.ws.toList.map Effect.closeSocket

/-- `StopViewer`: empties the `activeViewer` slot and stops the session that
was in it. -/
def StopViewer (activeViewer : Option viewerSession) : Option viewerSession × List Effect :=
  match activeViewer with
  | some s => (none, s.stop.2)
  | none => (none, [])

/-- The record `peerSession`. -/
structure peerSession where
  pc : Option Handle
  dc : Option Handle
  deriving DecidableEq, Repr

/-- The record `PublisherConfig` (pkg/client/common.go). -/
structure PublisherConfig where
  SignalURL : String := ""
  FrameRate : Int := 0
  Width : Int := 0
  Height : Int := 0
  deriving DecidableEq, Repr

/-- The fields of `publisherSession` that `stop` and the frame loop use.
`cancelled` records that `s.cancel()` has run, `hasStatusFn` that `statusFn`
is not `nil`. -/
structure publisherSession where
  streamID : String
  cancelled : Bool := false
  hasStatusFn : Bool := true
  ws : Option Handle := none
  peers : AList (fun _ : String => peerSession) := ∅
  cfg : PublisherConfig := {}
  deriving DecidableEq

/-- The close calls the loop of `publisherSession.stop` makes for one peer. -/
def peerSession.closeAll (peer : peerSession) : List Effect :=
  (match peer.dc with
    | some h => [Effect.closeDataChannel h]
    | none => [])
  ++ (match peer.pc with
    | some h => [Effect.closePeerConnection h]
    | none => [])

/-- `PublisherStatusStopped`. -/
def PublisherStatusStopped : String := "已停止"

/-- `publisherSession.stop`: the session afterwards and the actions performed.
`writeSignal` writes only when the relay connection is present; its error is
discarded. -/
def publisherSession.stop (s : publisherSession) : publisherSession × List Effect :=
  let e1 := match s.ws with
    | some h => [Effect.writeJSON h { Type_ := "unregister", StreamID := s.streamID }]
    | none => []
  let e2 := s.peers.entries.flatMap fun p => p.2.closeAll
  let e3 := match s.ws with
    | some h => [Effect.closeSocket h]
    | none => []
  let e4 := if s.hasStatusFn then [Effect.status PublisherStatusStopped "推流已停止"] else []
  ({ s with cancelled := true, peers := ∅, ws := none },
    Effect.cancel :: (e1 ++ e2 ++ e3 ++ e4))

/-- The resources a publisher session holds, as the close call each needs:
for every peer its data path and its media transport, then the relay
connection. -/
def publisherSession.owned (s : publisherSession) : List Effect :=
  (s.peers.entries.flatMap fun p =>
    p.2.dc.toList.map Effect.closeDataChannel ++ p.2.pc.toList.map Effect.closePeerConnection)
  ++ s.ws.toList.map Effect.closeSocket

/-- `StopPublisher`: empties the `activePublisher` slot and stops the session
that was in it. -/
def StopPublisher (activePublisher : Option publisherSession) :
    Option publisherSession × List Effect :=
  match activePublisher with
  | none => (none, [])
  | some s => (none, s.stop.2)

/-- A publisher session with two peers, one of them without data path. -/
def demoPublisher : publisherSession :=
  { streamID := "x", ws := some 1
    peers := (AList.singleton "v1" { pc := some 10, dc := some 11 }).insert "v2"
      { pc := some 20, dc := none } }

/-! ## Concrete states used to instantiate the theorems -/

/-- A server with two live connections: connection 0 publishes stream "x",
connection 1 is unbound. -/
def demoServer : Server :=
  { Clients := {0, 1}
    Streams := AList.singleton "x" (NewPublisherStream 0)
    heap := fun r =>
      if r = 0 then { Role := "publisher", StreamID := "x", PeerID := "p0" }
      else NewClient "p1"
    next := 2 }

/-- A full queue: 256 copies of a success reply. -/
@[irreducible] def fullQueue : List Message :=
  List.replicate 256 (successMessage "subscribed")

/-- A connection whose queue is full. -/
def fullClient : Client :=
  { Send := fullQueue, Role := "viewer", StreamID := "x", PeerID := "v1" }

/-- A server in which stream "x" of connection 0 has two viewers, connection 1
under "v1", whose queue is full, and connection 2 under "v2". -/
def fullViewerServer : Server :=
  { Clients := {0, 1, 2}
    Streams := AList.singleton "x"
      { Publisher := some 0, Viewers := (AList.singleton "v1" 1).insert "v2" 2 }
    heap := fun r =>
      if r = 0 then { Role := "publisher", StreamID := "x", PeerID := "p0" }
      else if r = 1 then fullClient
      else { Role := "viewer", StreamID := "x", PeerID := "v2" }
    next := 3 }

/-- An answer addressed to the viewer "v1" of stream "x". -/
def demoAnswer : Message :=
  { Type_ := MsgTypeAnswer, StreamID := "x", PeerID := "v1", Data := Payload.raw "sdp" }

/-- The content of an open queue after `n` non-blocking sends of `msg`. -/
def trySendTimes : Nat → List Message → Message → List Message
  | 0, queue, _ => queue
  | n + 1, queue, msg => trySendTimes n (trySend queue msg) msg

/-- The connections stored in a viewer map, one per entry. -/
def viewerRefs (viewers : List (Sigma fun _ : String => ClientRef)) : List ClientRef :=
  viewers.map Sigma.snd

/-- Connection 1 subscribes to stream "x" of connection 0 twice, under the
peer ids "v1" and "v2". -/
def doubleSubscribe : List Event :=
  [Event.accept "p0", Event.accept "p1",
   Event.route 0 { Type_ := MsgTypeRegister, StreamID := "x" },
   Event.route 1 { Type_ := MsgTypeSubscribe, StreamID := "x", PeerID := "v1" },
   Event.route 1 { Type_ := MsgTypeSubscribe, StreamID := "x", PeerID := "v2" }]

/-- The scenario of the stream list: a third connection asks for the list
before any registration, after "a" and "b" are registered, and after "a" is
unregistered by its publisher. -/
def listScenario : List Event :=
  [Event.accept "p0", Event.accept "p1", Event.accept "p2",
   Event.route 2 { Type_ := MsgTypeListStreams },
   Event.route 0 { Type_ := MsgTypeRegister, StreamID := "a" },
   Event.route 1 { Type_ := MsgTypeRegister, StreamID := "b" },
   Event.route 2 { Type_ := MsgTypeListStreams },
   Event.route 0 { Type_ := MsgTypeUnregister, StreamID := "a" },
   Event.route 2 { Type_ := MsgTypeListStreams }]

/-- The `stream_list` reply carrying the given ids. -/
def streamListMessage (ids : List String) : Message :=
  { Type_ := MsgTypeStreamList, Data := Payload.streamIDs ids }

/-! ## Notions used in the statements -/

/-- The state after a send to an open connection. -/
def Server.afterSend (s : Server) (c : ClientRef) (msg : Message) : Server :=
  s.setClient c { s.heap c with Send := trySend (s.heap c).Send msg }

/-- Every live connection that holds the publisher role for a non-empty stream
id is the publisher recorded for that stream in the registry. -/
def PublisherOwns (s : Server) : Prop :=
  ∀ c ∈ s.Clients, (s.heap c).Role = "publisher" → (s.heap c).StreamID ≠ "" →
    ∃ st, s.Streams.lookup (s.heap c).StreamID = some st ∧ st.Publisher = some c

/-- The queue of every live connection is open. -/
def LiveOpen (s : Server) : Prop :=
  ∀ c ∈ s.Clients, (s.heap c).SendClosed = false

/-- No queue holds more messages than the channel capacity. -/
def QueueBound (s : Server) : Prop :=
  ∀ c, (s.heap c).Send.length ≤ sendCapacity

/-- The state `t` differs from `s` at most in queue contents (within the
capacity) and in stream ids of connections that were cleared. -/
structure Weakens (s t : Server) : Prop where
  clients : t.Clients = s.Clients
  streams : t.Streams = s.Streams
  role : ∀ d, (t.heap d).Role = (s.heap d).Role
  streamID : ∀ d, (t.heap d).StreamID = (s.heap d).StreamID ∨ (t.heap d).StreamID = ""
  closed : ∀ d, (t.heap d).SendClosed = (s.heap d).SendClosed
  bound : ∀ d, (s.heap d).Send.length ≤ sendCapacity → (t.heap d).Send.length ≤ sendCapacity

/-- The invariants kept by every transition. -/
structure Inv (s : Server) : Prop where
  owns : PublisherOwns s
  live : LiveOpen s
  bound : QueueBound s

/-- The events of a run in which connection 0 registers stream "x" and
connection 1 subscribes to it under peer id "v1". -/
def demoEvents : List Event :=
  [Event.accept "p0", Event.accept "p1",
   Event.route 0 { Type_ := MsgTypeRegister, StreamID := "x" },
   Event.route 1 { Type_ := MsgTypeSubscribe, StreamID := "x", PeerID := "v1" }]

/-- The state the run `demoEvents` ends in. -/
def demoReached : Server := (run NewServer demoEvents).getD NewServer

/-- A connection registers "x", sends `unsubscribe("x")`, which clears its
streamID, and closes. -/
def orphanByUnsubscribe : List Event :=
  [Event.accept "p0",
   Event.route 0 { Type_ := MsgTypeRegister, StreamID := "x" },
   Event.route 0 { Type_ := MsgTypeUnsubscribe, StreamID := "x" },
   Event.close 0]

/-- A connection registers "x", then "y", and closes. -/
def orphanByReregister : List Event :=
  [Event.accept "p0",
   Event.route 0 { Type_ := MsgTypeRegister, StreamID := "x" },
   Event.route 0 { Type_ := MsgTypeRegister, StreamID := "y" },
   Event.close 0]

/-- As `orphanByUnsubscribe`, with a second connection that subscribes to "x"
before the publisher closes. -/
def orphanWithViewer : List Event :=
  [Event.accept "p0", Event.accept "p1",
   Event.route 0 { Type_ := MsgTypeRegister, StreamID := "x" },
   Event.route 0 { Type_ := MsgTypeUnsubscribe, StreamID := "x" },
   Event.route 1 { Type_ := MsgTypeSubscribe, StreamID := "x", PeerID := "v1" },
   Event.close 0]

/-- The state a run from `NewServer` ends in (`NewServer` if it cannot happen). -/
def stateAfter (events : List Event) : Server := (run NewServer events).getD NewServer

/-- The mutations of a successful `handleRegister`, before the reply. -/
def registerEffect (s : Server) (c : ClientRef) (X : String) : Server :=
  let s1 := s.setClient c { s.heap c with Role := "publisher", StreamID := X }
  s1.setStreams (s1.Streams.insert X (NewPublisherStream c))

/-- The mutations of a successful `handleSubscribe`, before the reply. -/
def subscribeEffect (s : Server) (c : ClientRef) (X p : String) (stream : PublisherStream) :
    Server :=
  let s1 := s.setClient c { s.heap c with Role := "viewer", StreamID := X, PeerID := p }
  s1.setStreams (s1.Streams.insert X { stream with Viewers := stream.Viewers.insert p c })

/-- The mutations of a successful `handleUnsubscribe`, before the reply. -/
def unsubscribeEffect (s : Server) (c : ClientRef) (X : String) (stream : PublisherStream) :
    Server :=
  let s1 := s.setStreams
    (s.Streams.insert X { stream with Viewers := stream.Viewers.erase (s.heap c).PeerID })
  s1.setClient c { s1.heap c with StreamID := "" }

/-- Connection 0 registers stream "x"; connections 1 and 2 both subscribe to
it under the same peer id "v1", so that the entry "v1" ends up mapping to
connection 2 while connection 1 keeps "v1" as its peerID. -/
def peerCollision : List Event :=
  [Event.accept "p0", Event.accept "p1", Event.accept "p2",
   Event.route 0 { Type_ := MsgTypeRegister, StreamID := "x" },
   Event.route 1 { Type_ := MsgTypeSubscribe, StreamID := "x", PeerID := "v1" },
   Event.route 2 { Type_ := MsgTypeSubscribe, StreamID := "x", PeerID := "v1" }]

/-- The deletions `delete(stream.Viewers, peerID)` made by the loop of
`handleUnregister`, one per visited entry, applied to the viewer map. -/
def clearViewers (viewers : AList (fun _ : String => ClientRef)) :
    AList (fun _ : String => ClientRef) :=
  viewers.entries.foldl (fun m v => m.erase v.1) viewers

/-- The mutations of a successful `handleUnregister` after the notification
loop, before the reply. -/
def unregisterEffect (s : Server) (c : ClientRef) (X : String) : Server :=
  let s2 := s.setStreams (s.Streams.erase X)
  s2.setClient c { s2.heap c with StreamID := "" }

/-- No stream is registered under the empty id. -/
def NoEmptyStream (s : Server) : Prop :=
  s.Streams.lookup "" = none

/-- The three message types `forwardSignal` forwards. -/
def isSignal (ty : MessageType) : Prop :=
  ty = MsgTypeOffer ∨ ty = MsgTypeAnswer ∨ ty = MsgTypeICECandidate

/-- The eight message types `RouteMessage` has a case for. -/
def isRouted (ty : MessageType) : Prop :=
  ty = MsgTypeRegister ∨ ty = MsgTypeUnregister ∨ ty = MsgTypeListStreams
    ∨ ty = MsgTypeSubscribe ∨ ty = MsgTypeUnsubscribe ∨ isSignal ty

/-- The connection `forwardSignal` sends a signal for a registered stream to,
if any: the publisher for an offer and for a viewer's candidate, the viewer
stored under the message's peer id for an answer and for a publisher's
candidate. -/
def forwardTarget (s : Server) (c : ClientRef) (msg : Message) (stream : PublisherStream) :
    Option ClientRef :=
  if msg.Type_ = MsgTypeOffer then stream.Publisher
  else if msg.Type_ = MsgTypeAnswer then stream.Viewers.lookup msg.PeerID
  else if msg.Type_ = MsgTypeICECandidate then
    if (s.heap c).Role = "viewer" then stream.Publisher
    else if (s.heap c).Role = "publisher" then stream.Viewers.lookup msg.PeerID
    else none
  else none

/-- A reply of the server: a `success`, `error` or `stream_list` message. -/
def isReply (m : Message) : Prop :=
  m.Type_ = MsgTypeSuccess ∨ m.Type_ = MsgTypeError ∨ m.Type_ = MsgTypeStreamList

/-- Between `s` and `t` at least one reply was appended to the queue of `c`. -/
def Replied (s t : Server) (c : ClientRef) : Prop :=
  ∃ reply rest, isReply reply ∧ (t.heap c).Send = (s.heap c).Send ++ reply :: rest

/-- Every connection recorded in a stream, as publisher or as viewer, has an
open queue. -/
def StreamsOpen (s : Server) : Prop :=
  ∀ X stream, s.Streams.lookup X = some stream →
    (∀ P, stream.Publisher = some P → (s.heap P).SendClosed = false)
      ∧ ∀ v ∈ viewerRefs stream.Viewers.entries, (s.heap v).SendClosed = false

/-- Connection 0 registers stream "x"; connection 1 stays unbound. -/
def registeredOnly : List Event :=
  [Event.accept "p0", Event.accept "p1",
   Event.route 0 { Type_ := MsgTypeRegister, StreamID := "x" }]

/-- Connection 0 registers stream "x", connection 1 subscribes to it as "v1",
and a third connection is accepted and stays unbound. -/
def candidateBystander : List Event := demoEvents ++ [Event.accept "p2"]

/-- Connection 1 subscribes to stream "x" of connection 0 as "v1" and again as
"v2", connection 2 subscribes to it as "v3", and connection 1 closes. -/
def staleWithLiveViewer : List Event :=
  [Event.accept "p0", Event.accept "p1", Event.accept "p2",
   Event.route 0 { Type_ := MsgTypeRegister, StreamID := "x" },
   Event.route 1 { Type_ := MsgTypeSubscribe, StreamID := "x", PeerID := "v1" },
   Event.route 1 { Type_ := MsgTypeSubscribe, StreamID := "x", PeerID := "v2" },
   Event.route 2 { Type_ := MsgTypeSubscribe, StreamID := "x", PeerID := "v3" },
   Event.close 1]

/-! ## pkg/client/publisher.go: the frame loop -/

/-- A captured frame (`*image.RGBA`). -/
abbrev Frame := String

/-- What the frame loop cannot decide itself: what the capture calls return
(`none` is a `nil` frame), whether `encodeJPEG` succeeds (the payload, or the
error text), and whether a data channel reports the state open. -/
structure FrameCollaborators where
  CaptureFrame : Option Frame
  CaptureFrameSized : Int → Int → Option Frame
  encodeJPEG : Frame → Except String String
  dcOpen : Handle → Bool

/-- The outward actions of one tick of the frame loop. -/
inductive FrameAction where
  | capture
  | captureSized (width height : Int)
  | encode (frame : Frame)
  | send (dc : Handle) (payload : String)
  | status (st : String) (text : String)
  deriving DecidableEq, Repr

/-- Whether an action is a capture call. -/
def FrameAction.isCapture : FrameAction → Bool
  | FrameAction.capture => true
  | FrameAction.captureSized _ _ => true
  | _ => false

/-- Whether an action is an encode call. -/
def FrameAction.isEncode : FrameAction → Bool
  | FrameAction.encode _ => true
  | _ => false

/-- `PublisherStatusError`. -/
def PublisherStatusError : String := "错误"

/-- `publisherSession.capturedFrame`: the capture call made and its result. -/
def publisherSession.capturedFrame (k : FrameCollaborators) (s : publisherSession) :
    FrameAction × Option Frame :=
  if s.cfg.Width > 0 ∧ s.cfg.Height > 0 then
    (FrameAction.captureSized s.cfg.Width s.cfg.Height,
      k.CaptureFrameSized s.cfg.Width s.cfg.Height)
  else (FrameAction.capture, k.CaptureFrame)

/-- `publisherSession.broadcastFrame`: the payload is sent on the data channel
of every peer that has one in the state open (a failed send is logged). -/
def publisherSession.broadcastFrame (k : FrameCollaborators) (s : publisherSession)
    (payload : String) : List FrameAction :=
  s.peers.entries.flatMap fun p =>
    match p.2.dc with
    | some dc => if k.dcOpen dc then [FrameAction.send dc payload] else []
    | none => []

/-- The `case <-ticker.C` branch of `publisherSession.captureLoop`: the actions
of one tick. -/
def publisherSession.tick (k : FrameCollaborators) (s : publisherSession) : List FrameAction :=
  if s.peers.entries.length > 0 then
    match (s.capturedFrame k).2 with
    | none => [(s.capturedFrame k).1]
    | some frame =>
      match k.encodeJPEG frame with
      | Except.error err =>
        [(s.capturedFrame k).1, FrameAction.encode frame]
          ++ (if s.hasStatusFn then
                [FrameAction.status PublisherStatusError ("帧编码失败: " ++ err)]
              else [])
      | Except.ok payload =>
        [(s.capturedFrame k).1, FrameAction.encode frame] ++ s.broadcastFrame k payload
  else []

/-- Some peer session has a data path in the state open. -/
def publisherSession.hasOpenDataPath (k : FrameCollaborators) (s : publisherSession) : Prop :=
  ∃ p ∈ s.peers.entries, ∃ dc, p.2.dc = some dc ∧ k.dcOpen dc = true

/-- Collaborators for which capture and encoding succeed and no data channel
is open yet. -/
def idleCollaborators : FrameCollaborators :=
  { CaptureFrame := some "frame", CaptureFrameSized := fun _ _ => some "frame",
    encodeJPEG := fun f => Except.ok ("jpeg:" ++ f), dcOpen := fun _ => false }

/-- Collaborators for which capture and encoding succeed and every data
channel is open. -/
def readyCollaborators : FrameCollaborators :=
  { CaptureFrame := some "frame", CaptureFrameSized := fun _ _ => some "frame",
    encodeJPEG := fun f => Except.ok ("jpeg:" ++ f), dcOpen := fun _ => true }

/-! ## pkg/client/common.go, publisher.go: configuration and start of a session -/

/-- `defaultSignalURL` (assigned once, at its declaration). -/
def defaultSignalURL : String := "ws://127.0.0.1:8080/ws"

/-- `normalizeConfig`: the five guarded assignments, in the order of the
source; each one sees the result of those before it. -/
def normalizeConfig (cfg : PublisherConfig) : PublisherConfig :=
  let cfg1 : PublisherConfig :=
    if cfg.SignalURL = "" then { cfg with SignalURL := defaultSignalURL } else cfg
  let cfg2 : PublisherConfig :=
    if cfg1.FrameRate ≤ 0 then { cfg1 with FrameRate := 30 } else cfg1
  let cfg3 : PublisherConfig :=
    if cfg2.FrameRate > 30 then { cfg2 with FrameRate := 30 } else cfg2
  let cfg4 : PublisherConfig :=
    if cfg3.Width < 0 then { cfg3 with Width := 0 } else cfg3
  if cfg4.Height < 0 then { cfg4 with Height := 0 } else cfg4

/-- `time.Second`, in nanoseconds. -/
def timeSecond : Int := 1000000000

/-- The first statement of `captureLoop`:
`interval := time.Second / time.Duration(s.cfg.FrameRate)`. Integer division
by zero panics in Go (`none`); otherwise the quotient is truncated. -/
def publisherSession.captureInterval (s : publisherSession) : Option Int :=
  if s.cfg.FrameRate = 0 then none else some (Int.tdiv timeSecond s.cfg.FrameRate)

/-- What starting a session needs from outside: the outcome of dialing the
relay (a connection, or the text of the error) and of writing a message on a
connection (the text of the error, if any). -/
structure Dialer where
  dial : String → Except String Handle
  writeJSON : Handle → signalMessage → Option String

/-- The outward actions of `StartPublisher`: dialing the relay, writing a
message on the relay connection, reporting a status, cancelling the context
of the session, starting its two loops. -/
inductive StartAction where
  | dial (url : String)
  | writeJSON (ws : Handle) (msg : signalMessage)
  | status (st : String) (text : String)
  | cancel
  | startLoops
  deriving DecidableEq, Repr

/-- `PublisherStatusConnected`. -/
def PublisherStatusConnected : String := "已连接"

/-- `publisherSession.updateStatus`: calls `statusFn` when there is one. -/
def publisherSession.updateStatus (s : publisherSession) (st text : String) :
    List StartAction :=
  if s.hasStatusFn then [StartAction.status st text] else []

/-- `publisherSession.writeSignal`: the error returned, if any, and the write
performed. -/
def publisherSession.writeSignal (k : Dialer) (s : publisherSession) (msg : signalMessage) :
    Option String × List StartAction :=
  match s.ws with
  | none => (some "信令连接不存在", [])
  | some ws => (k.writeJSON ws msg, [StartAction.writeJSON ws msg])

/-- `publisherSession.connectAndRegister`: the session afterwards, the error
returned, if any, and the actions performed. -/
def publisherSession.connectAndRegister (k : Dialer) (s : publisherSession) :
    publisherSession × Option String × List StartAction :=
  match k.dial s.cfg.SignalURL with
  | Except.error e =>
    (s, some e,
      StartAction.dial s.cfg.SignalURL
        :: s.updateStatus PublisherStatusError ("连接信令失败: " ++ e))
  | Except.ok ws =>
    let s1 : publisherSession := { s with ws := some ws }
    match s1.writeSignal k { Type_ := "register", StreamID := s1.streamID } with
    | (some e, acts) =>
      (s1, some e,
        StartAction.dial s.cfg.SignalURL
          :: (acts ++ s1.updateStatus PublisherStatusError ("注册流失败: " ++ e)))
    | (none, acts) => (s1, none, StartAction.dial s.cfg.SignalURL :: acts)

/-- What a call of `StartPublisher` leaves: the `activePublisher` slot, the
error returned, if any, and the actions performed. -/
structure StartResult where
  activePublisher : Option publisherSession
  err : Option String
  actions : List StartAction
  deriving DecidableEq

/-- `StartPublisher` on the `activePublisher` slot. `capture` is the pointer
argument (`none` for nil), `hasStatusFn` tells whether `statusFn` is non-nil. -/
def StartPublisher (k : Dialer) (activePublisher : Option publisherSession)
    (streamID : String) (capture : Option Handle) (cfg : PublisherConfig)
    (hasStatusFn : Bool) : StartResult :=
  if streamID = "" then
    { activePublisher := activePublisher, err := some "stream id 不能为空", actions := [] }
  else if capture = none then
    { activePublisher := activePublisher, err := some "capture 不能为空", actions := [] }
  else
    let cfg1 := normalizeConfig cfg
    match activePublisher with
    | some _ =>
      { activePublisher := activePublisher, err := some "已有推流任务在运行", actions := [] }
    | none =>
      let s : publisherSession :=
        { streamID := streamID, cfg := cfg1, hasStatusFn := hasStatusFn }
      match s.connectAndRegister k with
      | (_, some e, acts) =>
        { activePublisher := none, err := some e, actions := acts ++ [StartAction.cancel] }
      | (s1, none, acts) =>
        { activePublisher := some s1, err := none,
          actions := acts ++ s1.updateStatus PublisherStatusConnected "信令连接成功"
            ++ [StartAction.startLoops] }

/-- A relay that accepts the connection and every write. -/
def plainDialer : Dialer :=
  { dial := fun _ => Except.ok 1, writeJSON := fun _ _ => none }

/-- Connection 2 subscribes to stream "x" as "v1", then to stream "y" as "v2",
and closes. -/
def staleBySecondStream : List Event :=
  [Event.accept "p0", Event.accept "p1", Event.accept "p2",
   Event.route 0 { Type_ := MsgTypeRegister, StreamID := "x" },
   Event.route 1 { Type_ := MsgTypeRegister, StreamID := "y" },
   Event.route 2 { Type_ := MsgTypeSubscribe, StreamID := "x", PeerID := "v1" },
   Event.route 2 { Type_ := MsgTypeSubscribe, StreamID := "y", PeerID := "v2" },
   Event.close 2]

/-- Connection 1 subscribes to stream "x" as "v1", then again as "v2", and
closes. -/
def staleBySecondPeerID : List Event := doubleSubscribe ++ [Event.close 1]

/-- Connection 2 subscribes to stream "x" as "v1", sends `unsubscribe("y")`,
and closes. -/
def staleByUnsubscribe : List Event :=
  [Event.accept "p0", Event.accept "p1", Event.accept "p2",
   Event.route 0 { Type_ := MsgTypeRegister, StreamID := "x" },
   Event.route 1 { Type_ := MsgTypeRegister, StreamID := "y" },
   Event.route 2 { Type_ := MsgTypeSubscribe, StreamID := "x", PeerID := "v1" },
   Event.route 2 { Type_ := MsgTypeUnsubscribe, StreamID := "y" },
   Event.close 2]

/-- The connection stored under `peerID` in the viewer set of stream `X`. -/
def Server.viewerOf (s : Server) (X peerID : String) : Option ClientRef :=
  (s.Streams.lookup X).bind fun st => st.Viewers.lookup peerID

/-! ## Basic facts about sending -/

theorem trySend_length_le (queue : List Message) (msg : Message)
    (h : queue.length ≤ sendCapacity) : (trySend queue msg).length ≤ sendCapacity := by
  unfold trySend
  split
  · simp only [List.length_append, List.length_singleton]; omega
  · exact h

theorem trySend_of_room (queue : List Message) (msg : Message)
    (h : queue.length < sendCapacity) : trySend queue msg = queue ++ [msg] := by
  simp [trySend, h]

theorem trySend_of_full (queue : List Message) (msg : Message)
    (h : ¬ queue.length < sendCapacity) : trySend queue msg = queue := by
  simp [trySend, h]

theorem Server.SendJSON_open (s : Server) (c : ClientRef) (msg : Message)
    (h : (s.heap c).SendClosed = false) : s.SendJSON c msg = some (s.afterSend c msg) := by
  simp [Server.SendJSON, Client.SendJSON, h, Server.afterSend]

theorem Server.SendJSON_closed (s : Server) (c : ClientRef) (msg : Message)
    (h : (s.heap c).SendClosed = true) : s.SendJSON c msg = none := by
  simp [Server.SendJSON, Client.SendJSON, h]

theorem Server.SendJSON_eq_some {s t : Server} {c : ClientRef} {msg : Message}
    (h : s.SendJSON c msg = some t) :
    (s.heap c).SendClosed = false ∧ t = s.afterSend c msg := by
  cases hc : (s.heap c).SendClosed
  · rw [Server.SendJSON_open s c msg hc] at h
    exact ⟨rfl, (Option.some.inj h).symm⟩
  · rw [Server.SendJSON_closed s c msg hc] at h
    cases h

@[simp] theorem Server.afterSend_Clients (s : Server) (c : ClientRef) (msg : Message) :
    (s.afterSend c msg).Clients = s.Clients := rfl

@[simp] theorem Server.afterSend_Streams (s : Server) (c : ClientRef) (msg : Message) :
    (s.afterSend c msg).Streams = s.Streams := rfl

@[simp] theorem Server.afterSend_next (s : Server) (c : ClientRef) (msg : Message) :
    (s.afterSend c msg).next = s.next := rfl

theorem Server.afterSend_heap_self (s : Server) (c : ClientRef) (msg : Message) :
    (s.afterSend c msg).heap c = { s.heap c with Send := trySend (s.heap c).Send msg } := by
  simp [Server.afterSend, Server.setClient]

theorem Server.afterSend_heap_ne (s : Server) (c d : ClientRef) (msg : Message)
    (h : d ≠ c) : (s.afterSend c msg).heap d = s.heap d := by
  simp [Server.afterSend, Server.setClient, Function.update_noteq h]

/-- A send changes no field of any connection other than the queue. -/
theorem Server.afterSend_fields (s : Server) (c d : ClientRef) (msg : Message) :
    ((s.afterSend c msg).heap d).Role = (s.heap d).Role
      ∧ ((s.afterSend c msg).heap d).StreamID = (s.heap d).StreamID
      ∧ ((s.afterSend c msg).heap d).PeerID = (s.heap d).PeerID
      ∧ ((s.afterSend c msg).heap d).SendClosed = (s.heap d).SendClosed := by
  by_cases h : d = c
  · subst h; simp [Server.afterSend_heap_self]
  · simp [Server.afterSend_heap_ne s c d msg h]

/-! ## Heap updates -/

@[simp] theorem Server.setClient_Clients (s : Server) (c : ClientRef) (v : Client) :
    (s.setClient c v).Clients = s.Clients := rfl

@[simp] theorem Server.setClient_Streams (s : Server) (c : ClientRef) (v : Client) :
    (s.setClient c v).Streams = s.Streams := rfl

@[simp] theorem Server.setClient_next (s : Server) (c : ClientRef) (v : Client) :
    (s.setClient c v).next = s.next := rfl

@[simp] theorem Server.setClient_heap_self (s : Server) (c : ClientRef) (v : Client) :
    (s.setClient c v).heap c = v := by
  simp [Server.setClient]

theorem Server.setClient_heap_ne (s : Server) (c d : ClientRef) (v : Client) (h : d ≠ c) :
    (s.setClient c v).heap d = s.heap d := by
  simp [Server.setClient, Function.update_noteq h]

@[simp] theorem Server.setStreams_Clients (s : Server)
    (m : AList (fun _ : String => PublisherStream)) : (s.setStreams m).Clients = s.Clients := rfl

@[simp] theorem Server.setStreams_Streams (s : Server)
    (m : AList (fun _ : String => PublisherStream)) : (s.setStreams m).Streams = m := rfl

@[simp] theorem Server.setStreams_heap (s : Server)
    (m : AList (fun _ : String => PublisherStream)) : (s.setStreams m).heap = s.heap := rfl

@[simp] theorem Server.setStreams_next (s : Server)
    (m : AList (fun _ : String => PublisherStream)) : (s.setStreams m).next = s.next := rfl

@[simp] theorem Server.setClients_Clients (s : Server) (m : Finset ClientRef) :
    (s.setClients m).Clients = m := rfl

@[simp] theorem Server.setClients_Streams (s : Server) (m : Finset ClientRef) :
    (s.setClients m).Streams = s.Streams := rfl

@[simp] theorem Server.setClients_heap (s : Server) (m : Finset ClientRef) :
    (s.setClients m).heap = s.heap := rfl

/-! ## Invariants of the reachable states -/

theorem Weakens.refl (s : Server) : Weakens s s :=
  ⟨rfl, rfl, fun _ => rfl, fun _ => Or.inl rfl, fun _ => rfl, fun _ h => h⟩

theorem Weakens.trans {s t u : Server} (h1 : Weakens s t) (h2 : Weakens t u) : Weakens s u where
  clients := h2.clients.trans h1.clients
  streams := h2.streams.trans h1.streams
  role d := (h2.role d).trans (h1.role d)
  streamID d := by
    rcases h2.streamID d with h | h
    · rw [h]; exact h1.streamID d
    · exact Or.inr h
  closed d := (h2.closed d).trans (h1.closed d)
  bound d h := h2.bound d (h1.bound d h)

theorem Weakens.afterSend (s : Server) (c : ClientRef) (msg : Message) :
    Weakens s (s.afterSend c msg) where
  clients := rfl
  streams := rfl
  role d := (Server.afterSend_fields s c d msg).1
  streamID d := Or.inl (Server.afterSend_fields s c d msg).2.1
  closed d := (Server.afterSend_fields s c d msg).2.2.2
  bound d h := by
    by_cases hd : d = c
    · subst hd
      rw [Server.afterSend_heap_self]
      exact trySend_length_le _ _ h
    · rw [Server.afterSend_heap_ne s c d msg hd]
      exact h

theorem Weakens.of_SendJSON {s t : Server} {c : ClientRef} {msg : Message}
    (h : s.SendJSON c msg = some t) : Weakens s t := by
  rw [(Server.SendJSON_eq_some h).2]
  exact Weakens.afterSend s c msg

theorem Weakens.clearStreamID (s : Server) (c : ClientRef) :
    Weakens s (s.setClient c { s.heap c with StreamID := "" }) where
  clients := rfl
  streams := rfl
  role d := by
    by_cases hd : d = c
    · subst hd; simp
    · rw [Server.setClient_heap_ne _ _ _ _ hd]
  streamID d := by
    by_cases hd : d = c
    · subst hd; simp
    · rw [Server.setClient_heap_ne _ _ _ _ hd]; exact Or.inl rfl
  closed d := by
    by_cases hd : d = c
    · subst hd; simp
    · rw [Server.setClient_heap_ne _ _ _ _ hd]
  bound d h := by
    by_cases hd : d = c
    · subst hd; simpa using h
    · rw [Server.setClient_heap_ne _ _ _ _ hd]; exact h

theorem notifyViewers_weakens (viewers : List (Sigma fun _ : String => ClientRef)) :
    ∀ (s t : Server), notifyViewers s viewers = some t → Weakens s t := by
  induction viewers with
  | nil =>
    intro s t h
    simp only [notifyViewers, List.foldlM_nil, Option.pure_def, Option.some.injEq] at h
    subst h
    exact Weakens.refl s
  | cons v rest ih =>
    intro s t h
    simp only [notifyViewers, List.foldlM_cons, Option.bind_eq_bind,
      Option.bind_eq_some] at h
    obtain ⟨s1, h1, h2⟩ := h
    exact (Weakens.of_SendJSON h1).trans (ih s1 t h2)

theorem evictViewers_weakens (viewers : List (Sigma fun _ : String => ClientRef)) :
    ∀ (s t : Server), evictViewers s viewers = some t → Weakens s t := by
  induction viewers with
  | nil =>
    intro s t h
    simp only [evictViewers, List.foldlM_nil, Option.pure_def, Option.some.injEq] at h
    subst h
    exact Weakens.refl s
  | cons v rest ih =>
    intro s t h
    simp only [evictViewers, List.foldlM_cons, Option.bind_eq_bind] at h
    cases h1 : s.SendError v.2 "stream removed" with
    | none => simp [h1] at h
    | some s2 =>
      simp only [h1, Option.map_some', Option.some_bind] at h
      exact ((Weakens.of_SendJSON h1).trans (Weakens.clearStreamID s2 v.2)).trans (ih _ t h)

theorem Inv.weakens {s t : Server} (hi : Inv s) (hw : Weakens s t) : Inv t where
  owns := by
    intro c hc hrole hsid
    rw [hw.clients] at hc
    rw [hw.role] at hrole
    have hsame : (t.heap c).StreamID = (s.heap c).StreamID := by
      rcases hw.streamID c with h | h
      · exact h
      · exact absurd h hsid
    rw [hsame] at hsid ⊢
    rw [hw.streams]
    exact hi.owns c hc hrole hsid
  live := by
    intro c hc
    rw [hw.clients] at hc
    rw [hw.closed]
    exact hi.live c hc
  bound := fun c => hw.bound c (hi.bound c)

theorem Inv.after_SendJSON {s t : Server} {c : ClientRef} {msg : Message} (hi : Inv s)
    (h : s.SendJSON c msg = some t) : Inv t :=
  hi.weakens (Weakens.of_SendJSON h)

/-- Replacing a stream by one with the same publisher keeps the invariants. -/
theorem Inv.replaceStream {s : Server} (hi : Inv s) (X : String) (st st1 : PublisherStream)
    (hl : s.Streams.lookup X = some st) (hp : st1.Publisher = st.Publisher) :
    Inv (s.setStreams (s.Streams.insert X st1)) where
  owns := by
    intro c hc hrole hsid
    obtain ⟨st2, h2, h3⟩ := hi.owns c hc hrole hsid
    simp only [Server.setStreams_heap, Server.setStreams_Streams]
    by_cases hk : (s.heap c).StreamID = X
    · refine ⟨st1, ?_, ?_⟩
      · rw [hk]; exact AList.lookup_insert _
      · rw [hk, hl] at h2
        rw [hp, Option.some.inj h2]; exact h3
    · exact ⟨st2, by rw [AList.lookup_insert_ne hk]; exact h2, h3⟩
  live := hi.live
  bound := hi.bound

/-- Overwriting the role, stream id or peer id of a connection with values
that do not make it the publisher of a non-empty stream id keeps the
invariants. -/
theorem Inv.setFields {s : Server} (hi : Inv s) (c : ClientRef) (v : Client)
    (hsend : v.Send = (s.heap c).Send) (hclosed : v.SendClosed = (s.heap c).SendClosed)
    (hnot : v.Role = "publisher" → v.StreamID = "") : Inv (s.setClient c v) where
  owns := by
    intro d hd hrole hsid
    by_cases hdc : d = c
    · subst hdc
      rw [Server.setClient_heap_self] at hrole hsid
      exact absurd (hnot hrole) hsid
    · rw [Server.setClient_heap_ne _ _ _ _ hdc] at hrole hsid ⊢
      exact hi.owns d hd hrole hsid
  live := by
    intro d hd
    by_cases hdc : d = c
    · subst hdc
      rw [Server.setClient_heap_self, hclosed]
      exact hi.live d hd
    · rw [Server.setClient_heap_ne _ _ _ _ hdc]
      exact hi.live d hd
  bound := by
    intro d
    by_cases hdc : d = c
    · subst hdc
      rw [Server.setClient_heap_self, hsend]
      exact hi.bound d
    · rw [Server.setClient_heap_ne _ _ _ _ hdc]
      exact hi.bound d

/-- Deleting a stream id that no live publisher holds keeps the invariants. -/
theorem Inv.eraseStream {s : Server} (hi : Inv s) (K : String)
    (hno : ∀ d ∈ s.Clients, (s.heap d).Role = "publisher" → (s.heap d).StreamID ≠ "" →
      (s.heap d).StreamID ≠ K) : Inv (s.setStreams (s.Streams.erase K)) where
  owns := by
    intro c hc hrole hsid
    obtain ⟨st, h2, h3⟩ := hi.owns c hc hrole hsid
    refine ⟨st, ?_, h3⟩
    simp only [Server.setStreams_heap, Server.setStreams_Streams]
    rw [AList.lookup_erase_ne (hno c hc hrole hsid)]
    exact h2
  live := hi.live
  bound := hi.bound

/-- The mutation of a successful `register`. -/
theorem Inv.register {s : Server} (hi : Inv s) (c : ClientRef) (X : String)
    (hX : s.Streams.lookup X = none) :
    Inv ((s.setClient c { s.heap c with Role := "publisher", StreamID := X }).setStreams
      ((s.setClient c { s.heap c with Role := "publisher", StreamID := X }).Streams.insert X
        (NewPublisherStream c))) where
  owns := by
    intro d hd hrole hsid
    simp only [Server.setStreams_heap, Server.setStreams_Streams, Server.setClient_Streams]
      at hrole hsid ⊢
    by_cases hdc : d = c
    · subst hdc
      rw [Server.setClient_heap_self]
      exact ⟨NewPublisherStream d, AList.lookup_insert _, rfl⟩
    · rw [Server.setClient_heap_ne _ _ _ _ hdc] at hrole hsid ⊢
      obtain ⟨st, h2, h3⟩ := hi.owns d hd hrole hsid
      have hk : (s.heap d).StreamID ≠ X := by
        intro hk
        rw [hk, hX] at h2
        cases h2
      exact ⟨st, by rw [AList.lookup_insert_ne hk]; exact h2, h3⟩
  live := by
    intro d hd
    by_cases hdc : d = c
    · subst hdc
      simpa using hi.live d hd
    · simp only [Server.setStreams_heap]
      rw [Server.setClient_heap_ne _ _ _ _ hdc]
      exact hi.live d hd
  bound := by
    intro d
    by_cases hdc : d = c
    · subst hdc
      simpa using hi.bound d
    · simp only [Server.setStreams_heap]
      rw [Server.setClient_heap_ne _ _ _ _ hdc]
      exact hi.bound d

theorem Inv.of_handleRegister {s t : Server} {c : ClientRef} {msg : Message} (hi : Inv s)
    (h : handleRegister s c msg = some t) : Inv t := by
  unfold handleRegister at h
  split at h
  · exact hi.after_SendJSON h
  · split at h
    · exact hi.after_SendJSON h
    · rename_i hsome
      have hX : s.Streams.lookup msg.StreamID = none := by
        cases hl : s.Streams.lookup msg.StreamID with
        | none => rfl
        | some st => simp [hl] at hsome
      exact (hi.register c msg.StreamID hX).after_SendJSON h

theorem Inv.of_handleUnregister {s t : Server} {c : ClientRef} {msg : Message} (hi : Inv s)
    (h : handleUnregister s c msg = some t) : Inv t := by
  unfold handleUnregister at h
  split at h
  · exact hi.after_SendJSON h
  · split at h
    · rename_i stream hl
      split at h
      · rename_i hpub
        cases hn : notifyViewers s stream.Viewers.entries with
        | none => simp [hn] at h
        | some s1 =>
          simp only [hn, Option.some_bind] at h
          have hw := notifyViewers_weakens _ _ _ hn
          have hi1 : Inv s1 := hi.weakens hw
          have hi2 : Inv (s1.setClient c { s1.heap c with StreamID := "" }) :=
            hi1.setFields c _ rfl rfl (fun _ => rfl)
          have hi3 := hi2.eraseStream msg.StreamID (by
            intro d hd hrole hsid hk
            by_cases hdc : d = c
            · subst hdc
              simp at hsid
            · rw [Server.setClient_heap_ne _ _ _ _ hdc] at hrole hsid hk
              obtain ⟨st, h2, h3⟩ := hi1.owns d hd hrole hsid
              rw [hk, hw.streams, hl] at h2
              rw [← Option.some.inj h2, hpub] at h3
              exact hdc (Option.some.inj h3).symm)
          exact hi3.after_SendJSON h
      · exact hi.after_SendJSON h
    · exact hi.after_SendJSON h

theorem Inv.of_handleSubscribe {s t : Server} {c : ClientRef} {msg : Message} (hi : Inv s)
    (h : handleSubscribe s c msg = some t) : Inv t := by
  unfold handleSubscribe at h
  split at h
  · exact hi.after_SendJSON h
  · split at h
    · exact hi.after_SendJSON h
    · rename_i stream hl
      have hi1 : Inv (s.setClient c
          { s.heap c with Role := "viewer", StreamID := msg.StreamID, PeerID := msg.PeerID }) :=
        hi.setFields c _ rfl rfl (fun hr => by simp at hr)
      have hi2 := hi1.replaceStream msg.StreamID stream
        { stream with Viewers := stream.Viewers.insert msg.PeerID c } hl rfl
      exact hi2.after_SendJSON h

theorem Inv.of_handleUnsubscribe {s t : Server} {c : ClientRef} {msg : Message} (hi : Inv s)
    (h : handleUnsubscribe s c msg = some t) : Inv t := by
  unfold handleUnsubscribe at h
  split at h
  · exact hi.after_SendJSON h
  · split at h
    · exact hi.after_SendJSON h
    · rename_i stream hl
      have hi1 := hi.replaceStream msg.StreamID stream
        { stream with Viewers := stream.Viewers.erase (s.heap c).PeerID } hl rfl
      have hi2 := hi1.setFields c
        { (s.setStreams (s.Streams.insert msg.StreamID
            { stream with Viewers := stream.Viewers.erase (s.heap c).PeerID })).heap c with
          StreamID := "" } rfl rfl (fun _ => rfl)
      exact hi2.after_SendJSON h

theorem Inv.of_sendToPublisher {s t : Server} {stream : PublisherStream} {msg : Message}
    (hi : Inv s) (h : sendToPublisher s stream msg = some t) : Inv t := by
  unfold sendToPublisher at h
  split at h
  · exact hi.after_SendJSON h
  · cases h; exact hi

theorem Inv.of_sendToViewer {s t : Server} {stream : PublisherStream} {msg : Message}
    (hi : Inv s) (h : sendToViewer s stream msg = some t) : Inv t := by
  unfold sendToViewer at h
  split at h
  · exact hi.after_SendJSON h
  · cases h; exact hi

theorem Inv.of_forwardSignal {s t : Server} {c : ClientRef} {msg : Message} (hi : Inv s)
    (h : forwardSignal s c msg = some t) : Inv t := by
  unfold forwardSignal at h
  split at h
  · split at h
    · exact hi.after_SendJSON h
    · exact hi.of_sendToPublisher h
  · split at h
    · split at h
      · exact hi.after_SendJSON h
      · exact hi.of_sendToViewer h
    · split at h
      · split at h
        · exact hi.after_SendJSON h
        · split at h
          · exact hi.of_sendToPublisher h
          · split at h
            · exact hi.of_sendToViewer h
            · cases h; exact hi
      · cases h; exact hi

theorem Inv.of_RouteMessage {s t : Server} {c : ClientRef} {msg : Message} (hi : Inv s)
    (h : RouteMessage s c msg = some t) : Inv t := by
  unfold RouteMessage at h
  split at h
  · exact hi.of_handleRegister h
  · split at h
    · exact hi.of_handleUnregister h
    · split at h
      · exact hi.after_SendJSON h
      · split at h
        · exact hi.of_handleSubscribe h
        · split at h
          · exact hi.of_handleUnsubscribe h
          · split at h
            · exact hi.of_forwardSignal h
            · exact hi.after_SendJSON h

theorem unregisterPublisher_Clients {s t : Server} {c : ClientRef}
    (h : unregisterPublisher s c = some t) : t.Clients = s.Clients := by
  unfold unregisterPublisher at h
  split at h
  · split at h
    · rename_i stream hl
      cases he : evictViewers s stream.Viewers.entries with
      | none => simp [he] at h
      | some s1 =>
        simp only [he, Option.map_some', Option.some.injEq] at h
        subst h
        exact (evictViewers_weakens _ _ _ he).clients
    · simp only [Option.map_some', Option.some.injEq] at h
      subst h
      rfl
  · cases h; rfl

theorem unregisterViewer_Clients (s : Server) (c : ClientRef) :
    (unregisterViewer s c).Clients = s.Clients := by
  unfold unregisterViewer
  split
  · split <;> rfl
  · rfl

/-- The publisher branch of the cleanup, run for a live connection `c` after
it left `Clients`, keeps the invariants. -/
theorem Inv.of_unregisterPublisher {s t : Server} {c : ClientRef} (hi : Inv s)
    (hc : c ∈ s.Clients)
    (h : unregisterPublisher (s.setClients (s.Clients.erase c)) c = some t) : Inv t := by
  have hi0 : Inv (s.setClients (s.Clients.erase c)) :=
    ⟨fun d hd => hi.owns d (Finset.mem_of_mem_erase hd),
     fun d hd => hi.live d (Finset.mem_of_mem_erase hd), hi.bound⟩
  unfold unregisterPublisher at h
  split at h
  · rename_i hpub
    simp only [Server.setClients_heap, Server.setClients_Streams] at hpub
    obtain ⟨st, hst, hstp⟩ := hi.owns c hc hpub.1 hpub.2
    have key : ∀ s1 : Server, Weakens (s.setClients (s.Clients.erase c)) s1 →
        Inv (s1.setStreams (s1.Streams.erase (s1.heap c).StreamID)) := by
      intro s1 hw
      refine (hi0.weakens hw).eraseStream _ ?_
      intro d hd hrole hsid hk
      rw [hw.clients] at hd
      have hdc : d ≠ c := Finset.ne_of_mem_erase hd
      have hd1 : (s1.heap d).StreamID = (s.heap d).StreamID := by
        rcases hw.streamID d with h1 | h1
        · exact h1
        · exact absurd h1 hsid
      have hc1 : (s1.heap c).StreamID = (s.heap c).StreamID := by
        rcases hw.streamID c with h1 | h1
        · exact h1
        · rw [hk, h1] at hsid
          exact absurd rfl hsid
      have hrole1 : (s.heap d).Role = "publisher" := by
        rw [← hrole]; exact (hw.role d).symm
      rw [hd1] at hsid
      obtain ⟨st2, h2, h3⟩ := hi.owns d (Finset.mem_of_mem_erase hd) hrole1 hsid
      rw [← hd1, hk, hc1, hst] at h2
      rw [← Option.some.inj h2, hstp] at h3
      exact hdc (Option.some.inj h3).symm
    split at h
    · rename_i stream hl
      cases he : evictViewers (s.setClients (s.Clients.erase c)) stream.Viewers.entries with
      | none => simp [he] at h
      | some s1 =>
        simp only [he, Option.map_some', Option.some.injEq] at h
        subst h
        exact key s1 (evictViewers_weakens _ _ _ he)
    · simp only [Option.map_some', Option.some.injEq] at h
      subst h
      exact key _ (Weakens.refl _)
  · cases h
    exact hi0

theorem Inv.of_unregisterViewer {s : Server} (hi : Inv s) (c : ClientRef) :
    Inv (unregisterViewer s c) := by
  unfold unregisterViewer
  split
  · split
    · rename_i stream hl
      exact hi.replaceStream _ stream
        { stream with Viewers := stream.Viewers.erase (s.heap c).PeerID } hl rfl
    · exact hi
  · exact hi

theorem Inv.of_closeSend {s t : Server} {c : ClientRef} (hi : Inv s) (hc : c ∉ s.Clients)
    (h : closeSend s c = some t) : Inv t := by
  unfold closeSend at h
  split at h
  · cases h
  · cases h
    refine ⟨?_, ?_, ?_⟩
    · intro d hd hrole hsid
      have hdc : d ≠ c := fun e => hc (e ▸ hd)
      rw [Server.setClient_heap_ne _ _ _ _ hdc] at hrole hsid ⊢
      exact hi.owns d hd hrole hsid
    · intro d hd
      have hdc : d ≠ c := fun e => hc (e ▸ hd)
      rw [Server.setClient_heap_ne _ _ _ _ hdc]
      exact hi.live d hd
    · intro d
      by_cases hdc : d = c
      · subst hdc
        simpa using hi.bound d
      · rw [Server.setClient_heap_ne _ _ _ _ hdc]
        exact hi.bound d

theorem Inv.of_unregisterClient {s t : Server} {c : ClientRef} (hi : Inv s)
    (hc : c ∈ s.Clients) (h : unregisterClient s c = some t) : Inv t := by
  unfold unregisterClient at h
  cases hp : unregisterPublisher (s.setClients (s.Clients.erase c)) c with
  | none => simp [hp] at h
  | some s1 =>
    simp only [hp, Option.some_bind] at h
    have hcl : c ∉ (unregisterViewer s1 c).Clients := by
      rw [unregisterViewer_Clients, unregisterPublisher_Clients hp]
      simp
    exact ((hi.of_unregisterPublisher hc hp).of_unregisterViewer c).of_closeSend hcl h

theorem Inv.of_ServeWS {s : Server} (hi : Inv s) (peerID : String) :
    Inv (ServeWS s peerID) := by
  have hne : ∀ d, d ≠ s.next → (ServeWS s peerID).heap d = s.heap d := by
    intro d hdc
    simp [ServeWS, Function.update_noteq hdc]
  have hnew : (ServeWS s peerID).heap s.next = NewClient peerID := by
    simp [ServeWS]
  have hmem : ∀ d, d ∈ (ServeWS s peerID).Clients → d ≠ s.next → d ∈ s.Clients := by
    intro d hd hdc
    simpa [ServeWS, hdc] using hd
  refine ⟨?_, ?_, ?_⟩
  · intro d hd hrole hsid
    by_cases hdc : d = s.next
    · subst hdc
      rw [hnew] at hrole
      simp [NewClient] at hrole
    · rw [hne d hdc] at hrole hsid ⊢
      exact hi.owns d (hmem d hd hdc) hrole hsid
  · intro d hd
    by_cases hdc : d = s.next
    · subst hdc
      rw [hnew]; rfl
    · rw [hne d hdc]
      exact hi.live d (hmem d hd hdc)
  · intro d
    by_cases hdc : d = s.next
    · subst hdc
      rw [hnew]; simp [NewClient]
    · rw [hne d hdc]
      exact hi.bound d

theorem Weakens.of_writePumpRecv (s : Server) (c : ClientRef) :
    Weakens s (writePumpRecv s c) where
  clients := rfl
  streams := rfl
  role d := by
    by_cases hd : d = c
    · subst hd; simp [writePumpRecv]
    · simp [writePumpRecv, Server.setClient_heap_ne _ _ _ _ hd]
  streamID d := by
    by_cases hd : d = c
    · subst hd; simp [writePumpRecv]
    · simp [writePumpRecv, Server.setClient_heap_ne _ _ _ _ hd]
  closed d := by
    by_cases hd : d = c
    · subst hd; simp [writePumpRecv]
    · simp [writePumpRecv, Server.setClient_heap_ne _ _ _ _ hd]
  bound d h := by
    by_cases hd : d = c
    · subst hd
      simp only [writePumpRecv, Server.setClient_heap_self, List.length_tail]
      exact le_trans (Nat.sub_le _ _) h
    · simp only [writePumpRecv, Server.setClient_heap_ne _ _ _ _ hd]
      exact h

theorem Inv.after_writePumpRecv {s : Server} (hi : Inv s) (c : ClientRef) :
    Inv (writePumpRecv s c) :=
  hi.weakens (Weakens.of_writePumpRecv s c)

theorem Inv.of_NewServer : Inv NewServer :=
  ⟨fun c hc => by simp [NewServer] at hc, fun c hc => by simp [NewServer] at hc,
   fun c => by simp [NewServer, NewClient]⟩

theorem Inv.of_Step {s t : Server} (hi : Inv s) (h : Step s t) : Inv t := by
  cases h with
  | accept peerID => exact hi.of_ServeWS peerID
  | route c msg _ hc hr => exact hi.of_RouteMessage hr
  | invalid c _ hc hr => exact hi.after_SendJSON hr
  | close c _ hc hr => exact hi.of_unregisterClient hc hr
  | write c => exact hi.after_writePumpRecv c

theorem Inv.of_Reachable {s : Server} (h : Reachable s) : Inv s := by
  induction h with
  | init => exact Inv.of_NewServer
  | step s t _ hst ih => exact ih.of_Step hst

theorem Step.of_applyEvent {s t : Server} {e : Event} (h : applyEvent s e = some t) :
    Step s t := by
  cases e with
  | accept peerID =>
    simp only [applyEvent, Option.some.injEq] at h
    subst h
    exact Step.accept s peerID
  | route c msg =>
    simp only [applyEvent] at h
    split at h
    · rename_i hc
      exact Step.route s c msg t hc h
    · cases h
  | invalid c =>
    simp only [applyEvent] at h
    split at h
    · rename_i hc
      exact Step.invalid s c t hc h
    · cases h
  | close c =>
    simp only [applyEvent] at h
    split at h
    · rename_i hc
      exact Step.close s c t hc h
    · cases h
  | write c =>
    simp only [applyEvent, Option.some.injEq] at h
    subst h
    exact Step.write s c

theorem Reachable.of_run (events : List Event) :
    ∀ {s t : Server}, Reachable s → run s events = some t → Reachable t := by
  induction events with
  | nil =>
    intro s t hs h
    simp only [run, List.foldlM_nil, Option.pure_def, Option.some.injEq] at h
    subst h
    exact hs
  | cons e rest ih =>
    intro s t hs h
    simp only [run, List.foldlM_cons, Option.bind_eq_bind] at h
    cases he : applyEvent s e with
    | none => simp [he] at h
    | some s1 =>
      simp only [he, Option.some_bind] at h
      exact ih (Reachable.step s s1 hs (Step.of_applyEvent he)) h

theorem fullQueue_length : fullQueue.length = 256 := by
  unfold fullQueue
  exact List.length_replicate _ _

theorem fullQueue_mem (msg : Message) (h : msg ∈ fullQueue) :
    msg = successMessage "subscribed" := by
  unfold fullQueue at h
  exact List.eq_of_mem_replicate h

theorem fullClient_length : fullClient.Send.length = 256 :=
  fullQueue_length

/-! ## Dispatch by message type -/

theorem RouteMessage_register (s : Server) (c : ClientRef) (msg : Message)
    (h : msg.Type_ = MsgTypeRegister) : RouteMessage s c msg = handleRegister s c msg := by
  simp [RouteMessage, h]

theorem RouteMessage_listStreams (s : Server) (c : ClientRef) (msg : Message)
    (h : msg.Type_ = MsgTypeListStreams) : RouteMessage s c msg = handleListStreams s c := by
  simp [RouteMessage, h, MsgTypeListStreams, MsgTypeRegister, MsgTypeUnregister]

theorem RouteMessage_subscribe (s : Server) (c : ClientRef) (msg : Message)
    (h : msg.Type_ = MsgTypeSubscribe) : RouteMessage s c msg = handleSubscribe s c msg := by
  simp [RouteMessage, h, MsgTypeSubscribe, MsgTypeListStreams, MsgTypeRegister,
    MsgTypeUnregister]

theorem RouteMessage_offer (s : Server) (c : ClientRef) (msg : Message)
    (h : msg.Type_ = MsgTypeOffer) : RouteMessage s c msg = forwardSignal s c msg := by
  simp [RouteMessage, h, MsgTypeOffer, MsgTypeSubscribe, MsgTypeUnsubscribe,
    MsgTypeListStreams, MsgTypeRegister, MsgTypeUnregister]

theorem RouteMessage_answer (s : Server) (c : ClientRef) (msg : Message)
    (h : msg.Type_ = MsgTypeAnswer) : RouteMessage s c msg = forwardSignal s c msg := by
  simp [RouteMessage, h, MsgTypeAnswer, MsgTypeSubscribe, MsgTypeUnsubscribe,
    MsgTypeListStreams, MsgTypeRegister, MsgTypeUnregister]

/-! ## Duplicate registration -/

/-- C1. Routing `register(X)` for a non-empty `X` that is already registered,
from a connection whose queue is open, sends the error "stream_id already
registered" to the sender (the non-blocking send: appended when the queue has
room) and changes nothing else: the registry, the set of connections, and
every connection's role, streamID, peerID are as before, and so are the queues
of all other connections; the stream under `X` keeps its publisher and
viewers. -/
theorem register_existing_rejected (s : Server) (c : ClientRef) (msg : Message)
    (htype : msg.Type_ = MsgTypeRegister) (hX : msg.StreamID ≠ "")
    (hreg : msg.StreamID ∈ s.Streams) (hlive : (s.heap c).SendClosed = false) :
    ∃ t, RouteMessage s c msg = some t
      ∧ (t.heap c).Send
          = trySend (s.heap c).Send (errorMessage "stream_id already registered")
      ∧ ((s.heap c).Send.length < sendCapacity → (t.heap c).Send
          = (s.heap c).Send ++ [errorMessage "stream_id already registered"])
      ∧ t.Streams = s.Streams ∧ t.Clients = s.Clients
      ∧ t.Streams.lookup msg.StreamID = s.Streams.lookup msg.StreamID
      ∧ (∀ d, (t.heap d).Role = (s.heap d).Role ∧ (t.heap d).StreamID = (s.heap d).StreamID
          ∧ (t.heap d).PeerID = (s.heap d).PeerID
          ∧ (t.heap d).SendClosed = (s.heap d).SendClosed)
      ∧ (∀ d, d ≠ c → t.heap d = s.heap d) := by
  have hsome : (s.Streams.lookup msg.StreamID).isSome = true := AList.lookup_isSome.mpr hreg
  refine ⟨s.afterSend c (errorMessage "stream_id already registered"), ?_, ?_, ?_, rfl, rfl,
    rfl, ?_, ?_⟩
  · simp [RouteMessage, htype, handleRegister, hX, hsome, Server.SendError,
      Server.SendJSON_open _ _ _ hlive]
  · simp [Server.afterSend_heap_self]
  · intro hroom
    simp [Server.afterSend_heap_self, trySend_of_room _ _ hroom]
  · intro d
    exact Server.afterSend_fields s c d _
  · intro d hd
    exact Server.afterSend_heap_ne s c d _ hd

theorem register_existing_rejected_witness :
    ∃ t, RouteMessage demoServer 1 { Type_ := MsgTypeRegister, StreamID := "x" } = some t
      ∧ (t.heap 1).Send = [errorMessage "stream_id already registered"]
      ∧ t.Streams = demoServer.Streams := by
  obtain ⟨t, h1, _, h3, h4, _⟩ :=
    register_existing_rejected demoServer 1 { Type_ := MsgTypeRegister, StreamID := "x" }
      rfl (by decide) (by decide) rfl
  exact ⟨t, h1, h3 (by decide), h4⟩

/-! ## Publisher uniqueness -/

/-- C2. In every reachable state and for every non-empty stream id `X`, at
most one live connection has role publisher together with streamID `X`. -/
theorem publisher_unique (s : Server) (hr : Reachable s) (X : String) (hX : X ≠ "")
    (c d : ClientRef) (hc : c ∈ s.Clients) (hd : d ∈ s.Clients)
    (hcp : (s.heap c).Role = "publisher" ∧ (s.heap c).StreamID = X)
    (hdp : (s.heap d).Role = "publisher" ∧ (s.heap d).StreamID = X) : c = d := by
  have hi := Inv.of_Reachable hr
  obtain ⟨st1, h1, p1⟩ := hi.owns c hc hcp.1 (by rw [hcp.2]; exact hX)
  obtain ⟨st2, h2, p2⟩ := hi.owns d hd hdp.1 (by rw [hdp.2]; exact hX)
  rw [hcp.2] at h1
  rw [hdp.2, h1] at h2
  rw [← Option.some.inj h2, p1] at p2
  exact Option.some.inj p2

theorem demoReached_run : run NewServer demoEvents = some demoReached := rfl

theorem demoReached_reachable : Reachable demoReached :=
  Reachable.of_run demoEvents Reachable.init demoReached_run

theorem publisher_unique_witness :
    (demoReached.heap 0).Role = "publisher" ∧ (demoReached.heap 0).StreamID = "x"
      ∧ (0 : ClientRef) = 0 :=
  ⟨rfl, rfl, publisher_unique demoReached demoReached_reachable "x" (by decide) 0 0
    (by decide) (by decide) ⟨rfl, rfl⟩ ⟨rfl, rfl⟩⟩

/-! ## Streams whose publisher has gone -/

/-- C3 (evaluation at the failing input). The runs `orphanByUnsubscribe` and
`orphanByReregister` are possible, and in the state each ends in stream "x" is
still registered with connection 0 as publisher, although connection 0 has
left `Clients` and its queue is closed. After `orphanWithViewer` an offer for
"x" routed from the live viewer panics. -/
theorem stream_outlives_publisher :
    (run NewServer orphanByUnsubscribe = some (stateAfter orphanByUnsubscribe)
      ∧ Reachable (stateAfter orphanByUnsubscribe)
      ∧ ((stateAfter orphanByUnsubscribe).Streams.lookup "x").map (fun st => st.Publisher)
          = some (some 0)
      ∧ 0 ∉ (stateAfter orphanByUnsubscribe).Clients
      ∧ ((stateAfter orphanByUnsubscribe).heap 0).SendClosed = true)
    ∧ (run NewServer orphanByReregister = some (stateAfter orphanByReregister)
      ∧ Reachable (stateAfter orphanByReregister)
      ∧ ((stateAfter orphanByReregister).Streams.lookup "x").map (fun st => st.Publisher)
          = some (some 0)
      ∧ 0 ∉ (stateAfter orphanByReregister).Clients
      ∧ ((stateAfter orphanByReregister).heap 0).SendClosed = true)
    ∧ (run NewServer orphanWithViewer = some (stateAfter orphanWithViewer)
      ∧ 1 ∈ (stateAfter orphanWithViewer).Clients
      ∧ RouteMessage (stateAfter orphanWithViewer) 1
          { Type_ := MsgTypeOffer, StreamID := "x", PeerID := "v1" } = none) := by
  have h1 : run NewServer orphanByUnsubscribe = some (stateAfter orphanByUnsubscribe) := rfl
  have h2 : run NewServer orphanByReregister = some (stateAfter orphanByReregister) := rfl
  exact ⟨⟨h1, Reachable.of_run _ Reachable.init h1, by decide, by decide, rfl⟩,
    ⟨h2, Reachable.of_run _ Reachable.init h2, by decide, by decide, rfl⟩,
    ⟨rfl, by decide, rfl⟩⟩

/-! ## The bound on the outbound queue -/

/-- C8. The outbound queue of a connection never holds more than 256
messages: this holds of every queue in every reachable state; `SendJSON` on an
open queue holding fewer than 256 messages appends the message at the tail,
and on an open queue holding exactly 256 messages it returns leaving the
connection, and so the queue, as it was. -/
theorem send_queue_bounded :
    (∀ s, Reachable s → ∀ c, (s.heap c).Send.length ≤ 256)
    ∧ (∀ (c : Client) (msg : Message), c.SendClosed = false → c.Send.length < 256 →
        c.SendJSON msg = some { c with Send := c.Send ++ [msg] })
    ∧ (∀ (c : Client) (msg : Message), c.SendClosed = false → c.Send.length = 256 →
        c.SendJSON msg = some c) := by
  refine ⟨fun s hr c => (Inv.of_Reachable hr).bound c, ?_, ?_⟩
  · intro c msg hopen hlen
    simp [Client.SendJSON, hopen, trySend, sendCapacity, hlen]
  · intro c msg hopen hlen
    obtain ⟨queue, closed, role, sid, pid⟩ := c
    simp only at hopen hlen
    subst hopen
    simp [Client.SendJSON, trySend, sendCapacity, hlen]

theorem send_queue_bounded_witness :
    (demoReached.heap 1).Send.length ≤ 256
      ∧ (NewClient "p").SendJSON (errorMessage "e")
          = some { NewClient "p" with Send := [errorMessage "e"] }
      ∧ fullClient.SendJSON (errorMessage "e") = some fullClient :=
  ⟨send_queue_bounded.1 demoReached demoReached_reachable 1,
   send_queue_bounded.2.1 (NewClient "p") (errorMessage "e") rfl (by decide),
   send_queue_bounded.2.2 fullClient (errorMessage "e") rfl fullClient_length⟩

/-! ## Forwarding of offers and answers -/

/-- Offers to a publisher that is still connected. In a state where stream `S`
has publisher `P` and `P`'s queue is open
and holds fewer than 256 messages, routing an offer with streamID `S` (from
any connection, whatever other streams and viewers exist) puts the message
itself, once, at the tail of `P`'s queue; `P`'s other fields, every other
connection (so no reply to the sender), the registry and the set of
connections are unchanged. -/
theorem offer_forwarded_to_publisher (s : Server) (c : ClientRef) (msg : Message)
    (stream : PublisherStream) (P : ClientRef)
    (htype : msg.Type_ = MsgTypeOffer)
    (hS : s.Streams.lookup msg.StreamID = some stream) (hP : stream.Publisher = some P)
    (hopen : (s.heap P).SendClosed = false) (hroom : (s.heap P).Send.length < 256) :
    ∃ t, RouteMessage s c msg = some t
      ∧ t.heap P = { s.heap P with Send := (s.heap P).Send ++ [msg] }
      ∧ (∀ d, d ≠ P → t.heap d = s.heap d)
      ∧ t.Streams = s.Streams ∧ t.Clients = s.Clients := by
  refine ⟨s.afterSend P msg, ?_, ?_, ?_, rfl, rfl⟩
  · rw [RouteMessage_offer s c msg htype]
    simp [forwardSignal, htype, hS, sendToPublisher, hP, Server.SendJSON_open _ _ _ hopen]
  · rw [Server.afterSend_heap_self, trySend_of_room _ _ hroom]
  · intro d hd
    exact Server.afterSend_heap_ne s P d msg hd

theorem offer_forwarded_to_publisher_witness :
    ∃ t, RouteMessage demoReached 1
        { Type_ := MsgTypeOffer, StreamID := "x", PeerID := "v1", Data := Payload.raw "sdp" }
          = some t
      ∧ (t.heap 0).Send = [successMessage "stream registered",
          { Type_ := MsgTypeOffer, StreamID := "x", PeerID := "v1", Data := Payload.raw "sdp" }]
      ∧ t.heap 1 = demoReached.heap 1 := by
  obtain ⟨t, h1, h2, h3, _⟩ := offer_forwarded_to_publisher demoReached 1
    { Type_ := MsgTypeOffer, StreamID := "x", PeerID := "v1", Data := Payload.raw "sdp" }
    { Publisher := some 0, Viewers := AList.singleton "v1" 1 } 0 rfl rfl rfl rfl
    (by decide)
  exact ⟨t, h1, by rw [h2]; rfl, h3 1 (by decide)⟩

/-- Routing an answer whose stream and peer id are found sends it to the
viewer stored under that peer id. -/
theorem RouteMessage_answer_found (s : Server) (c : ClientRef) (msg : Message)
    (stream : PublisherStream) (V : ClientRef)
    (htype : msg.Type_ = MsgTypeAnswer)
    (hS : s.Streams.lookup msg.StreamID = some stream)
    (hV : stream.Viewers.lookup msg.PeerID = some V)
    (hopen : (s.heap V).SendClosed = false) :
    RouteMessage s c msg = some (s.afterSend V msg) := by
  rw [RouteMessage_answer s c msg htype]
  simp [forwardSignal, htype, MsgTypeAnswer, MsgTypeOffer, hS, sendToViewer, hV,
    Server.SendJSON_open _ _ _ hopen]

/-- C5 (as stated, refuted). Stream "x" maps "v1" to connection 1, whose queue
is open and holds 256 messages: routing the answer addressed to ("x", "v1")
leaves that queue as it was, and the answer is not in it. -/
theorem answer_dropped_when_queue_full :
    (fullViewerServer.Streams.lookup "x").map (fun st => st.Viewers.lookup "v1")
        = some (some 1)
      ∧ (fullViewerServer.heap 1).SendClosed = false
      ∧ ∃ t, RouteMessage fullViewerServer 0 demoAnswer = some t
          ∧ (t.heap 1).Send = (fullViewerServer.heap 1).Send
          ∧ demoAnswer ∉ (t.heap 1).Send := by
  have hc : fullViewerServer.heap 1 = fullClient := rfl
  have hfull : ¬ fullClient.Send.length < sendCapacity := by
    rw [fullClient_length]; decide
  have hq : ((fullViewerServer.afterSend 1 demoAnswer).heap 1).Send = fullClient.Send := by
    rw [Server.afterSend_heap_self, hc]
    exact trySend_of_full fullClient.Send demoAnswer hfull
  refine ⟨rfl, rfl, fullViewerServer.afterSend 1 demoAnswer, ?_, by rw [hq, hc], ?_⟩
  · exact RouteMessage_answer_found fullViewerServer 0 demoAnswer
      { Publisher := some 0, Viewers := (AList.singleton "v1" 1).insert "v2" 2 } 1
      rfl rfl rfl rfl
  · rw [hq]
    intro hmem
    exact absurd (fullQueue_mem _ hmem) (by decide)

/-- C5 (amended). In a state where stream `S` maps peer id `p` to a connection
`V` whose queue is open, routing answer(`S`, `p`) from any connection makes one
non-blocking send of the message itself to `V`: it is appended to `V`'s queue
when that holds fewer than 256 messages and dropped when it is full. Nothing
else changes: every connection other than `V` (other viewers of `S`,
connections of other streams, the sender), the registry and the set of
connections are as before. -/
theorem answer_forwarded_to_viewer (s : Server) (c : ClientRef) (msg : Message)
    (stream : PublisherStream) (V : ClientRef)
    (htype : msg.Type_ = MsgTypeAnswer)
    (hS : s.Streams.lookup msg.StreamID = some stream)
    (hV : stream.Viewers.lookup msg.PeerID = some V)
    (hopen : (s.heap V).SendClosed = false) :
    ∃ t, RouteMessage s c msg = some t
      ∧ ((s.heap V).Send.length < 256 →
          t.heap V = { s.heap V with Send := (s.heap V).Send ++ [msg] })
      ∧ (¬ (s.heap V).Send.length < 256 → t.heap V = s.heap V)
      ∧ (∀ d, d ≠ V → t.heap d = s.heap d)
      ∧ t.Streams = s.Streams ∧ t.Clients = s.Clients := by
  refine ⟨s.afterSend V msg, ?_, ?_, ?_, ?_, rfl, rfl⟩
  · exact RouteMessage_answer_found s c msg stream V htype hS hV hopen
  · intro hroom
    rw [Server.afterSend_heap_self, trySend_of_room _ _ hroom]
  · intro hfull
    rw [Server.afterSend_heap_self, trySend_of_full _ _ hfull]
  · intro d hd
    exact Server.afterSend_heap_ne s V d msg hd

theorem answer_forwarded_to_viewer_witness :
    ∃ t, RouteMessage demoReached 0 demoAnswer = some t
      ∧ (t.heap 1).Send = [successMessage "subscribed", demoAnswer]
      ∧ t.heap 0 = demoReached.heap 0 := by
  obtain ⟨t, h1, h2, _, h4, _⟩ := answer_forwarded_to_viewer demoReached 0 demoAnswer
    { Publisher := some 0, Viewers := AList.singleton "v1" 1 } 1 rfl rfl rfl rfl
  exact ⟨t, h1, by rw [h2 (by decide)]; rfl, h4 0 (by decide)⟩

/-! ## Cleanup after a publisher closes -/

theorem evictViewers_cons (s : Server) (v : Sigma fun _ : String => ClientRef)
    (rest : List (Sigma fun _ : String => ClientRef))
    (hopen : (s.heap v.2).SendClosed = false) :
    evictViewers s (v :: rest)
      = evictViewers ((s.afterSend v.2 (errorMessage "stream removed")).setClient v.2
          { (s.afterSend v.2 (errorMessage "stream removed")).heap v.2 with StreamID := "" })
          rest := by
  simp [evictViewers, List.foldlM_cons, Server.SendError, Server.SendJSON_open _ _ _ hopen]

/-- The effect of the eviction loop when every viewer's queue is open: a
connection stored under `k` peer ids is sent "stream removed" `k` times, and
its streamID is cleared when `k` is positive. -/
theorem evictViewers_spec (viewers : List (Sigma fun _ : String => ClientRef)) :
    ∀ s : Server, (∀ v ∈ viewerRefs viewers, (s.heap v).SendClosed = false) →
      ∃ t, evictViewers s viewers = some t ∧ t.Clients = s.Clients ∧ t.Streams = s.Streams
        ∧ ∀ d, t.heap d =
            { s.heap d with
              Send := trySendTimes ((viewerRefs viewers).count d) (s.heap d).Send
                (errorMessage "stream removed")
              StreamID := if d ∈ viewerRefs viewers then "" else (s.heap d).StreamID } := by
  induction viewers with
  | nil =>
    intro s _
    exact ⟨s, rfl, rfl, rfl, fun d => by simp [viewerRefs, trySendTimes]⟩
  | cons v rest ih =>
    intro s hopen
    have hv : (s.heap v.2).SendClosed = false :=
      hopen v.2 (by simp [viewerRefs])
    have hw := (Weakens.afterSend s v.2 (errorMessage "stream removed")).trans
      (Weakens.clearStreamID (s.afterSend v.2 (errorMessage "stream removed")) v.2)
    obtain ⟨t, h1, h2, h3, h4⟩ := ih _ (by
      intro w hwm
      rw [hw.closed]
      exact hopen w (by simp only [viewerRefs, List.map_cons, List.mem_cons]
                        exact Or.inr hwm))
    refine ⟨t, by rw [evictViewers_cons s v rest hv]; exact h1, h2.trans hw.clients,
      h3.trans hw.streams, ?_⟩
    intro d
    rw [h4 d]
    by_cases hd : d = v.2
    · subst hd
      simp [viewerRefs, trySendTimes, Server.afterSend_heap_self]
    · have hne : v.2 ≠ d := fun e => hd e.symm
      have hmem : d ∈ viewerRefs (v :: rest) ↔ d ∈ viewerRefs rest := by
        simp [viewerRefs, hd]
      have hcount : (viewerRefs (v :: rest)).count d = (viewerRefs rest).count d := by
        simp [viewerRefs, List.count_cons, hne]
      rw [Server.setClient_heap_ne _ _ _ _ hd, Server.afterSend_heap_ne _ _ _ _ hd, hcount]
      simp only [hmem]

/-- The eviction loop does not depend on the order in which the `range` over
the viewer map visits the entries. -/
theorem evictViewers_perm (s : Server) (viewers other : List (Sigma fun _ : String => ClientRef))
    (hp : viewers.Perm other)
    (hopen : ∀ v ∈ viewerRefs viewers, (s.heap v).SendClosed = false) :
    ∃ t u, evictViewers s viewers = some t ∧ evictViewers s other = some u
      ∧ t.Clients = u.Clients ∧ t.Streams = u.Streams ∧ ∀ d, t.heap d = u.heap d := by
  have hperm : (viewerRefs viewers).Perm (viewerRefs other) := hp.map _
  obtain ⟨t, h1, h2, h3, h4⟩ := evictViewers_spec viewers s hopen
  obtain ⟨u, k1, k2, k3, k4⟩ := evictViewers_spec other s
    (fun v hv => hopen v (hperm.mem_iff.mpr hv))
  refine ⟨t, u, h1, k1, h2.trans k2.symm, h3.trans k3.symm, fun d => ?_⟩
  rw [h4 d, k4 d, hperm.count_eq d]
  simp only [hperm.mem_iff]

theorem trySendTimes_one (queue : List Message) (msg : Message) :
    trySendTimes 1 queue msg = trySend queue msg := rfl

theorem RouteMessage_subscribe_absent (s : Server) (c : ClientRef) (msg : Message)
    (htype : msg.Type_ = MsgTypeSubscribe) (hX : msg.StreamID ≠ "")
    (habs : s.Streams.lookup msg.StreamID = none) (hopen : (s.heap c).SendClosed = false) :
    RouteMessage s c msg = some (s.afterSend c (errorMessage "stream not found")) := by
  rw [RouteMessage_subscribe s c msg htype]
  simp [handleSubscribe, hX, habs, Server.SendError, Server.SendJSON_open _ _ _ hopen]

/-- The state after the cleanup of a closing publisher whose stream is
registered, whose viewers all have open queues and which is not among its own
viewers. -/
theorem unregisterClient_publisher (s : Server) (c : ClientRef) (stream : PublisherStream)
    (hrole : (s.heap c).Role = "publisher") (hS : (s.heap c).StreamID ≠ "")
    (hl : s.Streams.lookup (s.heap c).StreamID = some stream)
    (hc : (s.heap c).SendClosed = false)
    (hv : ∀ v ∈ viewerRefs stream.Viewers.entries, (s.heap v).SendClosed = false ∧ v ≠ c) :
    ∃ t, unregisterClient s c = some t
      ∧ t.Streams = s.Streams.erase (s.heap c).StreamID
      ∧ t.Clients = s.Clients.erase c
      ∧ t.heap c = { s.heap c with SendClosed := true }
      ∧ ∀ d, d ≠ c → t.heap d =
          { s.heap d with
            Send := trySendTimes ((viewerRefs stream.Viewers.entries).count d) (s.heap d).Send
              (errorMessage "stream removed")
            StreamID := if d ∈ viewerRefs stream.Viewers.entries then ""
              else (s.heap d).StreamID } := by
  obtain ⟨s1, he, hcl, hst, hheap⟩ :=
    evictViewers_spec stream.Viewers.entries (s.setClients (s.Clients.erase c))
      (fun v hvm => (hv v hvm).1)
  have hnot : c ∉ viewerRefs stream.Viewers.entries := fun hm => (hv c hm).2 rfl
  have hc1 : s1.heap c = s.heap c := by
    rw [hheap c]
    simp [hnot, List.count_eq_zero_of_not_mem hnot, trySendTimes]
  have hp : unregisterPublisher (s.setClients (s.Clients.erase c)) c
      = some (s1.setStreams (s.Streams.erase (s.heap c).StreamID)) := by
    simp [unregisterPublisher, hrole, hS, hl, he, hc1, hst]
  have hview : unregisterViewer (s1.setStreams (s.Streams.erase (s.heap c).StreamID)) c
      = s1.setStreams (s.Streams.erase (s.heap c).StreamID) := by
    simp [unregisterViewer, hc1, hrole]
  refine ⟨(s1.setStreams (s.Streams.erase (s.heap c).StreamID)).setClient c
      { s.heap c with SendClosed := true }, ?_, rfl, ?_, ?_, ?_⟩
  · simp [unregisterClient, hp, hview, closeSend, hc1, hc]
  · simp [hcl]
  · simp
  · intro d hd
    rw [Server.setClient_heap_ne _ _ _ _ hd]
    exact hheap d

/-- Connection 1 subscribed to stream "x" under the peer ids "v1" and "v2";
when the publisher, connection 0, closes, connection 1 is sent the error
"stream removed" once per entry: its queue ends with two copies. -/
theorem viewer_notified_per_entry :
    run NewServer doubleSubscribe = some (stateAfter doubleSubscribe)
      ∧ ((stateAfter doubleSubscribe).Streams.lookup "x").map
          (fun st => viewerRefs st.Viewers.entries) = some [1, 1]
      ∧ ∃ t, unregisterClient (stateAfter doubleSubscribe) 0 = some t
          ∧ (t.heap 1).Send = [successMessage "subscribed", successMessage "subscribed",
              errorMessage "stream removed", errorMessage "stream removed"] :=
  ⟨rfl, rfl, _, rfl, rfl⟩

/-- C6 (as stated, refuted). In `fullViewerServer` connection 0 publishes
stream "x", whose viewers are connection 2 and connection 1, the queue of
connection 1 holding 256 messages. When connection 0 closes, the stream is
removed and the queue of connection 1 is as before: it holds no "stream
removed" notification. -/
theorem viewer_not_notified_when_queue_full :
    (fullViewerServer.heap 0).Role = "publisher"
      ∧ (fullViewerServer.heap 0).StreamID = "x"
      ∧ (fullViewerServer.Streams.lookup "x").map
          (fun st => viewerRefs st.Viewers.entries) = some [2, 1]
      ∧ ∃ t, unregisterClient fullViewerServer 0 = some t
          ∧ t.Streams.lookup "x" = none
          ∧ (t.heap 1).Send = (fullViewerServer.heap 1).Send
          ∧ errorMessage "stream removed" ∉ (t.heap 1).Send := by
  obtain ⟨t, h1, h2, _, _, h5⟩ := unregisterClient_publisher fullViewerServer 0
    { Publisher := some 0, Viewers := (AList.singleton "v1" 1).insert "v2" 2 }
    rfl (by decide) rfl rfl
    (by intro v hvm
        have hv : v = 2 ∨ v = 1 := by simpa [viewerRefs] using hvm
        rcases hv with hv | hv <;> subst hv <;> exact ⟨rfl, by decide⟩)
  have hc : fullViewerServer.heap 1 = fullClient := rfl
  have hfull : ¬ fullQueue.length < sendCapacity := by
    rw [fullQueue_length]; decide
  have hq : (t.heap 1).Send = fullQueue := by
    rw [h5 1 (by decide), hc]
    exact trySend_of_full fullQueue _ hfull
  refine ⟨rfl, rfl, rfl, t, h1, ?_, by rw [hq, hc]; rfl, ?_⟩
  · rw [h2]; exact AList.lookup_erase _ _
  · rw [hq]
    intro hmem
    exact absurd (fullQueue_mem _ hmem) (by decide)

/-- C6 (amended). When a connection `c` with role publisher and a registered,
non-empty streamID `S` closes, `c` not being one of `S`'s viewers and every
viewer of `S` having an open queue, then: `S` is no longer in the registry;
every other connection stored under exactly one peer id in `S`'s viewer set
is sent the error "stream removed" once, so that exactly one notification is
appended to its queue when the queue has room, and its queue is unchanged
when it already holds 256 messages; connections that are not viewers of `S`
are unchanged; and a subsequent subscribe(`S`, any peer id) from any other
connection with an open queue is answered with the error "stream not found"
and changes nothing but that reply in the sender's queue. -/
theorem publisher_close_evicts (s : Server) (c : ClientRef) (stream : PublisherStream)
    (hrole : (s.heap c).Role = "publisher") (hS : (s.heap c).StreamID ≠ "")
    (hl : s.Streams.lookup (s.heap c).StreamID = some stream)
    (hc : (s.heap c).SendClosed = false)
    (hv : ∀ v ∈ viewerRefs stream.Viewers.entries, (s.heap v).SendClosed = false ∧ v ≠ c) :
    ∃ t, unregisterClient s c = some t
      ∧ t.Streams.lookup (s.heap c).StreamID = none
      ∧ (∀ d, d ≠ c → (viewerRefs stream.Viewers.entries).count d = 1 →
          (s.heap d).Send.length < 256 →
          (t.heap d).Send = (s.heap d).Send ++ [errorMessage "stream removed"])
      ∧ (∀ d, d ≠ c → (viewerRefs stream.Viewers.entries).count d = 1 →
          ¬ (s.heap d).Send.length < 256 → (t.heap d).Send = (s.heap d).Send)
      ∧ (∀ d, d ≠ c → d ∉ viewerRefs stream.Viewers.entries → t.heap d = s.heap d)
      ∧ (∀ d msg, d ≠ c → (s.heap d).SendClosed = false → msg.Type_ = MsgTypeSubscribe →
          msg.StreamID = (s.heap c).StreamID →
          RouteMessage t d msg = some (t.afterSend d (errorMessage "stream not found"))) := by
  obtain ⟨t, h1, h2, _, _, h5⟩ := unregisterClient_publisher s c stream hrole hS hl hc hv
  have habs : t.Streams.lookup (s.heap c).StreamID = none := by
    rw [h2]; exact AList.lookup_erase _ _
  refine ⟨t, h1, habs, ?_, ?_, ?_, ?_⟩
  · intro d hd hone hroom
    rw [h5 d hd, hone]
    exact trySend_of_room _ _ hroom
  · intro d hd hone hfull
    rw [h5 d hd, hone]
    exact trySend_of_full _ _ hfull
  · intro d hd hnot
    rw [h5 d hd]
    simp [hnot, List.count_eq_zero_of_not_mem hnot, trySendTimes]
  · intro d msg hd hopen htype hsid
    exact RouteMessage_subscribe_absent t d msg htype (by rw [hsid]; exact hS)
      (by rw [hsid]; exact habs) (by rw [h5 d hd]; exact hopen)

theorem publisher_close_evicts_witness :
    ∃ t, unregisterClient demoReached 0 = some t
      ∧ t.Streams.lookup "x" = none
      ∧ (t.heap 1).Send = [successMessage "subscribed", errorMessage "stream removed"]
      ∧ RouteMessage t 1 { Type_ := MsgTypeSubscribe, StreamID := "x", PeerID := "v9" }
          = some (t.afterSend 1 (errorMessage "stream not found")) := by
  obtain ⟨t, h1, h2, h3, _, _, h6⟩ := publisher_close_evicts demoReached 0
    { Publisher := some 0, Viewers := AList.singleton "v1" 1 } rfl (by decide) rfl rfl
    (by intro v hvm
        have hv1 : v = 1 := by simpa [viewerRefs] using hvm
        subst hv1
        exact ⟨rfl, by decide⟩)
  exact ⟨t, h1, h2, h3 1 (by decide) rfl (by decide), h6 1 _ (by decide) rfl rfl rfl⟩

/-! ## The stream list -/

/-- C10. In every reachable state, routing `list_streams` from any live
connection `c` sends `c` one `stream_list` message whose payload lists the
registered stream ids, each exactly once, and changes nothing else: the
registry, the set of connections, every other connection and the role,
streamID and peerID of `c` are as before. In the run `listScenario` the three
replies carry no id, then "a" and "b", then "b" only. -/
theorem list_streams_reply :
    (∀ (s : Server) (c : ClientRef) (msg : Message), Reachable s → c ∈ s.Clients →
      msg.Type_ = MsgTypeListStreams →
      ∃ t ids, RouteMessage s c msg = some t
        ∧ (t.heap c).Send = trySend (s.heap c).Send (streamListMessage ids)
        ∧ ids.Nodup ∧ (∀ X, X ∈ ids ↔ (s.Streams.lookup X).isSome = true)
        ∧ t.Streams = s.Streams ∧ t.Clients = s.Clients
        ∧ (∀ d, d ≠ c → t.heap d = s.heap d)
        ∧ (t.heap c).Role = (s.heap c).Role ∧ (t.heap c).StreamID = (s.heap c).StreamID
        ∧ (t.heap c).PeerID = (s.heap c).PeerID)
    ∧ (run NewServer listScenario = some (stateAfter listScenario)
      ∧ ((stateAfter listScenario).heap 2).Send
          = [streamListMessage [], streamListMessage ["b", "a"], streamListMessage ["b"]]) := by
  refine ⟨?_, rfl, rfl⟩
  intro s c msg hr hc htype
  have hopen := (Inv.of_Reachable hr).live c hc
  refine ⟨s.afterSend c (streamListMessage s.Streams.keys), s.Streams.keys, ?_, ?_,
    s.Streams.keys_nodup, ?_, rfl, rfl, ?_, ?_⟩
  · rw [RouteMessage_listStreams s c msg htype]
    exact Server.SendJSON_open s c _ hopen
  · rw [Server.afterSend_heap_self]
  · intro X
    rw [AList.lookup_isSome, AList.mem_keys]
  · intro d hd
    exact Server.afterSend_heap_ne s c d _ hd
  · have h := Server.afterSend_fields s c c (streamListMessage s.Streams.keys)
    exact ⟨h.1, h.2.1, h.2.2.1⟩

theorem list_streams_reply_witness :
    ∃ t ids, RouteMessage demoReached 1 { Type_ := MsgTypeListStreams } = some t
      ∧ (t.heap 1).Send = trySend (demoReached.heap 1).Send (streamListMessage ids)
      ∧ (∀ X, X ∈ ids ↔ (demoReached.Streams.lookup X).isSome = true) := by
  obtain ⟨t, ids, h1, h2, _, h4, _⟩ := list_streams_reply.1 demoReached 1
    { Type_ := MsgTypeListStreams } demoReached_reachable (by decide) rfl
  exact ⟨t, ids, h1, h2, h4⟩

/-! ## Buffering of candidates in the viewer session -/

theorem NoEarlyCandidate.snoc {calls : List TransportCall} (h : NoEarlyCandidate calls)
    (x : TransportCall) (hx : ∀ cand, x ≠ TransportCall.AddICECandidate cand) :
    NoEarlyCandidate (calls ++ [x]) := by
  intro before cand after heq
  rcases List.append_eq_append_iff.mp heq with ⟨a, h1, h2⟩ | ⟨a, h1, h2⟩
  · cases a with
    | nil =>
      simp only [List.nil_append, List.cons.injEq] at h2
      exact absurd h2.1 (hx cand)
    | cons y ys =>
      simp only [List.cons_append, List.cons.injEq] at h2
      exact absurd h2.2.symm (by simp)
  · cases a with
    | nil =>
      simp only [List.nil_append, List.cons.injEq] at h2
      exact absurd h2.1.symm (hx cand)
    | cons y ys =>
      simp only [List.cons_append, List.cons.injEq] at h2
      rw [← h2.1] at h1
      exact h before cand ys h1

theorem NoEarlyCandidate.append {calls : List TransportCall} (h : NoEarlyCandidate calls)
    (sdp : SessionDescription) (hs : TransportCall.SetRemoteDescription sdp true ∈ calls)
    (more : List TransportCall) : NoEarlyCandidate (calls ++ more) := by
  intro before cand after heq
  rcases List.append_eq_append_iff.mp heq with ⟨a, h1, _⟩ | ⟨a, h1, h2⟩
  · exact ⟨sdp, by rw [h1]; exact List.mem_append_left _ hs⟩
  · cases a with
    | nil =>
      rw [h1, List.append_nil] at hs
      exact ⟨sdp, hs⟩
    | cons y ys =>
      simp only [List.cons_append, List.cons.injEq] at h2
      rw [← h2.1] at h1
      exact h before cand ys h1

theorem arrivedCandidates_snoc (k : Collaborators) (history : List signalMessage)
    (msg : signalMessage) :
    arrivedCandidates k (history ++ [msg]) = arrivedCandidates k history
      ++ (if msg.Type_ = "ice_candidate" then (k.decodeCandidate msg.Data).toList else []) := by
  unfold arrivedCandidates
  rw [List.filterMap_append]
  congr 1
  by_cases ht : msg.Type_ = "ice_candidate"
  · cases hd : k.decodeCandidate msg.Data <;> simp [List.filterMap_cons, ht, hd]
  · simp [List.filterMap_cons, ht]

theorem ViewerInv.fresh (k : Collaborators) (ws pc : Handle) (dc : Option Handle) :
    ViewerInv k (freshViewer ws pc dc) [] where
  hasPC := rfl
  noEarly := by
    intro before cand after heq
    simp [freshViewer] at heq
  unset := fun _ => ⟨rfl, fun cand hm => by simp [freshViewer] at hm⟩
  set := fun h => by simp [freshViewer] at h

theorem viewerSession.handleAnswer_ok (k : Collaborators) (s : viewerSession)
    (msg : signalMessage) (h : Handle) (ans : SessionDescription) (hpc : s.pc = some h)
    (hd : k.decodeSDP msg.Data = some ans) (hok : k.setRemoteOk s.calls ans = true) :
    (s.handleAnswer k msg).1 =
      { s with
        remoteSet := true
        calls := s.calls ++ [TransportCall.SetRemoteDescription ans true]
          ++ s.pendingICEs.map TransportCall.AddICECandidate
        pendingICEs := [] } := by
  simp [viewerSession.handleAnswer, hpc, hd, hok]

theorem viewerSession.handleAnswer_rejected (k : Collaborators) (s : viewerSession)
    (msg : signalMessage) (h : Handle) (ans : SessionDescription) (hpc : s.pc = some h)
    (hd : k.decodeSDP msg.Data = some ans) (hok : k.setRemoteOk s.calls ans = false) :
    (s.handleAnswer k msg).1 =
      { s with calls := s.calls ++ [TransportCall.SetRemoteDescription ans false] } := by
  simp [viewerSession.handleAnswer, hpc, hd, hok]

theorem viewerSession.handleAnswer_undecodable (k : Collaborators) (s : viewerSession)
    (msg : signalMessage) (hd : k.decodeSDP msg.Data = none) :
    (s.handleAnswer k msg).1 = s := by
  unfold viewerSession.handleAnswer
  cases s.pc <;> simp [hd]

theorem viewerSession.handleICE_buffer (k : Collaborators) (s : viewerSession)
    (msg : signalMessage) (h : Handle) (cand : ICECandidateInit) (hpc : s.pc = some h)
    (hd : k.decodeCandidate msg.Data = some cand) (hr : s.remoteSet = false) :
    (s.handleICE k msg).1 = { s with pendingICEs := s.pendingICEs ++ [cand] } := by
  simp [viewerSession.handleICE, hpc, hd, hr]

theorem viewerSession.handleICE_apply (k : Collaborators) (s : viewerSession)
    (msg : signalMessage) (h : Handle) (cand : ICECandidateInit) (hpc : s.pc = some h)
    (hd : k.decodeCandidate msg.Data = some cand) (hr : s.remoteSet = true) :
    (s.handleICE k msg).1
      = { s with calls := s.calls ++ [TransportCall.AddICECandidate cand] } := by
  simp [viewerSession.handleICE, hpc, hd, hr]

theorem viewerSession.handleICE_undecodable (k : Collaborators) (s : viewerSession)
    (msg : signalMessage) (hd : k.decodeCandidate msg.Data = none) :
    (s.handleICE k msg).1 = s := by
  unfold viewerSession.handleICE
  cases s.pc <;> simp [hd]

theorem viewerSession.dispatch_answer (k : Collaborators) (s : viewerSession)
    (msg : signalMessage) (ht : msg.Type_ = "answer") :
    s.dispatch k msg = (s.handleAnswer k msg).1 := by
  simp [viewerSession.dispatch, ht]

theorem viewerSession.dispatch_ice (k : Collaborators) (s : viewerSession)
    (msg : signalMessage) (ht : msg.Type_ = "ice_candidate") :
    s.dispatch k msg = (s.handleICE k msg).1 := by
  simp [viewerSession.dispatch, ht]

theorem viewerSession.dispatch_other (k : Collaborators) (s : viewerSession)
    (msg : signalMessage) (ha : msg.Type_ ≠ "answer") (hc : msg.Type_ ≠ "ice_candidate") :
    s.dispatch k msg = s := by
  simp [viewerSession.dispatch, ha, hc]

theorem ViewerInv.after_dispatch {k : Collaborators} {s : viewerSession}
    {history : List signalMessage} (hi : ViewerInv k s history) (msg : signalMessage) :
    ViewerInv k (s.dispatch k msg) (history ++ [msg]) := by
  obtain ⟨h, hpc⟩ := Option.isSome_iff_exists.mp hi.hasPC
  by_cases ha : msg.Type_ = "answer"
  · have hne : ¬ msg.Type_ = "ice_candidate" := by rw [ha]; decide
    have harr : arrivedCandidates k (history ++ [msg]) = arrivedCandidates k history := by
      rw [arrivedCandidates_snoc]; simp [hne]
    rw [viewerSession.dispatch_answer k s msg ha]
    cases hd : k.decodeSDP msg.Data with
    | none =>
      rw [viewerSession.handleAnswer_undecodable k s msg hd]
      exact ⟨hi.hasPC, hi.noEarly, fun hu => by rw [harr]; exact hi.unset hu, hi.set⟩
    | some ans =>
      cases hok : k.setRemoteOk s.calls ans with
      | true =>
        rw [viewerSession.handleAnswer_ok k s msg h ans hpc hd hok]
        have hmem : TransportCall.SetRemoteDescription ans true
            ∈ s.calls ++ [TransportCall.SetRemoteDescription ans true] := by simp
        refine ⟨hi.hasPC, ?_, fun hu => (by cases hu),
          fun _ => ⟨rfl, ans, List.mem_append_left _ hmem⟩⟩
        exact (hi.noEarly.snoc _ (fun cand hx => by cases hx)).append ans hmem _
      | false =>
        rw [viewerSession.handleAnswer_rejected k s msg h ans hpc hd hok]
        refine ⟨hi.hasPC, hi.noEarly.snoc _ (fun cand hx => by cases hx), ?_, ?_⟩
        · intro hu
          rw [harr]
          refine ⟨(hi.unset hu).1, fun cand hm => ?_⟩
          rcases List.mem_append.mp hm with h1 | h1
          · exact (hi.unset hu).2 cand h1
          · simp at h1
        · intro hs
          obtain ⟨h1, sdp, h2⟩ := hi.set hs
          exact ⟨h1, sdp, List.mem_append_left _ h2⟩
  · by_cases hc : msg.Type_ = "ice_candidate"
    · rw [viewerSession.dispatch_ice k s msg hc]
      cases hd : k.decodeCandidate msg.Data with
      | none =>
        have harr : arrivedCandidates k (history ++ [msg]) = arrivedCandidates k history := by
          rw [arrivedCandidates_snoc]; simp [hc, hd]
        rw [viewerSession.handleICE_undecodable k s msg hd]
        exact ⟨hi.hasPC, hi.noEarly, fun hu => by rw [harr]; exact hi.unset hu, hi.set⟩
      | some cand =>
        have harr : arrivedCandidates k (history ++ [msg])
            = arrivedCandidates k history ++ [cand] := by
          rw [arrivedCandidates_snoc]; simp [hc, hd]
        cases hr : s.remoteSet with
        | false =>
          rw [viewerSession.handleICE_buffer k s msg h cand hpc hd hr]
          refine ⟨hi.hasPC, hi.noEarly, fun _ => ⟨?_, (hi.unset hr).2⟩, fun hs => ?_⟩
          · rw [harr, ← (hi.unset hr).1]
          · exact absurd (hr.symm.trans hs) (by decide)
        | true =>
          rw [viewerSession.handleICE_apply k s msg h cand hpc hd hr]
          obtain ⟨h1, sdp, h2⟩ := hi.set hr
          exact ⟨hi.hasPC, hi.noEarly.append sdp h2 _,
            fun hu => absurd (hr.symm.trans hu) (by decide),
            fun _ => ⟨h1, sdp, List.mem_append_left _ h2⟩⟩
    · have harr : arrivedCandidates k (history ++ [msg]) = arrivedCandidates k history := by
        rw [arrivedCandidates_snoc]; simp [hc]
      rw [viewerSession.dispatch_other k s msg ha hc]
      exact ⟨hi.hasPC, hi.noEarly, fun hu => by rw [harr]; exact hi.unset hu, hi.set⟩

theorem ViewerInv.after_process {k : Collaborators} (msgs : List signalMessage) :
    ∀ {s : viewerSession} {history : List signalMessage}, ViewerInv k s history →
      ViewerInv k (s.process k msgs) (history ++ msgs) := by
  induction msgs with
  | nil =>
    intro s history hi
    simpa [viewerSession.process] using hi
  | cons m rest ih =>
    intro s history hi
    have h := ih (hi.after_dispatch m)
    simpa [viewerSession.process, List.append_assoc] using h

theorem viewerSession.process_snoc (k : Collaborators) (s : viewerSession)
    (msgs : List signalMessage) (msg : signalMessage) :
    s.process k (msgs ++ [msg]) = (s.process k msgs).dispatch k msg := by
  simp [viewerSession.process, List.foldl_append]

/-- C7. For the read loop of a viewer session started with a peer connection,
over any sequence of parsed messages and whatever the decoder and the
transport answer: (1) in the calls made on the peer connection every
`AddICECandidate` comes after a successful `SetRemoteDescription`; (2) when an
answer that decodes and whose description the transport accepts is processed
while the remote description is not yet set, nothing has been applied so far,
the buffer holds the decodable candidates that arrived so far in arrival
order, and processing the answer makes the calls `SetRemoteDescription`
followed by `AddICECandidate` for exactly those candidates in that order,
leaving the buffer empty; (3) once the remote description is set, a decodable
candidate is applied at once by one `AddICECandidate` call and the buffer
stays empty. -/
theorem ice_buffering_order (k : Collaborators) (ws pc : Handle) (dc : Option Handle) :
    (∀ msgs, NoEarlyCandidate ((freshViewer ws pc dc).process k msgs).calls)
    ∧ (∀ (before : List signalMessage) (ans : signalMessage) (sdp : SessionDescription),
        ((freshViewer ws pc dc).process k before).remoteSet = false →
        ans.Type_ = "answer" → k.decodeSDP ans.Data = some sdp →
        k.setRemoteOk ((freshViewer ws pc dc).process k before).calls sdp = true →
        (∀ cand, TransportCall.AddICECandidate cand
            ∉ ((freshViewer ws pc dc).process k before).calls)
        ∧ ((freshViewer ws pc dc).process k before).pendingICEs = arrivedCandidates k before
        ∧ ((freshViewer ws pc dc).process k (before ++ [ans])).calls
            = ((freshViewer ws pc dc).process k before).calls
              ++ TransportCall.SetRemoteDescription sdp true
                :: (arrivedCandidates k before).map TransportCall.AddICECandidate
        ∧ ((freshViewer ws pc dc).process k (before ++ [ans])).pendingICEs = []
        ∧ ((freshViewer ws pc dc).process k (before ++ [ans])).remoteSet = true)
    ∧ (∀ (msgs : List signalMessage) (ice : signalMessage) (cand : ICECandidateInit),
        ((freshViewer ws pc dc).process k msgs).remoteSet = true →
        ice.Type_ = "ice_candidate" → k.decodeCandidate ice.Data = some cand →
        ((freshViewer ws pc dc).process k (msgs ++ [ice])).calls
            = ((freshViewer ws pc dc).process k msgs).calls
              ++ [TransportCall.AddICECandidate cand]
        ∧ ((freshViewer ws pc dc).process k (msgs ++ [ice])).pendingICEs = []
        ∧ ((freshViewer ws pc dc).process k (msgs ++ [ice])).remoteSet = true) := by
  have hinv : ∀ msgs, ViewerInv k ((freshViewer ws pc dc).process k msgs) msgs := by
    intro msgs
    have h := ViewerInv.after_process msgs (ViewerInv.fresh k ws pc dc)
    simpa using h
  refine ⟨fun msgs => (hinv msgs).noEarly, ?_, ?_⟩
  · intro before ans sdp hunset htype hdec hok
    have hi := hinv before
    obtain ⟨h, hpc⟩ := Option.isSome_iff_exists.mp hi.hasPC
    obtain ⟨hpend, hnone⟩ := hi.unset hunset
    rw [viewerSession.process_snoc, viewerSession.dispatch_answer k _ ans htype,
      viewerSession.handleAnswer_ok k _ ans h sdp hpc hdec hok]
    refine ⟨hnone, hpend, ?_, rfl, rfl⟩
    simp [hpend]
  · intro msgs ice cand hset htype hdec
    have hi := hinv msgs
    obtain ⟨h, hpc⟩ := Option.isSome_iff_exists.mp hi.hasPC
    rw [viewerSession.process_snoc, viewerSession.dispatch_ice k _ ice htype,
      viewerSession.handleICE_apply k _ ice h cand hpc hdec hset]
    exact ⟨rfl, (hi.set hset).1, hset⟩

theorem ice_buffering_order_witness :
    ((freshViewer 1 2 (some 3)).process plainCollaborators demoSignals).calls
        = [TransportCall.SetRemoteDescription "sdp" true, TransportCall.AddICECandidate "c1",
           TransportCall.AddICECandidate "c2", TransportCall.AddICECandidate "c3"]
      ∧ ((freshViewer 1 2 (some 3)).process plainCollaborators demoSignals).pendingICEs = []
      ∧ NoEarlyCandidate ((freshViewer 1 2 (some 3)).process plainCollaborators demoSignals).calls :=
  ⟨rfl,
   ((ice_buffering_order plainCollaborators 1 2 (some 3)).2.2
      [{ Type_ := "ice_candidate", Data := "c1" }, { Type_ := "ice_candidate", Data := "c2" },
       { Type_ := "answer", Data := "sdp" }]
      { Type_ := "ice_candidate", Data := "c3" } "c3" rfl rfl rfl).2.1,
   (ice_buffering_order plainCollaborators 1 2 (some 3)).1 demoSignals⟩

/-! ## Stopping a session twice -/

theorem closeCalls_closeAll (peers : List (Sigma fun _ : String => peerSession)) :
    closeCalls (peers.flatMap fun p => p.2.closeAll)
      = peers.flatMap fun p =>
          p.2.dc.toList.map Effect.closeDataChannel
            ++ p.2.pc.toList.map Effect.closePeerConnection := by
  induction peers with
  | nil => rfl
  | cons p rest ih =>
    simp only [List.flatMap_cons, closeCalls, List.filter_append] at ih ⊢
    rw [ih]
    congr 1
    obtain ⟨key, pc, dc⟩ := p
    cases pc <;> cases dc <;> rfl

/-- C9. Calling `stop` twice in sequence, on a viewer session and on a
publisher session in any state: `stop` always returns; the close calls of the
first call are exactly the close calls of the resources the session holds
(for the publisher every peer's data path and media transport, and the relay
connection), each once; the second call makes no close call (and writes no
`unregister`); and the session after two calls is the session after one.
`StopViewer` and `StopPublisher` called a second time find the slot empty and
do nothing. -/
theorem stop_twice :
    (∀ s : viewerSession,
      closeCalls s.stop.2 = s.owned ∧ s.stop.1.owned = []
        ∧ s.stop.1.stop.2 = [Effect.cancel]
        ∧ closeCalls (s.stop.2 ++ s.stop.1.stop.2) = s.owned
        ∧ s.stop.1.stop.1 = s.stop.1)
    ∧ (∀ s : publisherSession,
      closeCalls s.stop.2 = s.owned ∧ s.stop.1.owned = []
        ∧ s.stop.1.stop.2 = Effect.cancel ::
            (if s.hasStatusFn then [Effect.status PublisherStatusStopped "推流已停止"] else [])
        ∧ closeCalls (s.stop.2 ++ s.stop.1.stop.2) = s.owned
        ∧ s.stop.1.stop.1 = s.stop.1)
    ∧ (∀ a : Option viewerSession, StopViewer (StopViewer a).1 = (none, []))
    ∧ (∀ a : Option publisherSession, StopPublisher (StopPublisher a).1 = (none, [])) := by
  refine ⟨?_, ?_, ?_, ?_⟩
  · intro s
    obtain ⟨cancelled, ws, pc, dc, remoteSet, pending, calls⟩ := s
    cases ws <;> cases pc <;> cases dc <;>
      simp [viewerSession.stop, viewerSession.owned, closeCalls, Effect.isClose]
  · intro s
    have h1 : closeCalls s.stop.2 = s.owned := by
      obtain ⟨sid, cancelled, hasFn, ws, peers, cfg⟩ := s
      have hp := closeCalls_closeAll peers.entries
      simp only [closeCalls] at hp
      cases ws <;> cases hasFn <;>
        simp [publisherSession.stop, publisherSession.owned, closeCalls, Effect.isClose,
          List.filter_append, hp]
    have h2 : s.stop.1.stop.2 = Effect.cancel ::
        (if s.hasStatusFn then [Effect.status PublisherStatusStopped "推流已停止"] else []) := by
      simp [publisherSession.stop]
    refine ⟨h1, ?_, h2, ?_, ?_⟩
    · simp [publisherSession.stop, publisherSession.owned]
    · have h3 : closeCalls s.stop.1.stop.2 = [] := by
        rw [h2]
        cases s.hasStatusFn <;> simp [closeCalls, Effect.isClose]
      simp only [closeCalls, List.filter_append] at h1 h3 ⊢
      rw [h1, h3, List.append_nil]
    · simp [publisherSession.stop]
  · intro a
    cases a <;> rfl
  · intro a
    cases a <;> rfl

theorem stop_twice_witness :
    closeCalls demoPublisher.stop.2
        = [Effect.closePeerConnection 20, Effect.closeDataChannel 11,
           Effect.closePeerConnection 10, Effect.closeSocket 1]
      ∧ closeCalls (demoPublisher.stop.2 ++ demoPublisher.stop.1.stop.2) = demoPublisher.owned
      ∧ (freshViewer 1 2 (some 3)).stop.1.stop.1 = (freshViewer 1 2 (some 3)).stop.1 :=
  ⟨by decide, (stop_twice.2.1 demoPublisher).2.2.2.1,
   (stop_twice.1 (freshViewer 1 2 (some 3))).2.2.2.2⟩

/-! ## Registration, unregistration, subscription -/

theorem RouteMessage_unregister (s : Server) (c : ClientRef) (msg : Message)
    (h : msg.Type_ = MsgTypeUnregister) : RouteMessage s c msg = handleUnregister s c msg := by
  simp [RouteMessage, h, MsgTypeUnregister, MsgTypeRegister]

theorem RouteMessage_unsubscribe (s : Server) (c : ClientRef) (msg : Message)
    (h : msg.Type_ = MsgTypeUnsubscribe) : RouteMessage s c msg = handleUnsubscribe s c msg := by
  simp [RouteMessage, h, MsgTypeUnsubscribe, MsgTypeSubscribe, MsgTypeListStreams,
    MsgTypeRegister, MsgTypeUnregister]

theorem RouteMessage_ice (s : Server) (c : ClientRef) (msg : Message)
    (h : msg.Type_ = MsgTypeICECandidate) : RouteMessage s c msg = forwardSignal s c msg := by
  simp [RouteMessage, h, MsgTypeICECandidate, MsgTypeSubscribe, MsgTypeUnsubscribe,
    MsgTypeListStreams, MsgTypeRegister, MsgTypeUnregister]

/-- C11. Routing `register(X)` with `X` non-empty and not registered, from a
connection `c` whose queue is open, sets `c`'s role to publisher and its
streamID to `X`, puts in the registry under `X` a stream whose publisher is
`c` and whose viewer set is empty, and sends `c` the success reply "stream
registered" (the non-blocking send: appended when the queue has room). Every
other stream, every other connection and the set of connections are
unchanged, and so is `c`'s peerID. -/
theorem register_new_stream (s : Server) (c : ClientRef) (msg : Message)
    (htype : msg.Type_ = MsgTypeRegister) (hX : msg.StreamID ≠ "")
    (hnew : s.Streams.lookup msg.StreamID = none) (hopen : (s.heap c).SendClosed = false) :
    ∃ t, RouteMessage s c msg = some t
      ∧ t.heap c = { s.heap c with
          Role := "publisher", StreamID := msg.StreamID
          Send := trySend (s.heap c).Send (successMessage "stream registered") }
      ∧ ((s.heap c).Send.length < 256 → (t.heap c).Send
          = (s.heap c).Send ++ [successMessage "stream registered"])
      ∧ t.Streams.lookup msg.StreamID = some { Publisher := some c, Viewers := ∅ }
      ∧ (∀ Y, Y ≠ msg.StreamID → t.Streams.lookup Y = s.Streams.lookup Y)
      ∧ (∀ d, d ≠ c → t.heap d = s.heap d)
      ∧ t.Clients = s.Clients := by
  refine ⟨(registerEffect s c msg.StreamID).afterSend c (successMessage "stream registered"),
    ?_, ?_, ?_, ?_, ?_, ?_, ?_⟩
  · rw [RouteMessage_register s c msg htype]
    simp only [handleRegister, hX, if_false, hnew, Option.isSome_none, Bool.false_eq_true,
      Server.SendSuccess]
    exact Server.SendJSON_open _ _ _ (by simpa using hopen)
  · simp [Server.afterSend_heap_self, registerEffect]
  · intro hroom
    simp [Server.afterSend_heap_self, registerEffect, trySend_of_room _ _ hroom]
  · simp [registerEffect, NewPublisherStream]
  · intro Y hY
    simp [registerEffect, AList.lookup_insert_ne hY]
  · intro d hd
    rw [Server.afterSend_heap_ne _ _ _ _ hd]
    simp [registerEffect, Server.setClient_heap_ne _ _ _ _ hd]
  · rfl

theorem register_new_stream_witness :
    ∃ t, RouteMessage demoReached 1 { Type_ := MsgTypeRegister, StreamID := "y" } = some t
      ∧ (t.heap 1).Role = "publisher" ∧ (t.heap 1).StreamID = "y"
      ∧ t.Streams.lookup "y" = some { Publisher := some 1, Viewers := ∅ }
      ∧ t.Streams.lookup "x" = demoReached.Streams.lookup "x" := by
  obtain ⟨t, h1, h2, _, h4, h5, _⟩ := register_new_stream demoReached 1
    { Type_ := MsgTypeRegister, StreamID := "y" } rfl (by decide) rfl rfl
  exact ⟨t, h1, by rw [h2], by rw [h2], h4, h5 "x" (by decide)⟩

/-- C13. Routing `unregister(X)` from a connection `c` with an open queue, when
`X` is not registered or `c` is not the publisher recorded for `X`, sends `c`
an error reply (the non-blocking send) and does nothing else: the registry,
the set of connections, every other connection (so nothing is sent to any
viewer) and `c`'s role, streamID and peerID are unchanged. -/
theorem unregister_rejected (s : Server) (c : ClientRef) (msg : Message)
    (htype : msg.Type_ = MsgTypeUnregister)
    (hnot : ∀ stream, s.Streams.lookup msg.StreamID = some stream → stream.Publisher ≠ some c)
    (hopen : (s.heap c).SendClosed = false) :
    ∃ t reason, RouteMessage s c msg = some t
      ∧ (t.heap c).Send = trySend (s.heap c).Send (errorMessage reason)
      ∧ ((s.heap c).Send.length < 256 →
          (t.heap c).Send = (s.heap c).Send ++ [errorMessage reason])
      ∧ t.Streams = s.Streams ∧ t.Clients = s.Clients
      ∧ (∀ d, d ≠ c → t.heap d = s.heap d)
      ∧ (t.heap c).Role = (s.heap c).Role ∧ (t.heap c).StreamID = (s.heap c).StreamID
      ∧ (t.heap c).PeerID = (s.heap c).PeerID := by
  have key : ∃ reason, RouteMessage s c msg = some (s.afterSend c (errorMessage reason)) := by
    rw [RouteMessage_unregister s c msg htype]
    unfold handleUnregister
    by_cases hX : msg.StreamID = ""
    · exact ⟨"stream_id required", by
        simp [hX, Server.SendError, Server.SendJSON_open _ _ _ hopen]⟩
    · refine ⟨"stream not found or not publisher", ?_⟩
      cases hl : s.Streams.lookup msg.StreamID with
      | none => simp [hX, Server.SendError, Server.SendJSON_open _ _ _ hopen]
      | some stream =>
        simp [hX, hnot stream hl, Server.SendError, Server.SendJSON_open _ _ _ hopen]
  obtain ⟨reason, hr⟩ := key
  have hf := Server.afterSend_fields s c c (errorMessage reason)
  refine ⟨_, reason, hr, ?_, ?_, rfl, rfl, ?_, hf.1, hf.2.1, hf.2.2.1⟩
  · rw [Server.afterSend_heap_self]
  · intro hroom
    rw [Server.afterSend_heap_self]
    exact trySend_of_room _ _ hroom
  · intro d hd
    exact Server.afterSend_heap_ne s c d _ hd

theorem unregister_rejected_witness :
    ∃ t reason, RouteMessage demoReached 1 { Type_ := MsgTypeUnregister, StreamID := "x" }
        = some t
      ∧ (t.heap 1).Send = [successMessage "subscribed", errorMessage reason]
      ∧ t.Streams = demoReached.Streams ∧ t.heap 0 = demoReached.heap 0 := by
  obtain ⟨t, reason, h1, _, h3, h4, _, h6, _⟩ := unregister_rejected demoReached 1
    { Type_ := MsgTypeUnregister, StreamID := "x" } rfl
    (by intro stream hl
        have hs : stream = { Publisher := some 0, Viewers := AList.singleton "v1" 1 } :=
          (Option.some.inj hl).symm
        subst hs
        decide)
    rfl
  exact ⟨t, reason, h1, h3 (by decide), h4, h6 0 (by decide)⟩

/-- C14. In a state where stream `X` (non-empty id) exists, routing
`subscribe(X, peerID = p)` from a connection `c` with an open queue sets `c`'s
role to viewer, its streamID to `X` and its peerID to `p`, makes `X`'s viewer
set map `p` to `c` while the entries under every other key stay as they were,
keeps `X`'s publisher, and sends `c` the success reply "subscribed" (the
non-blocking send). Every other stream, every other connection and the set of
connections are unchanged. -/
theorem subscribe_existing (s : Server) (c : ClientRef) (msg : Message)
    (stream : PublisherStream)
    (htype : msg.Type_ = MsgTypeSubscribe) (hX : msg.StreamID ≠ "")
    (hl : s.Streams.lookup msg.StreamID = some stream)
    (hopen : (s.heap c).SendClosed = false) :
    ∃ t stream1, RouteMessage s c msg = some t
      ∧ t.heap c = { s.heap c with
          Role := "viewer", StreamID := msg.StreamID, PeerID := msg.PeerID
          Send := trySend (s.heap c).Send (successMessage "subscribed") }
      ∧ ((s.heap c).Send.length < 256 →
          (t.heap c).Send = (s.heap c).Send ++ [successMessage "subscribed"])
      ∧ t.Streams.lookup msg.StreamID = some stream1
      ∧ stream1.Viewers.lookup msg.PeerID = some c
      ∧ (∀ q, q ≠ msg.PeerID → stream1.Viewers.lookup q = stream.Viewers.lookup q)
      ∧ stream1.Publisher = stream.Publisher
      ∧ (∀ Y, Y ≠ msg.StreamID → t.Streams.lookup Y = s.Streams.lookup Y)
      ∧ (∀ d, d ≠ c → t.heap d = s.heap d)
      ∧ t.Clients = s.Clients := by
  refine ⟨(subscribeEffect s c msg.StreamID msg.PeerID stream).afterSend c
      (successMessage "subscribed"),
    { stream with Viewers := stream.Viewers.insert msg.PeerID c }, ?_, ?_, ?_, ?_, ?_, ?_,
    rfl, ?_, ?_, rfl⟩
  · rw [RouteMessage_subscribe s c msg htype]
    simp only [handleSubscribe, hX, if_false, hl, Server.SendSuccess]
    exact Server.SendJSON_open _ _ _ (by simpa using hopen)
  · simp [Server.afterSend_heap_self, subscribeEffect]
  · intro hroom
    simp [Server.afterSend_heap_self, subscribeEffect, trySend_of_room _ _ hroom]
  · simp [subscribeEffect]
  · simp
  · intro q hq
    simp [AList.lookup_insert_ne hq]
  · intro Y hY
    simp [subscribeEffect, AList.lookup_insert_ne hY]
  · intro d hd
    rw [Server.afterSend_heap_ne _ _ _ _ hd]
    simp [subscribeEffect, Server.setClient_heap_ne _ _ _ _ hd]

theorem subscribe_existing_witness :
    ∃ t stream1, RouteMessage demoReached 1
        { Type_ := MsgTypeSubscribe, StreamID := "x", PeerID := "v2" } = some t
      ∧ (t.heap 1).PeerID = "v2"
      ∧ t.Streams.lookup "x" = some stream1
      ∧ stream1.Viewers.lookup "v2" = some 1
      ∧ stream1.Viewers.lookup "v1" = some 1 := by
  obtain ⟨t, stream1, h1, h2, _, h4, h5, h6, _⟩ := subscribe_existing demoReached 1
    { Type_ := MsgTypeSubscribe, StreamID := "x", PeerID := "v2" }
    { Publisher := some 0, Viewers := AList.singleton "v1" 1 } rfl (by decide) rfl rfl
  exact ⟨t, stream1, h1, by rw [h2], h4, h5, by rw [h6 "v1" (by decide)]; rfl⟩

/-- C15 (as stated, refuted). After the run `peerCollision` the viewer set of
"x" holds connection 2 only, under "v1", which is also the peerID of
connection 1. Routing `unsubscribe("x")` from connection 1 removes that entry:
connection 2, which did not unsubscribe, is no longer in the viewer set. -/
theorem unsubscribe_removes_other_connection :
    run NewServer peerCollision = some (stateAfter peerCollision)
      ∧ ((stateAfter peerCollision).Streams.lookup "x").map
          (fun st => viewerRefs st.Viewers.entries) = some [2]
      ∧ ((stateAfter peerCollision).heap 1).PeerID = "v1"
      ∧ ∃ t, RouteMessage (stateAfter peerCollision) 1
            { Type_ := MsgTypeUnsubscribe, StreamID := "x" } = some t
          ∧ (t.Streams.lookup "x").map (fun st => viewerRefs st.Viewers.entries) = some [] :=
  ⟨rfl, rfl, rfl, _, rfl, rfl⟩

/-- C15 (amended). In a state where stream `X` (non-empty id) exists, routing
`unsubscribe(X)` from a connection `c` with an open queue removes from `X`'s
viewer set the entry stored under `c`'s current peerID, whichever connection
it maps to, and leaves the entries under every other key as they were; `X`
keeps its publisher; `c`'s streamID is cleared and `c` is sent the success
reply "unsubscribed" (the non-blocking send). Every other stream, every other
connection and the set of connections are unchanged. -/
theorem unsubscribe_existing (s : Server) (c : ClientRef) (msg : Message)
    (stream : PublisherStream)
    (htype : msg.Type_ = MsgTypeUnsubscribe) (hX : msg.StreamID ≠ "")
    (hl : s.Streams.lookup msg.StreamID = some stream)
    (hopen : (s.heap c).SendClosed = false) :
    ∃ t stream1, RouteMessage s c msg = some t
      ∧ t.Streams.lookup msg.StreamID = some stream1
      ∧ stream1.Viewers.lookup (s.heap c).PeerID = none
      ∧ (∀ q, q ≠ (s.heap c).PeerID → stream1.Viewers.lookup q = stream.Viewers.lookup q)
      ∧ stream1.Publisher = stream.Publisher
      ∧ t.heap c = { s.heap c with
          StreamID := "", Send := trySend (s.heap c).Send (successMessage "unsubscribed") }
      ∧ ((s.heap c).Send.length < 256 →
          (t.heap c).Send = (s.heap c).Send ++ [successMessage "unsubscribed"])
      ∧ (∀ Y, Y ≠ msg.StreamID → t.Streams.lookup Y = s.Streams.lookup Y)
      ∧ (∀ d, d ≠ c → t.heap d = s.heap d)
      ∧ t.Clients = s.Clients := by
  refine ⟨(unsubscribeEffect s c msg.StreamID stream).afterSend c
      (successMessage "unsubscribed"),
    { stream with Viewers := stream.Viewers.erase (s.heap c).PeerID }, ?_, ?_, ?_, ?_, rfl,
    ?_, ?_, ?_, ?_, rfl⟩
  · rw [RouteMessage_unsubscribe s c msg htype]
    simp only [handleUnsubscribe, hX, if_false, hl, Server.SendSuccess]
    exact Server.SendJSON_open _ _ _ (by simpa using hopen)
  · simp [unsubscribeEffect]
  · exact AList.lookup_erase _ _
  · intro q hq
    exact AList.lookup_erase_ne hq
  · simp [Server.afterSend_heap_self, unsubscribeEffect]
  · intro hroom
    simp [Server.afterSend_heap_self, unsubscribeEffect, trySend_of_room _ _ hroom]
  · intro Y hY
    simp [unsubscribeEffect, AList.lookup_insert_ne hY]
  · intro d hd
    rw [Server.afterSend_heap_ne _ _ _ _ hd]
    simp [unsubscribeEffect, Server.setClient_heap_ne _ _ _ _ hd]

theorem unsubscribe_existing_witness :
    ∃ t stream1, RouteMessage demoReached 1 { Type_ := MsgTypeUnsubscribe, StreamID := "x" }
        = some t
      ∧ t.Streams.lookup "x" = some stream1
      ∧ stream1.Viewers.lookup "v1" = none
      ∧ (t.heap 1).StreamID = "" := by
  obtain ⟨t, stream1, h1, h2, h3, _, _, h6, _⟩ := unsubscribe_existing demoReached 1
    { Type_ := MsgTypeUnsubscribe, StreamID := "x" }
    { Publisher := some 0, Viewers := AList.singleton "v1" 1 } rfl (by decide) rfl rfl
  exact ⟨t, stream1, h1, h2, h3, by rw [h6]⟩

theorem notifyViewers_cons (s : Server) (v : Sigma fun _ : String => ClientRef)
    (rest : List (Sigma fun _ : String => ClientRef))
    (hopen : (s.heap v.2).SendClosed = false) :
    notifyViewers s (v :: rest)
      = notifyViewers (s.afterSend v.2 (errorMessage "stream removed")) rest := by
  simp [notifyViewers, List.foldlM_cons, Server.SendError, Server.SendJSON_open _ _ _ hopen]

/-- The effect of the notification loop of `handleUnregister` when every
viewer has an open queue: a connection stored under `k` peer ids is sent
"stream removed" `k` times, and nothing else changes. -/
theorem notifyViewers_spec (viewers : List (Sigma fun _ : String => ClientRef)) :
    ∀ s : Server, (∀ v ∈ viewerRefs viewers, (s.heap v).SendClosed = false) →
      ∃ t, notifyViewers s viewers = some t ∧ t.Clients = s.Clients ∧ t.Streams = s.Streams
        ∧ ∀ d, t.heap d =
            { s.heap d with
              Send := trySendTimes ((viewerRefs viewers).count d) (s.heap d).Send
                (errorMessage "stream removed") } := by
  induction viewers with
  | nil =>
    intro s _
    exact ⟨s, rfl, rfl, rfl, fun d => by simp [viewerRefs, trySendTimes]⟩
  | cons v rest ih =>
    intro s hopen
    have hv : (s.heap v.2).SendClosed = false :=
      hopen v.2 (by simp [viewerRefs])
    have hw := Weakens.afterSend s v.2 (errorMessage "stream removed")
    obtain ⟨t, h1, h2, h3, h4⟩ := ih (s.afterSend v.2 (errorMessage "stream removed")) (by
      intro w hwm
      rw [hw.closed]
      exact hopen w (by simp only [viewerRefs, List.map_cons, List.mem_cons]
                        exact Or.inr hwm))
    refine ⟨t, by rw [notifyViewers_cons s v rest hv]; exact h1, h2, h3, ?_⟩
    intro d
    rw [h4 d]
    by_cases hd : d = v.2
    · subst hd
      simp [viewerRefs, trySendTimes, Server.afterSend_heap_self]
    · have hne : v.2 ≠ d := fun e => hd e.symm
      have hcount : (viewerRefs (v :: rest)).count d = (viewerRefs rest).count d := by
        simp [viewerRefs, List.count_cons, hne]
      rw [Server.afterSend_heap_ne _ _ _ _ hd, hcount]

theorem foldl_erase_keys (l : List (Sigma fun _ : String => ClientRef)) :
    ∀ m : AList (fun _ : String => ClientRef), (∀ k ∈ m.keys, k ∈ l.map Sigma.fst) →
      (l.foldl (fun m v => m.erase v.1) m).keys = [] := by
  induction l with
  | nil =>
    intro m h
    exact List.eq_nil_iff_forall_not_mem.mpr fun k hk => by simpa using h k hk
  | cons v rest ih =>
    intro m h
    simp only [List.foldl_cons]
    apply ih
    intro k hk
    have hk1 : k ∈ m.erase v.1 := AList.mem_keys.mpr hk
    rw [AList.mem_erase] at hk1
    have hk2 := h k (AList.mem_keys.mp hk1.2)
    simp only [List.map_cons, List.mem_cons] at hk2
    rcases hk2 with hk2 | hk2
    · exact absurd hk2 hk1.1
    · exact hk2

/-- The loop of `handleUnregister` leaves the viewer map empty. -/
theorem clearViewers_eq_empty (viewers : AList (fun _ : String => ClientRef)) :
    clearViewers viewers = ∅ := by
  have h := foldl_erase_keys viewers.entries viewers (fun k hk => hk)
  apply AList.ext
  have h1 : (clearViewers viewers).entries.map Sigma.fst = [] := h
  rw [List.map_eq_nil_iff] at h1
  rw [h1]
  rfl

/-- Unregistering while every viewer is still connected. In a state where `c`
is the publisher recorded for stream `X`
(non-empty id), the queues of `c` and of the viewers of `X` being open,
routing `unregister(X)` from `c`: sends the error "stream removed" to the
connection of every entry of `X`'s viewer set (one non-blocking send per
entry; a viewer stored once whose queue has room gets it appended), deletes
every entry from the viewer set, deletes `X` from the registry, leaves every
other stream as it was, clears `c`'s streamID and sends `c` the success
reply "stream unregistered". Roles, peer ids, the viewers' stream ids and the
set of connections are unchanged. -/
theorem unregister_by_publisher (s : Server) (c : ClientRef) (msg : Message)
    (stream : PublisherStream)
    (htype : msg.Type_ = MsgTypeUnregister) (hX : msg.StreamID ≠ "")
    (hl : s.Streams.lookup msg.StreamID = some stream) (hpub : stream.Publisher = some c)
    (hopen : (s.heap c).SendClosed = false)
    (hv : ∀ v ∈ viewerRefs stream.Viewers.entries, (s.heap v).SendClosed = false) :
    ∃ t, RouteMessage s c msg = some t
      ∧ (∀ d, d ≠ c → t.heap d =
          { s.heap d with
            Send := trySendTimes ((viewerRefs stream.Viewers.entries).count d) (s.heap d).Send
              (errorMessage "stream removed") })
      ∧ (∀ d, d ≠ c → (viewerRefs stream.Viewers.entries).count d = 1 →
          (s.heap d).Send.length < 256 →
          (t.heap d).Send = (s.heap d).Send ++ [errorMessage "stream removed"])
      ∧ clearViewers stream.Viewers = ∅
      ∧ t.Streams.lookup msg.StreamID = none
      ∧ (∀ Y, Y ≠ msg.StreamID → t.Streams.lookup Y = s.Streams.lookup Y)
      ∧ t.heap c =
          { s.heap c with
            StreamID := ""
            Send := trySend
              (trySendTimes ((viewerRefs stream.Viewers.entries).count c) (s.heap c).Send
                (errorMessage "stream removed"))
              (successMessage "stream unregistered") }
      ∧ (c ∉ viewerRefs stream.Viewers.entries → (s.heap c).Send.length < 256 →
          (t.heap c).Send = (s.heap c).Send ++ [successMessage "stream unregistered"])
      ∧ t.Clients = s.Clients := by
  obtain ⟨s1, hn, hcl, hst, hheap⟩ := notifyViewers_spec stream.Viewers.entries s hv
  have hopen1 : ((unregisterEffect s1 c msg.StreamID).heap c).SendClosed = false := by
    simp [unregisterEffect, hheap c, hopen]
  have hroute : RouteMessage s c msg
      = some ((unregisterEffect s1 c msg.StreamID).afterSend c
          (successMessage "stream unregistered")) := by
    rw [RouteMessage_unregister s c msg htype]
    simp only [handleUnregister, hX, if_false, hl, hpub, if_true, hn, Option.some_bind,
      Server.SendSuccess]
    exact Server.SendJSON_open _ _ _ hopen1
  have hd : ∀ d, d ≠ c → ((unregisterEffect s1 c msg.StreamID).afterSend c
      (successMessage "stream unregistered")).heap d =
        { s.heap d with
          Send := trySendTimes ((viewerRefs stream.Viewers.entries).count d) (s.heap d).Send
            (errorMessage "stream removed") } := by
    intro d hdc
    rw [Server.afterSend_heap_ne _ _ _ _ hdc]
    simp only [unregisterEffect]
    rw [Server.setClient_heap_ne _ _ _ _ hdc]
    exact hheap d
  have hself : ((unregisterEffect s1 c msg.StreamID).afterSend c
      (successMessage "stream unregistered")).heap c =
        { s.heap c with
          StreamID := ""
          Send := trySend
            (trySendTimes ((viewerRefs stream.Viewers.entries).count c) (s.heap c).Send
              (errorMessage "stream removed"))
            (successMessage "stream unregistered") } := by
    simp [Server.afterSend_heap_self, unregisterEffect, hheap c]
  refine ⟨_, hroute, hd, ?_, clearViewers_eq_empty _, ?_, ?_, hself, ?_, ?_⟩
  · intro d hdc hone hroom
    rw [hd d hdc, hone]
    exact trySend_of_room _ _ hroom
  · simp [unregisterEffect, hst]
  · intro Y hY
    simp [unregisterEffect, hst, AList.lookup_erase_ne hY]
  · intro hnot hroom
    rw [hself]
    simp only [List.count_eq_zero_of_not_mem hnot, trySendTimes]
    exact trySend_of_room _ _ hroom
  · simp [unregisterEffect, hcl]

theorem unregister_by_publisher_witness :
    ∃ t, RouteMessage demoReached 0 { Type_ := MsgTypeUnregister, StreamID := "x" } = some t
      ∧ (t.heap 1).Send = [successMessage "subscribed", errorMessage "stream removed"]
      ∧ t.Streams.lookup "x" = none
      ∧ (t.heap 0).Send
          = [successMessage "stream registered", successMessage "stream unregistered"] := by
  obtain ⟨t, h1, _, h3, _, h5, _, _, h8, _⟩ := unregister_by_publisher demoReached 0
    { Type_ := MsgTypeUnregister, StreamID := "x" }
    { Publisher := some 0, Viewers := AList.singleton "v1" 1 } rfl (by decide) rfl rfl rfl
    (by intro v hvm
        have hv1 : v = 1 := by simpa [viewerRefs] using hvm
        subst hv1
        rfl)
  exact ⟨t, h1, h3 1 (by decide) rfl (by decide), h5, h8 (by decide) (by decide)⟩

/-! ## Stream ids are never empty -/

theorem noEmpty_SendJSON {s t : Server} {c : ClientRef} {msg : Message}
    (hi : NoEmptyStream s) (h : s.SendJSON c msg = some t) : NoEmptyStream t := by
  unfold NoEmptyStream
  rw [(Weakens.of_SendJSON h).streams]
  exact hi

theorem noEmpty_insert {s : Server} (hi : NoEmptyStream s) (X : String) (hX : X ≠ "")
    (st : PublisherStream) : NoEmptyStream (s.setStreams (s.Streams.insert X st)) := by
  unfold NoEmptyStream
  rw [Server.setStreams_Streams, AList.lookup_insert_ne (Ne.symm hX)]
  exact hi

theorem noEmpty_erase {s : Server} (hi : NoEmptyStream s) (X : String) :
    NoEmptyStream (s.setStreams (s.Streams.erase X)) := by
  unfold NoEmptyStream
  rw [Server.setStreams_Streams, AList.lookup_eq_none, AList.mem_erase]
  intro h
  exact (AList.lookup_eq_none.mp hi) h.2

theorem noEmpty_handleRegister {s t : Server} {c : ClientRef} {msg : Message}
    (hi : NoEmptyStream s) (h : handleRegister s c msg = some t) : NoEmptyStream t := by
  unfold handleRegister at h
  split at h
  · exact noEmpty_SendJSON hi h
  · rename_i hX
    split at h
    · exact noEmpty_SendJSON hi h
    · exact noEmpty_SendJSON
        (noEmpty_insert (s := s.setClient c _) hi msg.StreamID hX (NewPublisherStream c)) h

theorem noEmpty_handleUnregister {s t : Server} {c : ClientRef} {msg : Message}
    (hi : NoEmptyStream s) (h : handleUnregister s c msg = some t) : NoEmptyStream t := by
  unfold handleUnregister at h
  split at h
  · exact noEmpty_SendJSON hi h
  · split at h
    · rename_i stream hl
      split at h
      · cases hn : notifyViewers s stream.Viewers.entries with
        | none => simp [hn] at h
        | some s1 =>
          simp only [hn, Option.some_bind] at h
          have h1 : NoEmptyStream s1 := by
            unfold NoEmptyStream
            rw [(notifyViewers_weakens _ _ _ hn).streams]
            exact hi
          exact noEmpty_SendJSON
            (show NoEmptyStream ((s1.setStreams (s1.Streams.erase msg.StreamID)).setClient c _)
              from noEmpty_erase h1 msg.StreamID) h
      · exact noEmpty_SendJSON hi h
    · exact noEmpty_SendJSON hi h

theorem noEmpty_handleSubscribe {s t : Server} {c : ClientRef} {msg : Message}
    (hi : NoEmptyStream s) (h : handleSubscribe s c msg = some t) : NoEmptyStream t := by
  unfold handleSubscribe at h
  split at h
  · exact noEmpty_SendJSON hi h
  · rename_i hX
    split at h
    · exact noEmpty_SendJSON hi h
    · exact noEmpty_SendJSON (noEmpty_insert (s := s.setClient c _) hi msg.StreamID hX _) h

theorem noEmpty_handleUnsubscribe {s t : Server} {c : ClientRef} {msg : Message}
    (hi : NoEmptyStream s) (h : handleUnsubscribe s c msg = some t) : NoEmptyStream t := by
  unfold handleUnsubscribe at h
  split at h
  · exact noEmpty_SendJSON hi h
  · rename_i hX
    split at h
    · exact noEmpty_SendJSON hi h
    · rename_i stream hl
      exact noEmpty_SendJSON
        (show NoEmptyStream ((s.setStreams (s.Streams.insert msg.StreamID
            { stream with Viewers := stream.Viewers.erase (s.heap c).PeerID })).setClient c _)
          from noEmpty_insert hi msg.StreamID hX _) h

theorem noEmpty_forwardSignal {s t : Server} {c : ClientRef} {msg : Message}
    (hi : NoEmptyStream s) (h : forwardSignal s c msg = some t) : NoEmptyStream t := by
  have hp : ∀ stream, sendToPublisher s stream msg = some t → NoEmptyStream t := by
    intro stream hs
    unfold sendToPublisher at hs
    split at hs
    · exact noEmpty_SendJSON hi hs
    · cases hs; exact hi
  have hv : ∀ stream, sendToViewer s stream msg = some t → NoEmptyStream t := by
    intro stream hs
    unfold sendToViewer at hs
    split at hs
    · exact noEmpty_SendJSON hi hs
    · cases hs; exact hi
  unfold forwardSignal at h
  split at h
  · split at h
    · exact noEmpty_SendJSON hi h
    · exact hp _ h
  · split at h
    · split at h
      · exact noEmpty_SendJSON hi h
      · exact hv _ h
    · split at h
      · split at h
        · exact noEmpty_SendJSON hi h
        · split at h
          · exact hp _ h
          · split at h
            · exact hv _ h
            · cases h; exact hi
      · cases h; exact hi

theorem noEmpty_RouteMessage {s t : Server} {c : ClientRef} {msg : Message}
    (hi : NoEmptyStream s) (h : RouteMessage s c msg = some t) : NoEmptyStream t := by
  unfold RouteMessage at h
  split at h
  · exact noEmpty_handleRegister hi h
  · split at h
    · exact noEmpty_handleUnregister hi h
    · split at h
      · exact noEmpty_SendJSON hi h
      · split at h
        · exact noEmpty_handleSubscribe hi h
        · split at h
          · exact noEmpty_handleUnsubscribe hi h
          · split at h
            · exact noEmpty_forwardSignal hi h
            · exact noEmpty_SendJSON hi h

theorem noEmpty_unregisterClient {s t : Server} {c : ClientRef}
    (hi : NoEmptyStream s) (h : unregisterClient s c = some t) : NoEmptyStream t := by
  unfold unregisterClient at h
  cases hp : unregisterPublisher (s.setClients (s.Clients.erase c)) c with
  | none => simp [hp] at h
  | some s1 =>
    simp only [hp, Option.some_bind] at h
    have h1 : NoEmptyStream s1 := by
      unfold unregisterPublisher at hp
      split at hp
      · split at hp
        · rename_i stream hl
          cases he : evictViewers (s.setClients (s.Clients.erase c)) stream.Viewers.entries with
          | none => simp [he] at hp
          | some s2 =>
            simp only [he, Option.map_some', Option.some.injEq] at hp
            subst hp
            have h2 : NoEmptyStream s2 := by
              unfold NoEmptyStream
              rw [(evictViewers_weakens _ _ _ he).streams]
              exact hi
            exact noEmpty_erase h2 _
        · simp only [Option.map_some', Option.some.injEq] at hp
          subst hp
          exact noEmpty_erase (s := s.setClients (s.Clients.erase c)) hi _
      · cases hp
        exact hi
    have h2 : NoEmptyStream (unregisterViewer s1 c) := by
      unfold unregisterViewer
      split
      · rename_i hcond
        split
        · exact noEmpty_insert h1 _ hcond.2 _
        · exact h1
      · exact h1
    unfold closeSend at h
    split at h
    · cases h
    · cases h
      exact h2

/-- In every reachable state no stream is registered under the empty id. -/
theorem Reachable.noEmptyStream {s : Server} (h : Reachable s) : NoEmptyStream s := by
  induction h with
  | init => rfl
  | step s t _ hst ih =>
    cases hst with
    | accept peerID => exact ih
    | route c msg _ hc hr => exact noEmpty_RouteMessage ih hr
    | invalid c _ hc hr => exact noEmpty_SendJSON ih hr
    | close c _ hc hr => exact noEmpty_unregisterClient ih hr
    | write c => exact ih

/-! ## Forwarding of candidates, and what a routed message results in -/

theorem RouteMessage_signal (s : Server) (c : ClientRef) (msg : Message)
    (h : isSignal msg.Type_) : RouteMessage s c msg = forwardSignal s c msg := by
  rcases h with h | h | h
  · exact RouteMessage_offer s c msg h
  · exact RouteMessage_answer s c msg h
  · exact RouteMessage_ice s c msg h

/-- A signal for a registered stream is sent to its target, or dropped when
there is none. -/
theorem forwardSignal_found (s : Server) (c : ClientRef) (msg : Message)
    (stream : PublisherStream) (htype : isSignal msg.Type_)
    (hl : s.Streams.lookup msg.StreamID = some stream) :
    forwardSignal s c msg =
      match forwardTarget s c msg stream with
      | some target => s.SendJSON target msg
      | none => some s := by
  rcases htype with h | h | h
  · cases hp : stream.Publisher <;>
      simp [forwardSignal, forwardTarget, h, hl, sendToPublisher, hp]
  · cases hv : stream.Viewers.lookup msg.PeerID <;>
      simp [forwardSignal, forwardTarget, h, MsgTypeAnswer, MsgTypeOffer, hl, sendToViewer, hv]
  · by_cases hrv : (s.heap c).Role = "viewer"
    · cases hp : stream.Publisher <;>
        simp [forwardSignal, forwardTarget, h, MsgTypeICECandidate, MsgTypeAnswer, MsgTypeOffer,
          hl, sendToPublisher, hp, hrv]
    · by_cases hrp : (s.heap c).Role = "publisher"
      · cases hv : stream.Viewers.lookup msg.PeerID <;>
          simp [forwardSignal, forwardTarget, h, MsgTypeICECandidate, MsgTypeAnswer,
            MsgTypeOffer, hl, sendToViewer, hv, hrp]
      · simp [forwardSignal, forwardTarget, h, MsgTypeICECandidate, MsgTypeAnswer,
          MsgTypeOffer, hl, hrv, hrp]

/-- C16 (as stated, refuted). After the run `candidateBystander` stream "x"
exists with publisher 0 and the viewer 1 under "v1". A candidate for
("x", "v1") routed from connection 2, which is live and has neither role, and
a candidate for ("x", "v9") routed from the publisher, there being no viewer
under "v9", each return the state as it was: the message is forwarded to no
connection. -/
theorem candidate_forwarded_to_nobody :
    run NewServer candidateBystander = some (stateAfter candidateBystander)
      ∧ Reachable (stateAfter candidateBystander)
      ∧ (stateAfter candidateBystander).Streams.lookup "x"
          = some { Publisher := some 0, Viewers := AList.singleton "v1" 1 }
      ∧ 2 ∈ (stateAfter candidateBystander).Clients
      ∧ ((stateAfter candidateBystander).heap 2).Role = ""
      ∧ RouteMessage (stateAfter candidateBystander) 2
          { Type_ := MsgTypeICECandidate, StreamID := "x", PeerID := "v1" }
          = some (stateAfter candidateBystander)
      ∧ 0 ∈ (stateAfter candidateBystander).Clients
      ∧ ((stateAfter candidateBystander).heap 0).Role = "publisher"
      ∧ RouteMessage (stateAfter candidateBystander) 0
          { Type_ := MsgTypeICECandidate, StreamID := "x", PeerID := "v9" }
          = some (stateAfter candidateBystander) := by
  have h : run NewServer candidateBystander = some (stateAfter candidateBystander) := rfl
  exact ⟨h, Reachable.of_run _ Reachable.init h, rfl, by decide, rfl, rfl, by decide, rfl, rfl⟩

/-- C16 (amended). In a state where stream `S` exists, routing
`ice_candidate(streamID = S, peerID = p)` forwards the message itself, by one
non-blocking send, to at most one connection, chosen by the sender's role: to
`S`'s publisher when the sender's role is viewer, and to the viewer stored
under `p` in `S`'s viewer set when the sender's role is publisher and there is
such an entry (the target's queue being open). Then nothing else changes:
every connection other than the target, so the sender too unless it is the
target, the registry and the set of connections are as before. When the
sender's role is publisher and no viewer is stored under `p`, when the
sender's role is neither viewer nor publisher, and when the sender's role is
viewer and `S` records no publisher, the message is forwarded to nobody and
the state is returned as it was. -/
theorem ice_candidate_forwarded (s : Server) (c : ClientRef) (msg : Message)
    (stream : PublisherStream)
    (htype : msg.Type_ = MsgTypeICECandidate)
    (hl : s.Streams.lookup msg.StreamID = some stream) :
    (∀ P, (s.heap c).Role = "viewer" → stream.Publisher = some P →
        (s.heap P).SendClosed = false →
        ∃ t, RouteMessage s c msg = some t
          ∧ t.heap P = { s.heap P with Send := trySend (s.heap P).Send msg }
          ∧ ((s.heap P).Send.length < 256 → (t.heap P).Send = (s.heap P).Send ++ [msg])
          ∧ (∀ d, d ≠ P → t.heap d = s.heap d)
          ∧ t.Streams = s.Streams ∧ t.Clients = s.Clients)
    ∧ (∀ V, (s.heap c).Role = "publisher" → stream.Viewers.lookup msg.PeerID = some V →
        (s.heap V).SendClosed = false →
        ∃ t, RouteMessage s c msg = some t
          ∧ t.heap V = { s.heap V with Send := trySend (s.heap V).Send msg }
          ∧ ((s.heap V).Send.length < 256 → (t.heap V).Send = (s.heap V).Send ++ [msg])
          ∧ (∀ d, d ≠ V → t.heap d = s.heap d)
          ∧ t.Streams = s.Streams ∧ t.Clients = s.Clients)
    ∧ ((s.heap c).Role = "publisher" → stream.Viewers.lookup msg.PeerID = none →
        RouteMessage s c msg = some s)
    ∧ ((s.heap c).Role ≠ "viewer" → (s.heap c).Role ≠ "publisher" →
        RouteMessage s c msg = some s)
    ∧ ((s.heap c).Role = "viewer" → stream.Publisher = none →
        RouteMessage s c msg = some s) := by
  have hsig : isSignal msg.Type_ := Or.inr (Or.inr htype)
  have key : ∀ target, forwardTarget s c msg stream = some target →
      (s.heap target).SendClosed = false →
      ∃ t, RouteMessage s c msg = some t
        ∧ t.heap target = { s.heap target with Send := trySend (s.heap target).Send msg }
        ∧ ((s.heap target).Send.length < 256 →
            (t.heap target).Send = (s.heap target).Send ++ [msg])
        ∧ (∀ d, d ≠ target → t.heap d = s.heap d)
        ∧ t.Streams = s.Streams ∧ t.Clients = s.Clients := by
    intro target htg hopen
    refine ⟨s.afterSend target msg, ?_, Server.afterSend_heap_self s target msg, ?_,
      fun d hd => Server.afterSend_heap_ne s target d msg hd, rfl, rfl⟩
    · rw [RouteMessage_signal s c msg hsig, forwardSignal_found s c msg stream hsig hl, htg]
      exact Server.SendJSON_open s target msg hopen
    · intro hroom
      rw [Server.afterSend_heap_self]
      exact trySend_of_room _ _ hroom
  have none_case : forwardTarget s c msg stream = none → RouteMessage s c msg = some s := by
    intro htg
    rw [RouteMessage_signal s c msg hsig, forwardSignal_found s c msg stream hsig hl, htg]
  refine ⟨?_, ?_, ?_, ?_, ?_⟩
  · intro P hrole hP hopen
    exact key P (by simp [forwardTarget, htype, MsgTypeICECandidate, MsgTypeAnswer,
      MsgTypeOffer, hrole, hP]) hopen
  · intro V hrole hV hopen
    exact key V (by simp [forwardTarget, htype, MsgTypeICECandidate, MsgTypeAnswer,
      MsgTypeOffer, hrole, hV]) hopen
  · intro hrole hV
    exact none_case (by simp [forwardTarget, htype, MsgTypeICECandidate, MsgTypeAnswer,
      MsgTypeOffer, hrole, hV])
  · intro hv hp
    exact none_case (by simp [forwardTarget, htype, MsgTypeICECandidate, MsgTypeAnswer,
      MsgTypeOffer, hv, hp])
  · intro hrole hP
    exact none_case (by simp [forwardTarget, htype, MsgTypeICECandidate, MsgTypeAnswer,
      MsgTypeOffer, hrole, hP])

theorem ice_candidate_forwarded_witness :
    (∃ t, RouteMessage demoReached 1
        { Type_ := MsgTypeICECandidate, StreamID := "x", PeerID := "v1" } = some t
      ∧ (t.heap 0).Send = [successMessage "stream registered",
          { Type_ := MsgTypeICECandidate, StreamID := "x", PeerID := "v1" }]
      ∧ t.heap 1 = demoReached.heap 1)
    ∧ (∃ t, RouteMessage demoReached 0
        { Type_ := MsgTypeICECandidate, StreamID := "x", PeerID := "v1" } = some t
      ∧ (t.heap 1).Send = [successMessage "subscribed",
          { Type_ := MsgTypeICECandidate, StreamID := "x", PeerID := "v1" }]
      ∧ t.heap 0 = demoReached.heap 0)
    ∧ RouteMessage demoReached 0
        { Type_ := MsgTypeICECandidate, StreamID := "x", PeerID := "v7" } = some demoReached := by
  refine ⟨?_, ?_, ?_⟩
  · obtain ⟨t, h1, _, h3, h4, _⟩ := (ice_candidate_forwarded demoReached 1
      { Type_ := MsgTypeICECandidate, StreamID := "x", PeerID := "v1" }
      { Publisher := some 0, Viewers := AList.singleton "v1" 1 } rfl rfl).1 0 rfl rfl rfl
    exact ⟨t, h1, h3 (by decide), h4 1 (by decide)⟩
  · obtain ⟨t, h1, _, h3, h4, _⟩ := (ice_candidate_forwarded demoReached 0
      { Type_ := MsgTypeICECandidate, StreamID := "x", PeerID := "v1" }
      { Publisher := some 0, Viewers := AList.singleton "v1" 1 } rfl rfl).2.1 1 rfl rfl rfl
    exact ⟨t, h1, h3 (by decide), h4 0 (by decide)⟩
  · exact (ice_candidate_forwarded demoReached 0
      { Type_ := MsgTypeICECandidate, StreamID := "x", PeerID := "v7" }
      { Publisher := some 0, Viewers := AList.singleton "v1" 1 } rfl rfl).2.2.1 rfl rfl

theorem isReply_errorMessage (reason : String) : isReply (errorMessage reason) :=
  Or.inr (Or.inl rfl)

theorem isReply_successMessage (info : String) : isReply (successMessage info) :=
  Or.inl rfl

theorem trySendTimes_prefix (k : Nat) (msg : Message) :
    ∀ queue : List Message, ∃ j, trySendTimes k queue msg = queue ++ List.replicate j msg
      ∧ (0 < k → queue.length < sendCapacity → 0 < j) := by
  induction k with
  | zero => exact fun queue => ⟨0, by simp [trySendTimes], fun h => absurd h (by decide)⟩
  | succ k ih =>
    intro queue
    by_cases hroom : queue.length < sendCapacity
    · obtain ⟨j, hj, _⟩ := ih (queue ++ [msg])
      refine ⟨j + 1, ?_, fun _ _ => Nat.succ_pos j⟩
      simp only [trySendTimes, trySend_of_room _ _ hroom, hj, List.replicate_succ,
        List.append_assoc, List.singleton_append]
    · obtain ⟨j, hj, _⟩ := ih queue
      refine ⟨j, ?_, fun _ h => absurd h hroom⟩
      simp only [trySendTimes, trySend_of_full _ _ hroom, hj]

/-- A reply sent to a connection whose queue is open and has room lands in
the queue. -/
theorem replied_of_send (s s1 : Server) (c : ClientRef) (m : Message)
    (hq : (s1.heap c).Send = (s.heap c).Send) (hc : (s1.heap c).SendClosed = false)
    (hroom : (s.heap c).Send.length < sendCapacity) (hm : isReply m) :
    ∃ t, s1.SendJSON c m = some t ∧ Replied s t c := by
  refine ⟨s1.afterSend c m, Server.SendJSON_open s1 c m hc, m, [], hm, ?_⟩
  rw [Server.afterSend_heap_self]
  simp only [hq]
  exact trySend_of_room _ _ hroom

theorem handleRegister_replies (s : Server) (c : ClientRef) (msg : Message)
    (hopen : (s.heap c).SendClosed = false) (hroom : (s.heap c).Send.length < sendCapacity) :
    ∃ t, handleRegister s c msg = some t ∧ Replied s t c := by
  unfold handleRegister
  split
  · exact replied_of_send s s c _ rfl hopen hroom (isReply_errorMessage _)
  · split
    · exact replied_of_send s s c _ rfl hopen hroom (isReply_errorMessage _)
    · exact replied_of_send s (registerEffect s c msg.StreamID) c _ (by simp [registerEffect])
        (by simpa [registerEffect] using hopen) hroom (isReply_successMessage _)

theorem handleSubscribe_replies (s : Server) (c : ClientRef) (msg : Message)
    (hopen : (s.heap c).SendClosed = false) (hroom : (s.heap c).Send.length < sendCapacity) :
    ∃ t, handleSubscribe s c msg = some t ∧ Replied s t c := by
  unfold handleSubscribe
  split
  · exact replied_of_send s s c _ rfl hopen hroom (isReply_errorMessage _)
  · split
    · exact replied_of_send s s c _ rfl hopen hroom (isReply_errorMessage _)
    · rename_i stream hl
      exact replied_of_send s (subscribeEffect s c msg.StreamID msg.PeerID stream) c _
        (by simp [subscribeEffect]) (by simpa [subscribeEffect] using hopen) hroom
        (isReply_successMessage _)

theorem handleUnsubscribe_replies (s : Server) (c : ClientRef) (msg : Message)
    (hopen : (s.heap c).SendClosed = false) (hroom : (s.heap c).Send.length < sendCapacity) :
    ∃ t, handleUnsubscribe s c msg = some t ∧ Replied s t c := by
  unfold handleUnsubscribe
  split
  · exact replied_of_send s s c _ rfl hopen hroom (isReply_errorMessage _)
  · split
    · exact replied_of_send s s c _ rfl hopen hroom (isReply_errorMessage _)
    · rename_i stream hl
      exact replied_of_send s (unsubscribeEffect s c msg.StreamID stream) c _
        (by simp [unsubscribeEffect]) (by simpa [unsubscribeEffect] using hopen) hroom
        (isReply_successMessage _)

theorem handleUnregister_replies (s : Server) (c : ClientRef) (msg : Message)
    (hopen : (s.heap c).SendClosed = false) (hroom : (s.heap c).Send.length < sendCapacity)
    (hso : StreamsOpen s) :
    ∃ t, handleUnregister s c msg = some t ∧ Replied s t c := by
  unfold handleUnregister
  split
  · exact replied_of_send s s c _ rfl hopen hroom (isReply_errorMessage _)
  · split
    · rename_i stream hl
      split
      · obtain ⟨s1, hn, _, _, hheap⟩ :=
          notifyViewers_spec stream.Viewers.entries s (hso _ stream hl).2
        have hc1 : ((unregisterEffect s1 c msg.StreamID).heap c).SendClosed = false := by
          simp [unregisterEffect, hheap c, hopen]
        refine ⟨(unregisterEffect s1 c msg.StreamID).afterSend c
          (successMessage "stream unregistered"), ?_, ?_⟩
        · simp only [hn, Option.some_bind, Server.SendSuccess]
          exact Server.SendJSON_open _ _ _ hc1
        · have hq : (((unregisterEffect s1 c msg.StreamID).afterSend c
              (successMessage "stream unregistered")).heap c).Send
              = trySend (trySendTimes ((viewerRefs stream.Viewers.entries).count c)
                  (s.heap c).Send (errorMessage "stream removed"))
                  (successMessage "stream unregistered") := by
            simp [Server.afterSend_heap_self, unregisterEffect, hheap c]
          obtain ⟨j, hj, hpos⟩ := trySendTimes_prefix
            ((viewerRefs stream.Viewers.entries).count c) (errorMessage "stream removed")
            (s.heap c).Send
          unfold Replied
          rw [hq, hj]
          cases j with
          | zero =>
            have hk : (viewerRefs stream.Viewers.entries).count c = 0 := by
              by_contra hne
              exact absurd (hpos (Nat.pos_of_ne_zero hne) hroom) (by decide)
            refine ⟨_, [], isReply_successMessage "stream unregistered", ?_⟩
            simp only [List.replicate_zero, List.append_nil]
            exact trySend_of_room _ _ hroom
          | succ j =>
            by_cases hr2 : ((s.heap c).Send
                ++ List.replicate (j + 1) (errorMessage "stream removed")).length < sendCapacity
            · refine ⟨errorMessage "stream removed",
                List.replicate j (errorMessage "stream removed")
                  ++ [successMessage "stream unregistered"], isReply_errorMessage _, ?_⟩
              rw [trySend_of_room _ _ hr2]
              simp only [List.replicate_succ, List.append_assoc, List.cons_append]
            · refine ⟨errorMessage "stream removed",
                List.replicate j (errorMessage "stream removed"), isReply_errorMessage _, ?_⟩
              rw [trySend_of_full _ _ hr2]
              simp only [List.replicate_succ]
      · exact replied_of_send s s c _ rfl hopen hroom (isReply_errorMessage _)
    · exact replied_of_send s s c _ rfl hopen hroom (isReply_errorMessage _)

theorem forwardSignal_absent (s : Server) (c : ClientRef) (msg : Message)
    (htype : isSignal msg.Type_) (hl : s.Streams.lookup msg.StreamID = none) :
    forwardSignal s c msg = s.SendError c "stream not found" := by
  rcases htype with h | h | h
  · simp [forwardSignal, h, hl]
  · simp [forwardSignal, h, MsgTypeAnswer, MsgTypeOffer, hl]
  · simp [forwardSignal, h, MsgTypeICECandidate, MsgTypeAnswer, MsgTypeOffer, hl]

theorem RouteMessage_unknown (s : Server) (c : ClientRef) (msg : Message)
    (h : ¬ isRouted msg.Type_) : RouteMessage s c msg = s.SendError c "unknown message type" := by
  simp only [isRouted, isSignal, not_or] at h
  obtain ⟨h1, h2, h3, h4, h5, h6, h7, h8⟩ := h
  simp [RouteMessage, h1, h2, h3, h4, h5, h6, h7, h8]

theorem forwardTarget_recorded (s : Server) (c : ClientRef) (msg : Message)
    (stream : PublisherStream) (target : ClientRef)
    (h : forwardTarget s c msg stream = some target) :
    stream.Publisher = some target ∨ target ∈ viewerRefs stream.Viewers.entries := by
  have hv : stream.Viewers.lookup msg.PeerID = some target →
      target ∈ viewerRefs stream.Viewers.entries := by
    intro hlook
    have hmem : (⟨msg.PeerID, target⟩ : Sigma fun _ : String => ClientRef)
        ∈ stream.Viewers.entries := AList.mem_lookup_iff.mp hlook
    exact List.mem_map.mpr ⟨_, hmem, rfl⟩
  unfold forwardTarget at h
  split at h
  · exact Or.inl h
  · split at h
    · exact Or.inr (hv h)
    · split at h
      · split at h
        · exact Or.inl h
        · split at h
          · exact Or.inr (hv h)
          · cases h
      · cases h

/-- C17 (as stated, refuted). After the run `registeredOnly` connection 1 is
live, unbound, and its queue is empty; routing its `ice_candidate` for the
registered stream "x" returns the state unchanged: no message is put on any
queue. -/
theorem candidate_from_unbound_sender_discarded :
    run NewServer registeredOnly = some (stateAfter registeredOnly)
      ∧ 1 ∈ (stateAfter registeredOnly).Clients
      ∧ ((stateAfter registeredOnly).heap 1).Send = []
      ∧ ((stateAfter registeredOnly).Streams.lookup "x").isSome = true
      ∧ RouteMessage (stateAfter registeredOnly) 1
          { Type_ := MsgTypeICECandidate, StreamID := "x", PeerID := "v1" }
          = some (stateAfter registeredOnly) :=
  ⟨rfl, by decide, rfl, rfl, rfl⟩

/-- C17 (amended). In a state where every connection recorded in a stream has
an open queue, for every sending connection `c` whose queue is open and holds
fewer than 256 messages and every parsed message, `RouteMessage` returns, and:
a message that is not an offer, answer or candidate, or that names an
unregistered stream, results in at least one `success`, `error` or
`stream_list` reply appended to `c`'s queue; an offer, answer or candidate for
a registered stream is forwarded verbatim by one non-blocking send to its
target when there is one, and is otherwise discarded, the state staying as it
was; a type outside the eight routed ones is answered with the error "unknown
message type". -/
theorem route_replies_or_forwards (s : Server) (c : ClientRef) (msg : Message)
    (hopen : (s.heap c).SendClosed = false) (hroom : (s.heap c).Send.length < 256)
    (hso : StreamsOpen s) :
    ∃ t, RouteMessage s c msg = some t
      ∧ ((¬ isSignal msg.Type_ ∨ s.Streams.lookup msg.StreamID = none) → Replied s t c)
      ∧ (∀ stream, isSignal msg.Type_ → s.Streams.lookup msg.StreamID = some stream →
          (∀ target, forwardTarget s c msg stream = some target → t = s.afterSend target msg)
            ∧ (forwardTarget s c msg stream = none → t = s))
      ∧ (¬ isRouted msg.Type_ →
          (t.heap c).Send = (s.heap c).Send ++ [errorMessage "unknown message type"]) := by
  have reply : ∀ t, Replied s t c → isRouted msg.Type_ →
      (isSignal msg.Type_ → s.Streams.lookup msg.StreamID = none) →
      RouteMessage s c msg = some t →
      ∃ t, RouteMessage s c msg = some t
        ∧ ((¬ isSignal msg.Type_ ∨ s.Streams.lookup msg.StreamID = none) → Replied s t c)
        ∧ (∀ stream, isSignal msg.Type_ → s.Streams.lookup msg.StreamID = some stream →
            (∀ target, forwardTarget s c msg stream = some target → t = s.afterSend target msg)
              ∧ (forwardTarget s c msg stream = none → t = s))
        ∧ (¬ isRouted msg.Type_ →
            (t.heap c).Send = (s.heap c).Send ++ [errorMessage "unknown message type"]) := by
    intro t hrep hrouted habs hroute
    refine ⟨t, hroute, fun _ => hrep, ?_, fun hn => absurd hrouted hn⟩
    intro stream hsig hl
    rw [habs hsig] at hl
    cases hl
  by_cases hsig : isSignal msg.Type_
  · have hrouted : isRouted msg.Type_ := by
      unfold isRouted
      exact Or.inr (Or.inr (Or.inr (Or.inr (Or.inr hsig))))
    rcases Option.eq_none_or_eq_some (s.Streams.lookup msg.StreamID) with hl | ⟨stream, hl⟩
    · obtain ⟨t, ht, hrep⟩ := replied_of_send s s c (errorMessage "stream not found") rfl
        hopen hroom (isReply_errorMessage _)
      exact reply t hrep hrouted (fun _ => hl)
        (by rw [RouteMessage_signal s c msg hsig, forwardSignal_absent s c msg hsig hl]
            exact ht)
    · have hroute := forwardSignal_found s c msg stream hsig hl
      rw [← RouteMessage_signal s c msg hsig] at hroute
      cases htg : forwardTarget s c msg stream with
      | none =>
        rw [htg] at hroute
        refine ⟨s, hroute, ?_, ?_, fun hn => absurd hrouted hn⟩
        · intro h
          rcases h with h | h
          · exact absurd hsig h
          · rw [hl] at h; cases h
        · intro stream1 _ hl1
          have hs : stream1 = stream := Option.some.inj (hl1.symm.trans hl)
          subst hs
          exact ⟨fun target h => (by rw [htg] at h; cases h), fun _ => rfl⟩
      | some target =>
        rw [htg] at hroute
        have htopen : (s.heap target).SendClosed = false := by
          rcases forwardTarget_recorded s c msg stream target htg with h | h
          · exact (hso _ stream hl).1 target h
          · exact (hso _ stream hl).2 target h
        rw [show (match some target with
              | some target => s.SendJSON target msg
              | none => some s) = s.SendJSON target msg from rfl,
          Server.SendJSON_open s target msg htopen] at hroute
        refine ⟨s.afterSend target msg, hroute, ?_, ?_, fun hn => absurd hrouted hn⟩
        · intro h
          rcases h with h | h
          · exact absurd hsig h
          · rw [hl] at h; cases h
        · intro stream1 _ hl1
          have hs : stream1 = stream := Option.some.inj (hl1.symm.trans hl)
          subst hs
          refine ⟨fun tg h => ?_, fun h => (by rw [htg] at h; cases h)⟩
          rw [htg] at h
          rw [Option.some.inj h]
  · by_cases h1 : msg.Type_ = MsgTypeRegister
    · obtain ⟨t, ht, hrep⟩ := handleRegister_replies s c msg hopen hroom
      exact reply t hrep (Or.inl h1) (fun h => absurd h hsig)
        (by rw [RouteMessage_register s c msg h1]; exact ht)
    · by_cases h2 : msg.Type_ = MsgTypeUnregister
      · obtain ⟨t, ht, hrep⟩ := handleUnregister_replies s c msg hopen hroom hso
        exact reply t hrep (Or.inr (Or.inl h2)) (fun h => absurd h hsig)
          (by rw [RouteMessage_unregister s c msg h2]; exact ht)
      · by_cases h3 : msg.Type_ = MsgTypeListStreams
        · obtain ⟨t, ht, hrep⟩ := replied_of_send s s c
            (streamListMessage s.Streams.keys) rfl hopen hroom (Or.inr (Or.inr rfl))
          exact reply t hrep (Or.inr (Or.inr (Or.inl h3))) (fun h => absurd h hsig)
            (by rw [RouteMessage_listStreams s c msg h3]; exact ht)
        · by_cases h4 : msg.Type_ = MsgTypeSubscribe
          · obtain ⟨t, ht, hrep⟩ := handleSubscribe_replies s c msg hopen hroom
            exact reply t hrep (Or.inr (Or.inr (Or.inr (Or.inl h4)))) (fun h => absurd h hsig)
              (by rw [RouteMessage_subscribe s c msg h4]; exact ht)
          · by_cases h5 : msg.Type_ = MsgTypeUnsubscribe
            · obtain ⟨t, ht, hrep⟩ := handleUnsubscribe_replies s c msg hopen hroom
              exact reply t hrep (Or.inr (Or.inr (Or.inr (Or.inr (Or.inl h5)))))
                (fun h => absurd h hsig)
                (by rw [RouteMessage_unsubscribe s c msg h5]; exact ht)
            · have hnr : ¬ isRouted msg.Type_ := by
                unfold isRouted
                simp only [h1, h2, h3, h4, h5, hsig, or_self, not_false_eq_true]
              refine ⟨s.afterSend c (errorMessage "unknown message type"), ?_, ?_, ?_, ?_⟩
              · rw [RouteMessage_unknown s c msg hnr]
                exact Server.SendJSON_open s c _ hopen
              · intro _
                exact ⟨_, [], isReply_errorMessage _, by
                  rw [Server.afterSend_heap_self]; exact trySend_of_room _ _ hroom⟩
              · intro stream h _
                exact absurd h hsig
              · intro _
                rw [Server.afterSend_heap_self]
                exact trySend_of_room _ _ hroom

theorem route_replies_or_forwards_witness :
    ∃ t, RouteMessage demoReached 1 { Type_ := "ping" } = some t
      ∧ (t.heap 1).Send = [successMessage "subscribed", errorMessage "unknown message type"] := by
  obtain ⟨t, h1, _, _, h4⟩ := route_replies_or_forwards demoReached 1 { Type_ := "ping" }
    rfl (by decide)
    (by intro X stream hl
        have hX : X = "x" := by
          by_contra hne
          have hnone : demoReached.Streams.lookup X = none :=
            AList.lookup_eq_none.mpr (by
              intro hm
              have hk : X ∈ demoReached.Streams.keys := AList.mem_keys.mp hm
              have hk2 : X ∈ ["x"] := hk
              exact hne (by simpa using hk2))
          rw [hnone] at hl
          cases hl
        subst hX
        have hs : stream = { Publisher := some 0, Viewers := AList.singleton "v1" 1 } :=
          (Option.some.inj hl).symm
        subst hs
        refine ⟨fun P hP => ?_, fun v hv => ?_⟩
        · have hP0 : P = 0 := (Option.some.inj hP).symm
          subst hP0
          rfl
        · have hv1 : v = 1 := by simpa [viewerRefs] using hv
          subst hv1
          rfl)
  exact ⟨t, h1, h4 (by
    unfold isRouted isSignal
    decide)⟩

/-- C18 (as stated, refuted). In `demoReached` stream "x" exists and its viewer
set has no entry under "v9". Routing an answer addressed to ("x", "v9") from
the publisher, connection 0, and likewise its `ice_candidate`, returns the
state as it was: the queue of connection 0, which has room, receives no error
reply. -/
theorem answer_to_missing_viewer_unanswered :
    (demoReached.Streams.lookup "x").map (fun st => st.Viewers.lookup "v9") = some none
      ∧ (demoReached.heap 0).Role = "publisher"
      ∧ (demoReached.heap 0).Send = [successMessage "stream registered"]
      ∧ RouteMessage demoReached 0 { Type_ := MsgTypeAnswer, StreamID := "x", PeerID := "v9" }
          = some demoReached
      ∧ RouteMessage demoReached 0
          { Type_ := MsgTypeICECandidate, StreamID := "x", PeerID := "v9" } = some demoReached :=
  ⟨rfl, rfl, rfl, rfl, rfl⟩

/-- C18 (amended). In a state where stream `S` exists but its viewer set has no
entry for peer id `p`, routing an answer addressed to (`S`, `p`), or an
`ice_candidate` addressed to (`S`, `p`) from a sender whose role is publisher,
sends nothing to any connection, the sender included, and mutates no state:
`RouteMessage` returns the state it was given. -/
theorem signal_to_missing_viewer_dropped (s : Server) (c : ClientRef) (msg : Message)
    (stream : PublisherStream)
    (hl : s.Streams.lookup msg.StreamID = some stream)
    (hmiss : stream.Viewers.lookup msg.PeerID = none)
    (hkind : msg.Type_ = MsgTypeAnswer
      ∨ (msg.Type_ = MsgTypeICECandidate ∧ (s.heap c).Role = "publisher")) :
    RouteMessage s c msg = some s := by
  have hsig : isSignal msg.Type_ := by
    rcases hkind with h | h
    · exact Or.inr (Or.inl h)
    · exact Or.inr (Or.inr h.1)
  have htg : forwardTarget s c msg stream = none := by
    rcases hkind with h | ⟨h, hrole⟩
    · simp [forwardTarget, h, MsgTypeAnswer, MsgTypeOffer, hmiss]
    · simp [forwardTarget, h, MsgTypeICECandidate, MsgTypeAnswer, MsgTypeOffer, hrole, hmiss]
  rw [RouteMessage_signal s c msg hsig, forwardSignal_found s c msg stream hsig hl, htg]

theorem signal_to_missing_viewer_dropped_witness :
    RouteMessage demoReached 1 { Type_ := MsgTypeAnswer, StreamID := "x", PeerID := "v9" }
      = some demoReached :=
  signal_to_missing_viewer_dropped demoReached 1
    { Type_ := MsgTypeAnswer, StreamID := "x", PeerID := "v9" }
    { Publisher := some 0, Viewers := AList.singleton "v1" 1 } rfl rfl (Or.inl rfl)

/-! ## Cleanup after a viewer closes -/

/-- C19 (as stated, refuted). After the run `peerCollision`, a reachable state,
the viewer set of "x" holds connection 2 only, under the peer id "v1" that is
also the peerID of connection 1, whose role is viewer. When connection 1
closes, that entry is removed: connection 2 is no longer a member of the
viewer set. -/
theorem viewer_close_removes_other_connection :
    run NewServer peerCollision = some (stateAfter peerCollision)
      ∧ Reachable (stateAfter peerCollision)
      ∧ 1 ∈ (stateAfter peerCollision).Clients
      ∧ ((stateAfter peerCollision).heap 1).Role = "viewer"
      ∧ ((stateAfter peerCollision).Streams.lookup "x").map
          (fun st => viewerRefs st.Viewers.entries) = some [2]
      ∧ ∃ t, unregisterClient (stateAfter peerCollision) 1 = some t
          ∧ (t.Streams.lookup "x").map (fun st => viewerRefs st.Viewers.entries) = some [] := by
  have h : run NewServer peerCollision = some (stateAfter peerCollision) := rfl
  exact ⟨h, Reachable.of_run _ Reachable.init h, by decide, rfl, rfl, _, rfl, rfl⟩

/-- C19 (amended). When a connection `c` whose role is viewer and whose queue
is open closes (`unregisterClient` runs for it), no notification is sent:
every other connection is unchanged, `c` leaves the set of connections and
its queue is closed. If `c`'s streamID is non-empty and registered, the entry
stored under `c`'s peerID is removed from that stream's viewer set, whichever
connection it maps to, while the entries under every other key, the stream's
publisher and every other stream are unchanged; otherwise the registry is
unchanged. -/
theorem viewer_close_removes_entry (s : Server) (c : ClientRef)
    (hrole : (s.heap c).Role = "viewer") (hopen : (s.heap c).SendClosed = false) :
    ∃ t, unregisterClient s c = some t
      ∧ (∀ d, d ≠ c → t.heap d = s.heap d)
      ∧ t.heap c = { s.heap c with SendClosed := true }
      ∧ t.Clients = s.Clients.erase c
      ∧ (∀ stream, (s.heap c).StreamID ≠ "" →
          s.Streams.lookup (s.heap c).StreamID = some stream →
          ∃ stream1, t.Streams.lookup (s.heap c).StreamID = some stream1
            ∧ stream1.Publisher = stream.Publisher
            ∧ stream1.Viewers.lookup (s.heap c).PeerID = none
            ∧ (∀ q, q ≠ (s.heap c).PeerID →
                stream1.Viewers.lookup q = stream.Viewers.lookup q)
            ∧ ∀ Y, Y ≠ (s.heap c).StreamID → t.Streams.lookup Y = s.Streams.lookup Y)
      ∧ ((s.heap c).StreamID = "" ∨ s.Streams.lookup (s.heap c).StreamID = none →
          t.Streams = s.Streams) := by
  have hnp : ¬ (s.heap c).Role = "publisher" := by rw [hrole]; decide
  have hp : unregisterPublisher (s.setClients (s.Clients.erase c)) c
      = some (s.setClients (s.Clients.erase c)) := by
    simp [unregisterPublisher, hnp]
  have hclose : ∀ s1 : Server, s1.heap = s.heap →
      closeSend s1 c = some (s1.setClient c { s.heap c with SendClosed := true }) := by
    intro s1 h1
    simp [closeSend, h1, hopen]
  have hvh : (unregisterViewer (s.setClients (s.Clients.erase c)) c).heap = s.heap := by
    unfold unregisterViewer
    split
    · split <;> rfl
    · rfl
  have hvc : (unregisterViewer (s.setClients (s.Clients.erase c)) c).Clients
      = s.Clients.erase c := by
    rw [unregisterViewer_Clients]; rfl
  refine ⟨(unregisterViewer (s.setClients (s.Clients.erase c)) c).setClient c
      { s.heap c with SendClosed := true }, ?_, ?_, ?_, ?_, ?_, ?_⟩
  · simp only [unregisterClient, hp, Option.some_bind]
    exact hclose _ hvh
  · intro d hd
    rw [Server.setClient_heap_ne _ _ _ _ hd, hvh]
  · simp
  · simp [hvc]
  · intro stream hsid hl
    have hv : (unregisterViewer (s.setClients (s.Clients.erase c)) c).Streams
        = s.Streams.insert (s.heap c).StreamID
            { stream with Viewers := stream.Viewers.erase (s.heap c).PeerID } := by
      simp [unregisterViewer, hrole, hsid, hl]
    refine ⟨{ stream with Viewers := stream.Viewers.erase (s.heap c).PeerID }, ?_, rfl,
      AList.lookup_erase _ _, fun q hq => AList.lookup_erase_ne hq, ?_⟩
    · simp [hv]
    · intro Y hY
      simp [hv, AList.lookup_insert_ne hY]
  · intro h
    rcases h with h | h
    · simp [unregisterViewer, h]
    · by_cases hsid : (s.heap c).StreamID = ""
      · simp [unregisterViewer, hsid]
      · simp [unregisterViewer, hrole, hsid, h]

theorem viewer_close_removes_entry_witness :
    ∃ t, unregisterClient demoReached 1 = some t
      ∧ t.heap 0 = demoReached.heap 0
      ∧ ∃ stream1, t.Streams.lookup "x" = some stream1
          ∧ stream1.Viewers.lookup "v1" = none := by
  obtain ⟨t, h1, h2, _, _, h5, _⟩ := viewer_close_removes_entry demoReached 1 rfl rfl
  obtain ⟨stream1, k1, _, k3, _⟩ := h5
    { Publisher := some 0, Viewers := AList.singleton "v1" 1 } (by decide) rfl
  exact ⟨t, h1, h2 0 (by decide), stream1, k1, k3⟩

/-! ## The frame loop -/

/-- C20 (as stated, refuted). `demoPublisher` has two peer sessions, one whose
data path is absent and one whose data path is not open; no peer has an open
data path, yet a tick captures a frame and encodes it (and sends it to
nobody). -/
theorem tick_captures_without_open_data_path :
    ¬ demoPublisher.hasOpenDataPath idleCollaborators
      ∧ demoPublisher.tick idleCollaborators
          = [FrameAction.capture, FrameAction.encode "frame"] := by
  refine ⟨?_, by decide⟩
  rintro ⟨p, _, dc, _, hopen⟩
  simp [idleCollaborators] at hopen

/-- C20 (amended). For every publisher session state and whatever the capture,
the encoder and the data channels answer: when the peer map is empty a tick
performs nothing, so no capture and no encode; a tick that captures or encodes
has at least one peer session; when a peer session exists, be its data path
absent, not yet open or open, the tick starts with a capture call; when that
call obtains no frame the tick ends there, and when it obtains a frame the
next action is the encoding of that frame, and no further capture or encode
follows; when the encoding succeeds the payload is sent on the data channel of
every peer session whose data path is open; and a payload is sent only on a
data channel that belongs to a peer session and is open. -/
theorem tick_captures_iff_peers (k : FrameCollaborators) (s : publisherSession) :
    (s.peers.entries = [] → s.tick k = [])
    ∧ ((∃ act ∈ s.tick k, act.isCapture = true ∨ act.isEncode = true) → s.peers.entries ≠ [])
    ∧ (s.peers.entries ≠ [] → ∃ act rest, s.tick k = act :: rest ∧ act.isCapture = true)
    ∧ (∀ dc payload, FrameAction.send dc payload ∈ s.tick k →
        k.dcOpen dc = true ∧ ∃ p ∈ s.peers.entries, p.2.dc = some dc)
    ∧ (s.peers.entries ≠ [] → (s.capturedFrame k).2 = none →
        s.tick k = [(s.capturedFrame k).1])
    ∧ (s.peers.entries ≠ [] → ∀ frame, (s.capturedFrame k).2 = some frame →
        ∃ rest, s.tick k = (s.capturedFrame k).1 :: FrameAction.encode frame :: rest
          ∧ ∀ act ∈ rest, act.isCapture = false ∧ act.isEncode = false)
    ∧ (s.peers.entries ≠ [] → ∀ frame payload, (s.capturedFrame k).2 = some frame →
        k.encodeJPEG frame = Except.ok payload →
        s.tick k = (s.capturedFrame k).1 :: FrameAction.encode frame
            :: s.broadcastFrame k payload
          ∧ ∀ p ∈ s.peers.entries, ∀ dc, p.2.dc = some dc → k.dcOpen dc = true →
              FrameAction.send dc payload ∈ s.tick k) := by
  have hempty : s.peers.entries = [] → s.tick k = [] := by
    intro h
    simp [publisherSession.tick, h]
  have hcap : ((s.capturedFrame k).1).isCapture = true := by
    unfold publisherSession.capturedFrame
    split <;> rfl
  have hbroad : ∀ dc payload payload1,
      FrameAction.send dc payload ∈ s.broadcastFrame k payload1 →
      k.dcOpen dc = true ∧ ∃ p ∈ s.peers.entries, p.2.dc = some dc := by
    intro dc payload payload1 hmem
    unfold publisherSession.broadcastFrame at hmem
    obtain ⟨p, hp, hin⟩ := List.mem_flatMap.mp hmem
    cases hdc : p.2.dc with
    | none => simp [hdc] at hin
    | some dc1 =>
      by_cases ho : k.dcOpen dc1 = true
      · simp only [hdc, ho, if_true, List.mem_singleton, FrameAction.send.injEq] at hin
        obtain ⟨h1, _⟩ := hin
        subst h1
        exact ⟨ho, p, hp, hdc⟩
      · simp [hdc, ho] at hin
  have hsends : ∀ payload, ∀ act ∈ s.broadcastFrame k payload,
      act.isCapture = false ∧ act.isEncode = false := by
    intro payload act hmem
    unfold publisherSession.broadcastFrame at hmem
    obtain ⟨p, _, hin⟩ := List.mem_flatMap.mp hmem
    cases hdc : p.2.dc with
    | none => simp [hdc] at hin
    | some dc1 =>
      by_cases ho : k.dcOpen dc1 = true
      · simp only [hdc, ho, if_true, List.mem_singleton] at hin
        subst hin
        exact ⟨rfl, rfl⟩
      · simp [hdc, ho] at hin
  have hframe : s.peers.entries ≠ [] → ∀ frame payload, (s.capturedFrame k).2 = some frame →
      k.encodeJPEG frame = Except.ok payload →
      s.tick k = (s.capturedFrame k).1 :: FrameAction.encode frame
          :: s.broadcastFrame k payload := by
    intro hne frame payload hf he
    have hlen : s.peers.entries.length > 0 := List.length_pos.mpr hne
    unfold publisherSession.tick
    rw [if_pos hlen]
    simp only [hf, he]
    rfl
  refine ⟨hempty, ?_, ?_, ?_, ?_, ?_, ?_⟩
  · rintro ⟨act, hact, _⟩ hnil
    rw [hempty hnil] at hact
    cases hact
  · intro hne
    have hlen : s.peers.entries.length > 0 := List.length_pos.mpr hne
    unfold publisherSession.tick
    rw [if_pos hlen]
    cases hf : (s.capturedFrame k).2 with
    | none => exact ⟨_, [], rfl, hcap⟩
    | some frame =>
      cases he : k.encodeJPEG frame with
      | error err =>
        exact ⟨(s.capturedFrame k).1, _, by simp only [he]; rfl, hcap⟩
      | ok payload =>
        exact ⟨(s.capturedFrame k).1, _, by simp only [he]; rfl, hcap⟩
  · intro dc payload hmem
    unfold publisherSession.tick at hmem
    split at hmem
    · have hne : FrameAction.send dc payload ≠ (s.capturedFrame k).1 := by
        intro heq
        have := hcap
        rw [← heq] at this
        cases this
      split at hmem
      · simp only [List.mem_singleton] at hmem
        exact absurd hmem hne
      · split at hmem
        · simp only [List.cons_append, List.nil_append, List.mem_cons] at hmem
          rcases hmem with h | h | h
          · exact absurd h hne
          · cases h
          · split at h
            · simp at h
            · cases h
        · simp only [List.cons_append, List.nil_append, List.mem_cons] at hmem
          rcases hmem with h | h | h
          · exact absurd h hne
          · cases h
          · exact hbroad dc payload _ h
    · cases hmem
  · intro hne hf
    have hlen : s.peers.entries.length > 0 := List.length_pos.mpr hne
    unfold publisherSession.tick
    rw [if_pos hlen]
    simp only [hf]
  · intro hne frame hf
    have hlen : s.peers.entries.length > 0 := List.length_pos.mpr hne
    cases he : k.encodeJPEG frame with
    | error err =>
      refine ⟨if s.hasStatusFn then
          [FrameAction.status PublisherStatusError ("帧编码失败: " ++ err)] else [], ?_, ?_⟩
      · unfold publisherSession.tick
        rw [if_pos hlen]
        simp only [hf, he]
        rfl
      · intro act hact
        split at hact
        · simp only [List.mem_singleton] at hact
          subst hact
          exact ⟨rfl, rfl⟩
        · cases hact
    | ok payload =>
      exact ⟨s.broadcastFrame k payload, hframe hne frame payload hf he, hsends payload⟩
  · intro hne frame payload hf he
    refine ⟨hframe hne frame payload hf he, ?_⟩
    intro p hp dc hdc hopen
    rw [hframe hne frame payload hf he]
    refine List.mem_cons_of_mem _ (List.mem_cons_of_mem _ ?_)
    unfold publisherSession.broadcastFrame
    exact List.mem_flatMap.mpr ⟨p, hp, by simp [hdc, hopen]⟩

theorem tick_captures_iff_peers_witness :
    ({ streamID := "x" } : publisherSession).tick idleCollaborators = []
      ∧ (∃ act rest, demoPublisher.tick idleCollaborators = act :: rest
          ∧ act.isCapture = true)
      ∧ (∃ rest, demoPublisher.tick idleCollaborators
            = (demoPublisher.capturedFrame idleCollaborators).1
                :: FrameAction.encode "frame" :: rest
          ∧ ∀ act ∈ rest, act.isCapture = false ∧ act.isEncode = false)
      ∧ demoPublisher.tick readyCollaborators
          = [FrameAction.capture, FrameAction.encode "frame",
             FrameAction.send 11 "jpeg:frame"] :=
  ⟨(tick_captures_iff_peers idleCollaborators { streamID := "x" }).1 rfl,
   (tick_captures_iff_peers idleCollaborators demoPublisher).2.2.1 (by decide),
   (tick_captures_iff_peers idleCollaborators demoPublisher).2.2.2.2.2.1 (by decide)
     "frame" rfl,
   ((tick_captures_iff_peers readyCollaborators demoPublisher).2.2.2.2.2.2 (by decide)
     "frame" "jpeg:frame" rfl rfl).1⟩

/-! ## Configuration of a publisher session -/

theorem normalizeConfig_SignalURL (cfg : PublisherConfig) :
    (normalizeConfig cfg).SignalURL
      = if cfg.SignalURL = "" then defaultSignalURL else cfg.SignalURL := by
  unfold normalizeConfig
  dsimp only
  split_ifs <;> rfl

theorem normalizeConfig_FrameRate (cfg : PublisherConfig) :
    (normalizeConfig cfg).FrameRate
      = if cfg.FrameRate ≤ 0 ∨ 30 < cfg.FrameRate then 30 else cfg.FrameRate := by
  unfold normalizeConfig
  dsimp only
  split_ifs <;> simp_all <;> omega

theorem normalizeConfig_Width (cfg : PublisherConfig) :
    (normalizeConfig cfg).Width = if cfg.Width < 0 then 0 else cfg.Width := by
  unfold normalizeConfig
  dsimp only
  split_ifs <;> simp_all

theorem normalizeConfig_Height (cfg : PublisherConfig) :
    (normalizeConfig cfg).Height = if cfg.Height < 0 then 0 else cfg.Height := by
  unfold normalizeConfig
  dsimp only
  split_ifs <;> simp_all

theorem normalizeConfig_ext (a b : PublisherConfig) (h1 : a.SignalURL = b.SignalURL)
    (h2 : a.FrameRate = b.FrameRate) (h3 : a.Width = b.Width) (h4 : a.Height = b.Height) :
    a = b := by
  cases a; cases b; simp_all

theorem defaultSignalURL_ne_empty : defaultSignalURL ≠ "" := by decide

theorem normalizeConfig_FrameRate_bounds (cfg : PublisherConfig) :
    1 ≤ (normalizeConfig cfg).FrameRate ∧ (normalizeConfig cfg).FrameRate ≤ 30 := by
  rw [normalizeConfig_FrameRate]
  split_ifs <;> omega

theorem captureInterval_eq (s : publisherSession) (h1 : 1 ≤ s.cfg.FrameRate)
    (h2 : s.cfg.FrameRate ≤ 30) :
    s.captureInterval = some (timeSecond / s.cfg.FrameRate)
      ∧ 33333333 ≤ timeSecond / s.cfg.FrameRate ∧ timeSecond / s.cfg.FrameRate ≤ timeSecond := by
  have hne : s.cfg.FrameRate ≠ 0 := by omega
  have hpos : (0 : Int) < s.cfg.FrameRate := by omega
  have htd : Int.tdiv timeSecond s.cfg.FrameRate = timeSecond / s.cfg.FrameRate :=
    Int.tdiv_eq_ediv (by decide) (by omega)
  refine ⟨by simp [publisherSession.captureInterval, hne, htd], ?_, ?_⟩
  · rw [Int.le_ediv_iff_mul_le hpos]
    simp only [timeSecond]
    omega
  · exact Int.ediv_le_self _ (by decide)

theorem StartPublisher_started_cfg (k : Dialer) (streamID : String) (capture : Option Handle)
    (cfg : PublisherConfig) (hasStatusFn : Bool) (s : publisherSession)
    (h : (StartPublisher k none streamID capture cfg hasStatusFn).activePublisher = some s) :
    s.cfg = normalizeConfig cfg ∧ s.streamID = streamID := by
  unfold StartPublisher at h
  split_ifs at h with h1 h2
  simp only [publisherSession.connectAndRegister, publisherSession.writeSignal] at h
  cases hd : k.dial (normalizeConfig cfg).SignalURL with
  | error e => simp [hd] at h
  | ok ws =>
    simp only [hd] at h
    cases hw : k.writeJSON ws { Type_ := "register", StreamID := streamID } with
    | some e => simp [hw] at h
    | none =>
      simp [hw] at h
      subst h
      exact ⟨rfl, rfl⟩

theorem normalizeConfig_SignalURL_ne (cfg : PublisherConfig) :
    (normalizeConfig cfg).SignalURL ≠ "" := by
  rw [normalizeConfig_SignalURL]
  split_ifs with h
  · exact defaultSignalURL_ne_empty
  · exact h

theorem normalizeConfig_idem (cfg : PublisherConfig) :
    normalizeConfig (normalizeConfig cfg) = normalizeConfig cfg := by
  have hr := normalizeConfig_FrameRate_bounds cfg
  apply normalizeConfig_ext
  · rw [normalizeConfig_SignalURL (normalizeConfig cfg),
      if_neg (normalizeConfig_SignalURL_ne cfg)]
  · rw [normalizeConfig_FrameRate (normalizeConfig cfg), if_neg (by omega)]
  · rw [normalizeConfig_Width (normalizeConfig cfg), normalizeConfig_Width cfg]
    split_ifs <;> simp_all
  · rw [normalizeConfig_Height (normalizeConfig cfg), normalizeConfig_Height cfg]
    split_ifs <;> simp_all

theorem StartPublisher_empty_slot (k : Dialer) (streamID : String) (capture : Handle)
    (cfg : PublisherConfig) (hasStatusFn : Bool) (hid : streamID ≠ "") :
    StartPublisher k none streamID (some capture) cfg hasStatusFn
      = match publisherSession.connectAndRegister k
            { streamID := streamID, cfg := normalizeConfig cfg, hasStatusFn := hasStatusFn } with
        | (_, some e, acts) =>
          { activePublisher := none, err := some e, actions := acts ++ [StartAction.cancel] }
        | (s1, none, acts) =>
          { activePublisher := some s1, err := none,
            actions := acts ++ s1.updateStatus PublisherStatusConnected "信令连接成功"
              ++ [StartAction.startLoops] } := by
  simp [StartPublisher, hid]

/-- C22. For every configuration, after `normalizeConfig` the relay address is
not empty, the frame rate lies in 1..30 (a rate that is not positive or is
above 30 becomes 30, a rate in 1..30 is kept), width and height are not
negative; `normalizeConfig` is idempotent; and the interval that `captureLoop`
computes for a session holding the normalised configuration, as every session
that `StartPublisher` makes active does, is a quotient by a non-zero divisor:
`time.Second / FrameRate`, at least 33333333 ns. -/
theorem normalizeConfig_bounds (cfg : PublisherConfig) :
    (normalizeConfig cfg).SignalURL ≠ ""
      ∧ 1 ≤ (normalizeConfig cfg).FrameRate ∧ (normalizeConfig cfg).FrameRate ≤ 30
      ∧ (cfg.FrameRate ≤ 0 → (normalizeConfig cfg).FrameRate = 30)
      ∧ (30 < cfg.FrameRate → (normalizeConfig cfg).FrameRate = 30)
      ∧ (1 ≤ cfg.FrameRate → cfg.FrameRate ≤ 30 → (normalizeConfig cfg).FrameRate = cfg.FrameRate)
      ∧ 0 ≤ (normalizeConfig cfg).Width ∧ 0 ≤ (normalizeConfig cfg).Height
      ∧ normalizeConfig (normalizeConfig cfg) = normalizeConfig cfg
      ∧ (∀ s : publisherSession,
          publisherSession.captureInterval { s with cfg := normalizeConfig cfg }
              = some (timeSecond / (normalizeConfig cfg).FrameRate)
            ∧ 33333333 ≤ timeSecond / (normalizeConfig cfg).FrameRate)
      ∧ (∀ (k : Dialer) (streamID : String) (capture : Option Handle) (hasStatusFn : Bool)
            (s : publisherSession),
          (StartPublisher k none streamID capture cfg hasStatusFn).activePublisher = some s →
            s.captureInterval = some (timeSecond / (normalizeConfig cfg).FrameRate)
              ∧ s.captureInterval ≠ none) := by
  have hr := normalizeConfig_FrameRate_bounds cfg
  refine ⟨normalizeConfig_SignalURL_ne cfg, hr.1, hr.2, ?_, ?_, ?_, ?_, ?_,
    normalizeConfig_idem cfg, ?_, ?_⟩
  · intro h
    rw [normalizeConfig_FrameRate, if_pos (Or.inl h)]
  · intro h
    rw [normalizeConfig_FrameRate, if_pos (Or.inr h)]
  · intro h1 h2
    rw [normalizeConfig_FrameRate, if_neg (by omega)]
  · rw [normalizeConfig_Width]
    split_ifs <;> omega
  · rw [normalizeConfig_Height]
    split_ifs <;> omega
  · intro s
    have h := captureInterval_eq { s with cfg := normalizeConfig cfg } hr.1 hr.2
    exact ⟨h.1, h.2.1⟩
  · intro k streamID capture hasStatusFn s h
    have hc := (StartPublisher_started_cfg k streamID capture cfg hasStatusFn s h).1
    have h1 := (captureInterval_eq s (by rw [hc]; exact hr.1) (by rw [hc]; exact hr.2)).1
    rw [hc] at h1
    exact ⟨h1, by rw [h1]; simp⟩

theorem normalizeConfig_bounds_witness :
    (normalizeConfig { FrameRate := -3, Width := -1 }).FrameRate = 30
      ∧ (normalizeConfig { FrameRate := 60, Height := -2 }).FrameRate = 30
      ∧ (normalizeConfig { SignalURL := "ws://h/ws", FrameRate := 24 }).FrameRate = 24
      ∧ publisherSession.captureInterval
          { streamID := "x", ws := some 1, cfg := normalizeConfig {} } = some 33333333 :=
  ⟨(normalizeConfig_bounds { FrameRate := -3, Width := -1 }).2.2.2.1 (by decide),
   (normalizeConfig_bounds { FrameRate := 60, Height := -2 }).2.2.2.2.1 (by decide),
   (normalizeConfig_bounds { SignalURL := "ws://h/ws", FrameRate := 24 }).2.2.2.2.2.1
     (by decide) (by decide),
   ((normalizeConfig_bounds {}).2.2.2.2.2.2.2.2.2.2 plainDialer "x" (some 7) true
     { streamID := "x", ws := some 1, cfg := normalizeConfig {} } rfl).1⟩

/-- C21. While the `activePublisher` slot holds a session, `StartPublisher`
with a non-empty stream id and a non-nil capture returns the error
"已有推流任务在运行" without any action (no dial, no write, no cancel) and leaves
the same session in the slot. `StopPublisher` leaves the slot empty, whatever
it held; the next `StartPublisher` then dials the relay first, and the error it
returns, if any, is the one of the dial or of the register write; when both
succeed it returns no error and its new session is in the slot. -/
theorem start_rejected_while_active (k : Dialer) (s : publisherSession) (streamID : String)
    (capture : Handle) (cfg : PublisherConfig) (hasStatusFn : Bool) (hid : streamID ≠ "") :
    StartPublisher k (some s) streamID (some capture) cfg hasStatusFn
        = { activePublisher := some s, err := some "已有推流任务在运行", actions := [] }
      ∧ (∀ a : Option publisherSession, (StopPublisher a).1 = none)
      ∧ (StartPublisher k (StopPublisher (some s)).1 streamID (some capture) cfg
            hasStatusFn).actions.head?
          = some (StartAction.dial (normalizeConfig cfg).SignalURL)
      ∧ (∀ e, k.dial (normalizeConfig cfg).SignalURL = Except.error e →
          (StartPublisher k (StopPublisher (some s)).1 streamID (some capture) cfg
              hasStatusFn).err = some e
            ∧ (StartPublisher k (StopPublisher (some s)).1 streamID (some capture) cfg
              hasStatusFn).activePublisher = none)
      ∧ (∀ ws e, k.dial (normalizeConfig cfg).SignalURL = Except.ok ws →
          k.writeJSON ws { Type_ := "register", StreamID := streamID } = some e →
          (StartPublisher k (StopPublisher (some s)).1 streamID (some capture) cfg
              hasStatusFn).err = some e
            ∧ (StartPublisher k (StopPublisher (some s)).1 streamID (some capture) cfg
              hasStatusFn).activePublisher = none)
      ∧ (∀ ws, k.dial (normalizeConfig cfg).SignalURL = Except.ok ws →
          k.writeJSON ws { Type_ := "register", StreamID := streamID } = none →
          StartPublisher k (StopPublisher (some s)).1 streamID (some capture) cfg hasStatusFn
            = { activePublisher := some
                  { streamID := streamID, cfg := normalizeConfig cfg,
                    hasStatusFn := hasStatusFn, ws := some ws }
                err := none
                actions :=
                  [StartAction.dial (normalizeConfig cfg).SignalURL,
                   StartAction.writeJSON ws { Type_ := "register", StreamID := streamID }]
                  ++ (if hasStatusFn then
                        [StartAction.status PublisherStatusConnected "信令连接成功"]
                      else [])
                  ++ [StartAction.startLoops] }) := by
  have hstop : ∀ a : Option publisherSession, (StopPublisher a).1 = none := by
    intro a
    cases a <;> rfl
  rw [hstop (some s), StartPublisher_empty_slot k streamID capture cfg hasStatusFn hid]
  refine ⟨by simp [StartPublisher, hid], hstop, ?_, ?_, ?_, ?_⟩
  · simp only [publisherSession.connectAndRegister, publisherSession.writeSignal]
    cases hd : k.dial (normalizeConfig cfg).SignalURL with
    | error e => simp
    | ok ws =>
      cases hw : k.writeJSON ws { Type_ := "register", StreamID := streamID } <;> simp [hw]
  · intro e hd
    simp [publisherSession.connectAndRegister, hd]
  · intro ws e hd hw
    simp [publisherSession.connectAndRegister, publisherSession.writeSignal, hd, hw]
  · intro ws hd hw
    simp [publisherSession.connectAndRegister, publisherSession.writeSignal, hd, hw,
      publisherSession.updateStatus]

theorem start_rejected_while_active_witness :
    StartPublisher plainDialer (some demoPublisher) "y" (some 7) {} true
        = { activePublisher := some demoPublisher, err := some "已有推流任务在运行",
            actions := [] }
      ∧ StartPublisher plainDialer (StopPublisher (some demoPublisher)).1 "y" (some 7) {} true
        = { activePublisher := some
              { streamID := "y", cfg := normalizeConfig {}, hasStatusFn := true, ws := some 1 }
            err := none
            actions :=
              [StartAction.dial (normalizeConfig {}).SignalURL,
               StartAction.writeJSON 1 { Type_ := "register", StreamID := "y" }]
              ++ (if true = true then
                    [StartAction.status PublisherStatusConnected "信令连接成功"]
                  else [])
              ++ [StartAction.startLoops] } :=
  ⟨(start_rejected_while_active plainDialer demoPublisher "y" 7 {} true (by decide)).1,
   (start_rejected_while_active plainDialer demoPublisher "y" 7 {} true
      (by decide)).2.2.2.2.2 1 rfl rfl⟩

/-! ## Viewer entries that outlive their connection -/

/-- C23 (evaluation at the failing inputs). Each of the runs
`staleBySecondStream`, `staleBySecondPeerID` and `staleByUnsubscribe` is
possible, and in the reachable state it ends in the viewer set of stream "x"
still holds, under "v1", the connection that closed: it has left `Clients` and
its queue is closed. From that state an answer or an ice_candidate for "v1"
routed from the publisher, an `unregister` of "x", and the close of the
publisher each panic on the send. -/
theorem closed_viewer_still_referenced :
    (run NewServer staleBySecondStream = some (stateAfter staleBySecondStream)
      ∧ Reachable (stateAfter staleBySecondStream)
      ∧ (stateAfter staleBySecondStream).viewerOf "x" "v1" = some 2
      ∧ 2 ∉ (stateAfter staleBySecondStream).Clients
      ∧ ((stateAfter staleBySecondStream).heap 2).SendClosed = true
      ∧ 0 ∈ (stateAfter staleBySecondStream).Clients
      ∧ RouteMessage (stateAfter staleBySecondStream) 0
          { Type_ := MsgTypeAnswer, StreamID := "x", PeerID := "v1" } = none
      ∧ RouteMessage (stateAfter staleBySecondStream) 0
          { Type_ := MsgTypeICECandidate, StreamID := "x", PeerID := "v1" } = none
      ∧ RouteMessage (stateAfter staleBySecondStream) 0
          { Type_ := MsgTypeUnregister, StreamID := "x" } = none
      ∧ unregisterClient (stateAfter staleBySecondStream) 0 = none)
    ∧ (run NewServer staleBySecondPeerID = some (stateAfter staleBySecondPeerID)
      ∧ Reachable (stateAfter staleBySecondPeerID)
      ∧ (stateAfter staleBySecondPeerID).viewerOf "x" "v1" = some 1
      ∧ 1 ∉ (stateAfter staleBySecondPeerID).Clients
      ∧ ((stateAfter staleBySecondPeerID).heap 1).SendClosed = true
      ∧ 0 ∈ (stateAfter staleBySecondPeerID).Clients
      ∧ RouteMessage (stateAfter staleBySecondPeerID) 0
          { Type_ := MsgTypeAnswer, StreamID := "x", PeerID := "v1" } = none
      ∧ RouteMessage (stateAfter staleBySecondPeerID) 0
          { Type_ := MsgTypeICECandidate, StreamID := "x", PeerID := "v1" } = none
      ∧ RouteMessage (stateAfter staleBySecondPeerID) 0
          { Type_ := MsgTypeUnregister, StreamID := "x" } = none
      ∧ unregisterClient (stateAfter staleBySecondPeerID) 0 = none)
    ∧ (run NewServer staleByUnsubscribe = some (stateAfter staleByUnsubscribe)
      ∧ Reachable (stateAfter staleByUnsubscribe)
      ∧ (stateAfter staleByUnsubscribe).viewerOf "x" "v1" = some 2
      ∧ 2 ∉ (stateAfter staleByUnsubscribe).Clients
      ∧ ((stateAfter staleByUnsubscribe).heap 2).SendClosed = true
      ∧ 0 ∈ (stateAfter staleByUnsubscribe).Clients
      ∧ RouteMessage (stateAfter staleByUnsubscribe) 0
          { Type_ := MsgTypeAnswer, StreamID := "x", PeerID := "v1" } = none
      ∧ RouteMessage (stateAfter staleByUnsubscribe) 0
          { Type_ := MsgTypeICECandidate, StreamID := "x", PeerID := "v1" } = none
      ∧ RouteMessage (stateAfter staleByUnsubscribe) 0
          { Type_ := MsgTypeUnregister, StreamID := "x" } = none
      ∧ unregisterClient (stateAfter staleByUnsubscribe) 0 = none) := by
  have h1 : run NewServer staleBySecondStream = some (stateAfter staleBySecondStream) := rfl
  have h2 : run NewServer staleBySecondPeerID = some (stateAfter staleBySecondPeerID) := rfl
  have h3 : run NewServer staleByUnsubscribe = some (stateAfter staleByUnsubscribe) := rfl
  exact ⟨⟨h1, Reachable.of_run _ Reachable.init h1, by decide, by decide, rfl, by decide,
      rfl, rfl, rfl, rfl⟩,
    ⟨h2, Reachable.of_run _ Reachable.init h2, by decide, by decide, rfl, by decide,
      rfl, rfl, rfl, rfl⟩,
    ⟨h3, Reachable.of_run _ Reachable.init h3, by decide, by decide, rfl, by decide,
      rfl, rfl, rfl, rfl⟩⟩

/-! ## Sends that reach a closed queue -/

/-- C4 (evaluation at the failing input). The run `orphanWithViewer` is
possible. In the state it ends in, stream "x" has publisher 0, whose queue
holds 2 messages, so is not full; connection 1 is live, has role viewer and
streamID "x", and is stored in the viewer set of "x" under "v1". Connection 0
has left `Clients` and its queue is closed. Routing an offer with streamID
"x" from connection 1 panics on the send: nothing is enqueued. -/
theorem offer_panics_on_closed_publisher :
    run NewServer orphanWithViewer = some (stateAfter orphanWithViewer)
      ∧ Reachable (stateAfter orphanWithViewer)
      ∧ (stateAfter orphanWithViewer).Streams.lookup "x"
          = some { Publisher := some 0, Viewers := AList.singleton "v1" 1 }
      ∧ ((stateAfter orphanWithViewer).heap 0).Send.length = 2
      ∧ 1 ∈ (stateAfter orphanWithViewer).Clients
      ∧ ((stateAfter orphanWithViewer).heap 1).Role = "viewer"
      ∧ ((stateAfter orphanWithViewer).heap 1).StreamID = "x"
      ∧ 0 ∉ (stateAfter orphanWithViewer).Clients
      ∧ ((stateAfter orphanWithViewer).heap 0).SendClosed = true
      ∧ RouteMessage (stateAfter orphanWithViewer) 1
          { Type_ := MsgTypeOffer, StreamID := "x", PeerID := "v1", Data := Payload.raw "sdp" }
          = none := by
  have h : run NewServer orphanWithViewer = some (stateAfter orphanWithViewer) := rfl
  exact ⟨h, Reachable.of_run _ Reachable.init h, rfl, rfl, by decide, rfl, rfl, by decide,
    rfl, rfl⟩

/-- C12 (evaluation at the failing input). The run `staleWithLiveViewer` is
possible. In the state it ends in, connection 0 is live, has role publisher
and streamID "x", and is the publisher recorded for stream "x"; the viewer set
of "x" holds the live connection 2 under "v3" and, under "v1", connection 1,
which has left `Clients` and whose queue is closed. Routing `unregister("x")`
from connection 0 panics on the send to connection 1: the stream is not
deleted and no success reply is sent. -/
theorem unregister_panics_on_closed_viewer :
    run NewServer staleWithLiveViewer = some (stateAfter staleWithLiveViewer)
      ∧ Reachable (stateAfter staleWithLiveViewer)
      ∧ 0 ∈ (stateAfter staleWithLiveViewer).Clients
      ∧ ((stateAfter staleWithLiveViewer).heap 0).Role = "publisher"
      ∧ ((stateAfter staleWithLiveViewer).heap 0).StreamID = "x"
      ∧ ((stateAfter staleWithLiveViewer).Streams.lookup "x").map (fun st => st.Publisher)
          = some (some 0)
      ∧ (stateAfter staleWithLiveViewer).viewerOf "x" "v3" = some 2
      ∧ 2 ∈ (stateAfter staleWithLiveViewer).Clients
      ∧ (stateAfter staleWithLiveViewer).viewerOf "x" "v1" = some 1
      ∧ 1 ∉ (stateAfter staleWithLiveViewer).Clients
      ∧ ((stateAfter staleWithLiveViewer).heap 1).SendClosed = true
      ∧ RouteMessage (stateAfter staleWithLiveViewer) 0
          { Type_ := MsgTypeUnregister, StreamID := "x" } = none := by
  have h : run NewServer staleWithLiveViewer = some (stateAfter staleWithLiveViewer) := rfl
  exact ⟨h, Reachable.of_run _ Reachable.init h, by decide, rfl, rfl, by decide, by decide,
    by decide, by decide, by decide, rfl, rfl⟩

end SnapScreen
